import Mathlib

/-!
# createdump: per-thread register acquisition and context projection

A shallow embedding of `src/coreclr/debug/createdump/threadinfounix.cpp`:

* `ThreadInfo::Initialize` and `ThreadInfo::GetRegistersWithPTrace`, which read the
  raw register blocks of one thread through `GetStatus` and `ptrace`;
* `ThreadInfo::GetThreadContext`, which projects the raw blocks into a `CONTEXT`
  record, one variant per target architecture (the `#if` branches of the source).

Machine integers are natural numbers; an assignment to a narrower field is an
explicit `% 2 ^ w`.  Fixed-size arrays are functions on `Fin n`.
-/

namespace CreateDump

/-! ## Raw memory helpers -/

/-- Narrowing store into an unsigned field of `w` bits. -/
def trunc (w : Nat) (v : Nat) : Nat := v % 2 ^ w

/-- What `memcpy(dst, src, nbytes)` does to an array `dst` of `d` elements when both arrays
have elements of `elem` bytes and `nbytes` is a multiple of `elem`: element `i` of the
destination is overwritten by element `i` of the source when its offset `i * elem` lies
below `nbytes` (and the source, of `s` elements, has such an element). -/
def memcpy (elem : Nat) {d s : Nat} (dst : Fin d → Nat) (src : Fin s → Nat) (nbytes : Nat) :
    Fin d → Nat :=
  fun i => if h : i.val * elem < nbytes ∧ i.val < s then src ⟨i.val, h.2⟩ else dst i

/-! ## ThreadInfo -/

/-- The members of `ThreadInfo` that `threadinfounix.cpp` reads or writes.  `G`, `F` and `E`
are the target's raw register structures: `m_gpRegisters`, `m_fpRegisters` and the extended
block (`m_fpxRegisters` on i386, `m_vfpRegisters` on ARM with VFP). -/
structure ThreadInfo (G F E : Type) where
  m_tid : Int
  m_ppid : Int
  m_tgid : Int
  m_gpRegisters : G
  m_fpRegisters : F
  m_xRegisters : E

/-! ## x86-64 -/

namespace X64

/-- The raw general-register block `struct user_regs_struct` of the system header, fields in
declaration order, each an `unsigned long long` (64 bits). -/
structure user_regs_struct where
  r15 : Nat
  r14 : Nat
  r13 : Nat
  r12 : Nat
  rbp : Nat
  rbx : Nat
  r11 : Nat
  r10 : Nat
  r9 : Nat
  r8 : Nat
  rax : Nat
  rcx : Nat
  rdx : Nat
  rsi : Nat
  rdi : Nat
  orig_rax : Nat
  rip : Nat
  cs : Nat
  eflags : Nat
  rsp : Nat
  ss : Nat
  fs_base : Nat
  gs_base : Nat
  ds : Nat
  es : Nat
  fs : Nat
  gs : Nat

/-- The raw floating-point block `struct user_fpregs_struct` of the system header: `cwd`,
`swd`, `ftw`, `fop` are `unsigned short` (16 bits), `rip`, `rdp` 64 bits, `mxcsr`,
`mxcr_mask` 32 bits; `st_space` (32 words of 32 bits) and `xmm_space` (64 words of 32 bits)
are kept as their 128 and 256 bytes. -/
structure user_fpregs_struct where
  cwd : Nat
  swd : Nat
  ftw : Nat
  fop : Nat
  rip : Nat
  rdp : Nat
  mxcsr : Nat
  mxcr_mask : Nat
  st_space : Fin 128 → Nat
  xmm_space : Fin 256 → Nat

/-- Modelled from the spec: the save area `XMM_SAVE_AREA32` of the record is declared in the
platform header, which is not under `src/`.  The fields are those the source assigns, with
the widths declared there: `ControlWord`, `StatusWord`, `ErrorOpcode`, `ErrorSelector`,
`DataSelector` are `WORD` (16 bits), `TagWord` is `BYTE` (8 bits), the offsets and `MxCsr`,
`MxCsr_Mask` are `DWORD` (32 bits); `FloatRegisters` (8 entries of 16 bytes) and
`XmmRegisters` (16 entries of 16 bytes) are kept as their bytes. -/
structure XMM_SAVE_AREA32 where
  ControlWord : Nat
  StatusWord : Nat
  TagWord : Nat
  ErrorOpcode : Nat
  ErrorOffset : Nat
  ErrorSelector : Nat
  DataOffset : Nat
  DataSelector : Nat
  MxCsr : Nat
  MxCsr_Mask : Nat
  FloatRegisters : Fin 128 → Nat
  XmmRegisters : Fin 256 → Nat

/-- Modelled from the spec: the x86-64 `CONTEXT` record is declared in the platform header,
which is not under `src/`.  The fields are those the source assigns, the debug registers
and `MxCsr`, with the widths declared there: `ContextFlags`, `MxCsr` and `EFlags` are
`DWORD` (32 bits), the segment selectors `WORD` (16 bits), the other registers `DWORD64`
(64 bits). -/
structure CONTEXT where
  ContextFlags : Nat
  MxCsr : Nat
  SegCs : Nat
  SegDs : Nat
  SegEs : Nat
  SegFs : Nat
  SegGs : Nat
  SegSs : Nat
  EFlags : Nat
  Dr0 : Nat
  Dr1 : Nat
  Dr2 : Nat
  Dr3 : Nat
  Dr6 : Nat
  Dr7 : Nat
  Rax : Nat
  Rcx : Nat
  Rdx : Nat
  Rbx : Nat
  Rsp : Nat
  Rbp : Nat
  Rsi : Nat
  Rdi : Nat
  R8 : Nat
  R9 : Nat
  R10 : Nat
  R11 : Nat
  R12 : Nat
  R13 : Nat
  R14 : Nat
  R15 : Nat
  Rip : Nat
  FltSave : XMM_SAVE_AREA32

/-- Modelled from the spec: the `CONTEXT_*` category constants are declared in the platform
header, which is not under `src/`; there each is the architecture tag bit (`CONTEXT_AMD64`,
`0x100000`) OR one category bit. -/
def CONTEXT_AMD64 : Nat := 0x100000

/-- Modelled from the spec: the Control category constant, tag bit OR `0x1`. -/
def CONTEXT_CONTROL : Nat := CONTEXT_AMD64 ||| 0x1

/-- Modelled from the spec: the Integer category constant, tag bit OR `0x2`. -/
def CONTEXT_INTEGER : Nat := CONTEXT_AMD64 ||| 0x2

/-- Modelled from the spec: the Segments category constant, tag bit OR `0x4`. -/
def CONTEXT_SEGMENTS : Nat := CONTEXT_AMD64 ||| 0x4

/-- Modelled from the spec: the FloatingPoint category constant, tag bit OR `0x8`. -/
def CONTEXT_FLOATING_POINT : Nat := CONTEXT_AMD64 ||| 0x8

/-- Modelled from the spec: the accessor macro `FPREG_ErrorOffset` is declared in a header
that is not under `src/`; it reads the low 32 bits of the 64-bit `rip` field. -/
def FPREG_ErrorOffset (fp : user_fpregs_struct) : Nat := fp.rip % 2 ^ 32

/-- Modelled from the spec: `FPREG_ErrorSelector` reads the 16 bits above the low 32 bits of
`rip`. -/
def FPREG_ErrorSelector (fp : user_fpregs_struct) : Nat := fp.rip / 2 ^ 32 % 2 ^ 16

/-- Modelled from the spec: `FPREG_DataOffset` reads the low 32 bits of `rdp`. -/
def FPREG_DataOffset (fp : user_fpregs_struct) : Nat := fp.rdp % 2 ^ 32

/-- Modelled from the spec: `FPREG_DataSelector` reads the 16 bits above the low 32 bits of
`rdp`. -/
def FPREG_DataSelector (fp : user_fpregs_struct) : Nat := fp.rdp / 2 ^ 32 % 2 ^ 16

/-- Byte size of `context->FltSave.FloatRegisters`. -/
def sizeof_FloatRegisters : Nat := 8 * 16

/-- Byte size of `m_fpRegisters.st_space`. -/
def sizeof_st_space : Nat := 32 * 4

/-- Byte size of `context->FltSave.XmmRegisters`. -/
def sizeof_XmmRegisters : Nat := 16 * 16

/-- Byte size of `m_fpRegisters.xmm_space`. -/
def sizeof_xmm_space : Nat := 64 * 4

/-- The `ThreadInfo` of an x86-64 build: no extended block. -/
abbrev Thread := ThreadInfo user_regs_struct user_fpregs_struct Unit

/-- `ThreadInfo::GetThreadContext`, the `__x86_64__` branch (source lines 117-172).  The two
`assert`s of the FloatingPoint branch compare compile-time sizes
(`sizeof_FloatRegisters = sizeof_st_space`, `sizeof_XmmRegisters = sizeof_xmm_space`). -/
def GetThreadContext (flags : Nat) (ti : Thread) (context : CONTEXT) : CONTEXT :=
  let context := { context with ContextFlags := flags }
  let context :=
    if (flags &&& CONTEXT_CONTROL) = CONTEXT_CONTROL then
      { context with
        Rbp := ti.m_gpRegisters.rbp
        Rip := ti.m_gpRegisters.rip
        SegCs := trunc 16 ti.m_gpRegisters.cs
        EFlags := trunc 32 ti.m_gpRegisters.eflags
        SegSs := trunc 16 ti.m_gpRegisters.ss
        Rsp := ti.m_gpRegisters.rsp }
    else context
  let context :=
    if (flags &&& CONTEXT_INTEGER) = CONTEXT_INTEGER then
      { context with
        Rdi := ti.m_gpRegisters.rdi
        Rsi := ti.m_gpRegisters.rsi
        Rbx := ti.m_gpRegisters.rbx
        Rdx := ti.m_gpRegisters.rdx
        Rcx := ti.m_gpRegisters.rcx
        Rax := ti.m_gpRegisters.rax
        R8 := ti.m_gpRegisters.r8
        R9 := ti.m_gpRegisters.r9
        R10 := ti.m_gpRegisters.r10
        R11 := ti.m_gpRegisters.r11
        R12 := ti.m_gpRegisters.r12
        R13 := ti.m_gpRegisters.r13
        R14 := ti.m_gpRegisters.r14
        R15 := ti.m_gpRegisters.r15 }
    else context
  let context :=
    if (flags &&& CONTEXT_SEGMENTS) = CONTEXT_SEGMENTS then
      { context with
        SegDs := trunc 16 ti.m_gpRegisters.ds
        SegEs := trunc 16 ti.m_gpRegisters.es
        SegFs := trunc 16 ti.m_gpRegisters.fs
        SegGs := trunc 16 ti.m_gpRegisters.gs }
    else context
  let context :=
    if (flags &&& CONTEXT_FLOATING_POINT) = CONTEXT_FLOATING_POINT then
      { context with
        FltSave :=
          { ControlWord := ti.m_fpRegisters.cwd
            StatusWord := ti.m_fpRegisters.swd
            TagWord := trunc 8 ti.m_fpRegisters.ftw
            ErrorOpcode := ti.m_fpRegisters.fop
            ErrorOffset := FPREG_ErrorOffset ti.m_fpRegisters
            ErrorSelector := FPREG_ErrorSelector ti.m_fpRegisters
            DataOffset := FPREG_DataOffset ti.m_fpRegisters
            DataSelector := FPREG_DataSelector ti.m_fpRegisters
            MxCsr := ti.m_fpRegisters.mxcsr
            MxCsr_Mask := ti.m_fpRegisters.mxcr_mask
            FloatRegisters :=
              memcpy 1 context.FltSave.FloatRegisters ti.m_fpRegisters.st_space
                sizeof_FloatRegisters
            XmmRegisters :=
              memcpy 1 context.FltSave.XmmRegisters ti.m_fpRegisters.xmm_space
                sizeof_XmmRegisters } }
    else context
  context

end X64

/-! ## ARM64 -/

namespace Arm64

/-- The raw general-register block `struct user_regs_struct` of the system header:
`regs[31]`, `sp`, `pc`, `pstate`, each an `unsigned long long` (64 bits). -/
structure user_regs_struct where
  regs : Fin 31 → Nat
  sp : Nat
  pc : Nat
  pstate : Nat

/-- The raw floating-point block `struct user_fpsimd_struct`: `vregs[32]` of 128 bits each,
`fpsr` and `fpcr` of 32 bits. -/
structure user_fpsimd_struct where
  vregs : Fin 32 → Nat
  fpsr : Nat
  fpcr : Nat

/-- Modelled from the spec: the ARM64 `CONTEXT` record is declared in the platform header,
which is not under `src/`.  The fields are those the source assigns, with the widths
declared there: `ContextFlags`, `Cpsr`, `Fpcr`, `Fpsr` are `DWORD` (32 bits), `X[29]`, `Fp`,
`Lr`, `Sp`, `Pc` are `DWORD64` (64 bits), `V[32]` 128 bits each. -/
structure CONTEXT where
  ContextFlags : Nat
  Cpsr : Nat
  X : Fin 29 → Nat
  Fp : Nat
  Lr : Nat
  Sp : Nat
  Pc : Nat
  V : Fin 32 → Nat
  Fpcr : Nat
  Fpsr : Nat

/-- Modelled from the spec: the `CONTEXT_*` category constants are declared in the platform
header, which is not under `src/`; there each is the architecture tag bit (`CONTEXT_ARM64`,
`0x00400000`) OR one category bit. -/
def CONTEXT_ARM64 : Nat := 0x00400000

/-- Modelled from the spec: the Control category constant, tag bit OR `0x1`. -/
def CONTEXT_CONTROL : Nat := CONTEXT_ARM64 ||| 0x1

/-- Modelled from the spec: the Integer category constant, tag bit OR `0x2`. -/
def CONTEXT_INTEGER : Nat := CONTEXT_ARM64 ||| 0x2

/-- Modelled from the spec: the FloatingPoint category constant, tag bit OR `0x4`. -/
def CONTEXT_FLOATING_POINT : Nat := CONTEXT_ARM64 ||| 0x4

/-- The macro `MCREG_Fp` (source line 8). -/
def MCREG_Fp (mc : user_regs_struct) : Nat := mc.regs 29

/-- The macro `MCREG_Lr` (source line 9). -/
def MCREG_Lr (mc : user_regs_struct) : Nat := mc.regs 30

/-- The macro `MCREG_Sp` (source line 10). -/
def MCREG_Sp (mc : user_regs_struct) : Nat := mc.sp

/-- The macro `MCREG_Pc` (source line 11). -/
def MCREG_Pc (mc : user_regs_struct) : Nat := mc.pc

/-- The macro `MCREG_Cpsr` (source line 12). -/
def MCREG_Cpsr (mc : user_regs_struct) : Nat := mc.pstate

/-- Byte size of `m_gpRegisters.regs`. -/
def sizeof_regs : Nat := 31 * 8

/-- Byte size of `context->X`. -/
def sizeof_X : Nat := 29 * 8

/-- Byte size of `context->Fp`. -/
def sizeof_Fp : Nat := 8

/-- Byte size of `context->Lr`. -/
def sizeof_Lr : Nat := 8

/-- Byte size of `m_fpRegisters.vregs`. -/
def sizeof_vregs : Nat := 32 * 16

/-- Byte size of `context->V`. -/
def sizeof_V : Nat := 32 * 16

/-- The `ThreadInfo` of an ARM64 build: no extended block. -/
abbrev Thread := ThreadInfo user_regs_struct user_fpsimd_struct Unit

/-- `ThreadInfo::GetThreadContext`, the `__aarch64__` branch (source lines 117, 175-194).
The `assert`s compare compile-time sizes (`sizeof_regs = sizeof_X + sizeof_Fp + sizeof_Lr`,
`sizeof_vregs = sizeof_V`). -/
def GetThreadContext (flags : Nat) (ti : Thread) (context : CONTEXT) : CONTEXT :=
  let context := { context with ContextFlags := flags }
  let context :=
    if (flags &&& CONTEXT_CONTROL) = CONTEXT_CONTROL then
      { context with
        Fp := MCREG_Fp ti.m_gpRegisters
        Lr := MCREG_Lr ti.m_gpRegisters
        Sp := MCREG_Sp ti.m_gpRegisters
        Pc := MCREG_Pc ti.m_gpRegisters
        Cpsr := trunc 32 (MCREG_Cpsr ti.m_gpRegisters) }
    else context
  let context :=
    if (flags &&& CONTEXT_INTEGER) = CONTEXT_INTEGER then
      { context with X := memcpy 8 context.X ti.m_gpRegisters.regs sizeof_X }
    else context
  let context :=
    if (flags &&& CONTEXT_FLOATING_POINT) = CONTEXT_FLOATING_POINT then
      { context with
        V := memcpy 16 context.V ti.m_fpRegisters.vregs sizeof_V
        Fpcr := ti.m_fpRegisters.fpcr
        Fpsr := ti.m_fpRegisters.fpsr }
    else context
  context

end Arm64

/-! ## ARM (32-bit) -/

namespace Arm

/-- The raw general-register block `struct user_regs` through its `ARM_*` accessors (18
words of 32 bits). -/
structure user_regs where
  ARM_r0 : Nat
  ARM_r1 : Nat
  ARM_r2 : Nat
  ARM_r3 : Nat
  ARM_r4 : Nat
  ARM_r5 : Nat
  ARM_r6 : Nat
  ARM_r7 : Nat
  ARM_r8 : Nat
  ARM_r9 : Nat
  ARM_r10 : Nat
  ARM_fp : Nat
  ARM_ip : Nat
  ARM_sp : Nat
  ARM_lr : Nat
  ARM_pc : Nat
  ARM_cpsr : Nat
  ARM_ORIG_r0 : Nat

/-- The raw floating-point block `struct user_fpregs` (the `NT_FPREGSET` block); no field of
it is read by `GetThreadContext`. -/
structure user_fpregs where
  fpregs : Fin 8 → Nat
  fpsr : Nat
  fpcr : Nat
  ftype : Fin 8 → Nat
  init_flag : Nat

/-- The raw VFP block `struct user_vfpregs_struct`: `fpregs[32]` of 64 bits, `fpscr` of 32
bits. -/
structure user_vfpregs_struct where
  fpregs : Fin 32 → Nat
  fpscr : Nat

/-- Modelled from the spec: the 32-bit ARM `CONTEXT` record is declared in the platform
header, which is not under `src/`.  The fields are those the source assigns, with the widths
declared there: every scalar field is `DWORD` (32 bits), `D[32]` 64 bits each. -/
structure CONTEXT where
  ContextFlags : Nat
  R0 : Nat
  R1 : Nat
  R2 : Nat
  R3 : Nat
  R4 : Nat
  R5 : Nat
  R6 : Nat
  R7 : Nat
  R8 : Nat
  R9 : Nat
  R10 : Nat
  R11 : Nat
  R12 : Nat
  Sp : Nat
  Lr : Nat
  Pc : Nat
  Cpsr : Nat
  Fpscr : Nat
  D : Fin 32 → Nat

/-- Modelled from the spec: the `CONTEXT_*` category constants are declared in the platform
header, which is not under `src/`; there each is the architecture tag bit (`CONTEXT_ARM`,
`0x00200000`) OR one category bit. -/
def CONTEXT_ARM : Nat := 0x00200000

/-- Modelled from the spec: the Control category constant, tag bit OR `0x1`. -/
def CONTEXT_CONTROL : Nat := CONTEXT_ARM ||| 0x1

/-- Modelled from the spec: the Integer category constant, tag bit OR `0x2`. -/
def CONTEXT_INTEGER : Nat := CONTEXT_ARM ||| 0x2

/-- Modelled from the spec: the FloatingPoint category constant, tag bit OR `0x4`. -/
def CONTEXT_FLOATING_POINT : Nat := CONTEXT_ARM ||| 0x4

/-- Byte size of `context->D`. -/
def sizeof_D : Nat := 32 * 8

/-- Byte size of `m_vfpRegisters.fpregs`. -/
def sizeof_fpregs : Nat := 32 * 8

/-- The `ThreadInfo` of a 32-bit ARM build; `m_xRegisters` is `m_vfpRegisters`. -/
abbrev Thread := ThreadInfo user_regs user_fpregs user_vfpregs_struct

/-- `ThreadInfo::GetThreadContext`, the `__arm__` branch (source lines 117, 196-227).  `vfp`
says whether the build has `defined(__VFP_FP__) && !defined(__SOFTFP__)`; without it the
FloatingPoint branch is empty.  The `assert` compares compile-time sizes
(`sizeof_D = sizeof_fpregs`). -/
def GetThreadContext (vfp : Bool) (flags : Nat) (ti : Thread) (context : CONTEXT) : CONTEXT :=
  let context := { context with ContextFlags := flags }
  let context :=
    if (flags &&& CONTEXT_CONTROL) = CONTEXT_CONTROL then
      { context with
        Sp := ti.m_gpRegisters.ARM_sp
        Lr := ti.m_gpRegisters.ARM_lr
        Pc := ti.m_gpRegisters.ARM_pc
        Cpsr := ti.m_gpRegisters.ARM_cpsr }
    else context
  let context :=
    if (flags &&& CONTEXT_INTEGER) = CONTEXT_INTEGER then
      { context with
        R0 := ti.m_gpRegisters.ARM_r0
        R1 := ti.m_gpRegisters.ARM_r1
        R2 := ti.m_gpRegisters.ARM_r2
        R3 := ti.m_gpRegisters.ARM_r3
        R4 := ti.m_gpRegisters.ARM_r4
        R5 := ti.m_gpRegisters.ARM_r5
        R6 := ti.m_gpRegisters.ARM_r6
        R7 := ti.m_gpRegisters.ARM_r7
        R8 := ti.m_gpRegisters.ARM_r8
        R9 := ti.m_gpRegisters.ARM_r9
        R10 := ti.m_gpRegisters.ARM_r10
        R11 := ti.m_gpRegisters.ARM_fp
        R12 := ti.m_gpRegisters.ARM_ip }
    else context
  let context :=
    if (flags &&& CONTEXT_FLOATING_POINT) = CONTEXT_FLOATING_POINT then
      if vfp then
        { context with
          Fpscr := ti.m_xRegisters.fpscr
          D := memcpy 8 context.D ti.m_xRegisters.fpregs sizeof_D }
      else context
    else context
  context

end Arm

/-! ## LoongArch64 -/

namespace LoongArch64

/-- The raw general-register block `struct user_regs_struct`: `regs[32]`, `orig_a0`,
`csr_era`, `csr_badv`, all 64 bits wide. -/
structure user_regs_struct where
  regs : Fin 32 → Nat
  orig_a0 : Nat
  csr_era : Nat
  csr_badv : Nat

/-- The raw floating-point block, through the members the source reads: `regs[32]` of 64
bits each, `fcc` and `fcsr`, each as wide as the record field it is stored into. -/
structure user_fp_struct where
  regs : Fin 32 → Nat
  fcc : Nat
  fcsr : Nat

/-- Modelled from the spec: the LoongArch64 `CONTEXT` record is declared in the platform
header, which is not under `src/`.  Fields in declaration order: `ContextFlags` and `Fcsr`
are 32 bits wide, every other scalar and each entry of `F[32]` 64 bits.  The registers from
`R0` to `Pc` lie consecutively. -/
structure CONTEXT where
  ContextFlags : Nat
  R0 : Nat
  Ra : Nat
  Tp : Nat
  Sp : Nat
  A0 : Nat
  A1 : Nat
  A2 : Nat
  A3 : Nat
  A4 : Nat
  A5 : Nat
  A6 : Nat
  A7 : Nat
  T0 : Nat
  T1 : Nat
  T2 : Nat
  T3 : Nat
  T4 : Nat
  T5 : Nat
  T6 : Nat
  T7 : Nat
  T8 : Nat
  X0 : Nat
  Fp : Nat
  S0 : Nat
  S1 : Nat
  S2 : Nat
  S3 : Nat
  S4 : Nat
  S5 : Nat
  S6 : Nat
  S7 : Nat
  S8 : Nat
  Pc : Nat
  F : Fin 32 → Nat
  Fcc : Nat
  Fcsr : Nat

/-- Modelled from the spec: the `CONTEXT_*` category constants are declared in the platform
header, which is not under `src/`; there each is the architecture tag bit
(`CONTEXT_LOONGARCH64`, `0x00800000`) OR one category bit. -/
def CONTEXT_LOONGARCH64 : Nat := 0x00800000

/-- Modelled from the spec: the Control category constant, tag bit OR `0x1`. -/
def CONTEXT_CONTROL : Nat := CONTEXT_LOONGARCH64 ||| 0x1

/-- Modelled from the spec: the Integer category constant, tag bit OR `0x2`. -/
def CONTEXT_INTEGER : Nat := CONTEXT_LOONGARCH64 ||| 0x2

/-- Modelled from the spec: the FloatingPoint category constant, tag bit OR `0x4`. -/
def CONTEXT_FLOATING_POINT : Nat := CONTEXT_LOONGARCH64 ||| 0x4

/-- Modelled from the spec: the accessor macros `MCREG_*` of this target are declared in a
header that is not under `src/`; the return address is `regs[1]`. -/
def MCREG_Ra (mc : user_regs_struct) : Nat := mc.regs 1

/-- Modelled from the spec: the stack pointer is `regs[3]` (as in the `TRACE` of
`Initialize`, source line 61). -/
def MCREG_Sp (mc : user_regs_struct) : Nat := mc.regs 3

/-- Modelled from the spec: the frame pointer is `regs[22]`. -/
def MCREG_Fp (mc : user_regs_struct) : Nat := mc.regs 22

/-- Modelled from the spec: the program counter is `csr_era` (as in the `TRACE` of
`Initialize`, source line 61). -/
def MCREG_Pc (mc : user_regs_struct) : Nat := mc.csr_era

/-- Byte size of `context->F`. -/
def sizeof_F : Nat := 32 * 8

/-- Byte size of `m_fpRegisters.regs`. -/
def sizeof_fp_regs : Nat := 32 * 8

/-- The `ThreadInfo` of a LoongArch64 build: no extended block. -/
abbrev Thread := ThreadInfo user_regs_struct user_fp_struct Unit

/-- `ThreadInfo::GetThreadContext`, the `__loongarch64` branch (source lines 117, 229-247).
Each category test is `flags & CATEGORY`, true when the two share any bit.  The first
`memcpy` of the Integer branch stores `regs[4..21]` into the 18 consecutive registers from
`A0` (`A0..A7`, `T0..T8`, `X0`), the second `regs[23..31]` into `S0..S8`.  The `assert`
compares compile-time sizes (`sizeof_F = sizeof_fp_regs`). -/
def GetThreadContext (flags : Nat) (ti : Thread) (context : CONTEXT) : CONTEXT :=
  let context := { context with ContextFlags := flags }
  let context :=
    if (flags &&& CONTEXT_CONTROL) ≠ 0 then
      { context with
        Ra := MCREG_Ra ti.m_gpRegisters
        Sp := MCREG_Sp ti.m_gpRegisters
        Fp := MCREG_Fp ti.m_gpRegisters
        Pc := MCREG_Pc ti.m_gpRegisters }
    else context
  let context :=
    if (flags &&& CONTEXT_INTEGER) ≠ 0 then
      { context with
        A0 := ti.m_gpRegisters.regs 4
        A1 := ti.m_gpRegisters.regs 5
        A2 := ti.m_gpRegisters.regs 6
        A3 := ti.m_gpRegisters.regs 7
        A4 := ti.m_gpRegisters.regs 8
        A5 := ti.m_gpRegisters.regs 9
        A6 := ti.m_gpRegisters.regs 10
        A7 := ti.m_gpRegisters.regs 11
        T0 := ti.m_gpRegisters.regs 12
        T1 := ti.m_gpRegisters.regs 13
        T2 := ti.m_gpRegisters.regs 14
        T3 := ti.m_gpRegisters.regs 15
        T4 := ti.m_gpRegisters.regs 16
        T5 := ti.m_gpRegisters.regs 17
        T6 := ti.m_gpRegisters.regs 18
        T7 := ti.m_gpRegisters.regs 19
        T8 := ti.m_gpRegisters.regs 20
        X0 := ti.m_gpRegisters.regs 21
        S0 := ti.m_gpRegisters.regs 23
        S1 := ti.m_gpRegisters.regs 24
        S2 := ti.m_gpRegisters.regs 25
        S3 := ti.m_gpRegisters.regs 26
        S4 := ti.m_gpRegisters.regs 27
        S5 := ti.m_gpRegisters.regs 28
        S6 := ti.m_gpRegisters.regs 29
        S7 := ti.m_gpRegisters.regs 30
        S8 := ti.m_gpRegisters.regs 31 }
    else context
  let context :=
    if (flags &&& CONTEXT_FLOATING_POINT) ≠ 0 then
      { context with
        F := memcpy 8 context.F ti.m_fpRegisters.regs sizeof_F
        Fcsr := ti.m_fpRegisters.fcsr
        Fcc := ti.m_fpRegisters.fcc }
    else context
  context

end LoongArch64

/-! ## RISC-V -/

namespace RiscV

/-- The raw general-register block `struct user_regs_struct`, fields in declaration order,
all 64 bits wide. -/
structure user_regs_struct where
  pc : Nat
  ra : Nat
  sp : Nat
  gp : Nat
  tp : Nat
  t0 : Nat
  t1 : Nat
  t2 : Nat
  s0 : Nat
  s1 : Nat
  a0 : Nat
  a1 : Nat
  a2 : Nat
  a3 : Nat
  a4 : Nat
  a5 : Nat
  a6 : Nat
  a7 : Nat
  s2 : Nat
  s3 : Nat
  s4 : Nat
  s5 : Nat
  s6 : Nat
  s7 : Nat
  s8 : Nat
  s9 : Nat
  s10 : Nat
  s11 : Nat
  t3 : Nat
  t4 : Nat
  t5 : Nat
  t6 : Nat

/-- The raw floating-point block, through the members the source reads: `fpregs[32]` of 64
bits each and `fcsr`, as wide as the record field it is stored into. -/
structure user_fpregs_struct where
  fpregs : Fin 32 → Nat
  fcsr : Nat

/-- Modelled from the spec: the RISC-V `CONTEXT` record is declared in the platform header,
which is not under `src/`.  Fields in declaration order: `ContextFlags` and `Fcsr` are 32
bits wide, every other scalar and each entry of `F[32]` 64 bits. -/
structure CONTEXT where
  ContextFlags : Nat
  R0 : Nat
  Ra : Nat
  Sp : Nat
  Gp : Nat
  Tp : Nat
  T0 : Nat
  T1 : Nat
  T2 : Nat
  Fp : Nat
  S1 : Nat
  A0 : Nat
  A1 : Nat
  A2 : Nat
  A3 : Nat
  A4 : Nat
  A5 : Nat
  A6 : Nat
  A7 : Nat
  S2 : Nat
  S3 : Nat
  S4 : Nat
  S5 : Nat
  S6 : Nat
  S7 : Nat
  S8 : Nat
  S9 : Nat
  S10 : Nat
  S11 : Nat
  T3 : Nat
  T4 : Nat
  T5 : Nat
  T6 : Nat
  Pc : Nat
  F : Fin 32 → Nat
  Fcsr : Nat

/-- Modelled from the spec: the `CONTEXT_*` category constants are declared in the platform
header, which is not under `src/`; there each is the architecture tag bit
(`CONTEXT_RISCV64`, `0x01000000`) OR one category bit. -/
def CONTEXT_RISCV64 : Nat := 0x01000000

/-- Modelled from the spec: the Control category constant, tag bit OR `0x1`. -/
def CONTEXT_CONTROL : Nat := CONTEXT_RISCV64 ||| 0x1

/-- Modelled from the spec: the Integer category constant, tag bit OR `0x2`. -/
def CONTEXT_INTEGER : Nat := CONTEXT_RISCV64 ||| 0x2

/-- Modelled from the spec: the FloatingPoint category constant, tag bit OR `0x4`. -/
def CONTEXT_FLOATING_POINT : Nat := CONTEXT_RISCV64 ||| 0x4

/-- Modelled from the spec: the accessor macros `MCREG_*` of this target are declared in a
header that is not under `src/`; the return address is the field `ra`. -/
def MCREG_Ra (mc : user_regs_struct) : Nat := mc.ra

/-- Modelled from the spec: the stack pointer is the field `sp` (as in the `TRACE` of
`Initialize`, source line 63). -/
def MCREG_Sp (mc : user_regs_struct) : Nat := mc.sp

/-- Modelled from the spec: the frame pointer is the field `s0`. -/
def MCREG_Fp (mc : user_regs_struct) : Nat := mc.s0

/-- Modelled from the spec: the program counter is the field `pc` (as in the `TRACE` of
`Initialize`, source line 63). -/
def MCREG_Pc (mc : user_regs_struct) : Nat := mc.pc

/-- Byte size of `context->F`. -/
def sizeof_F : Nat := 32 * 8

/-- Byte size of `m_fpRegisters.fpregs`. -/
def sizeof_fpregs : Nat := 32 * 8

/-- The `ThreadInfo` of a RISC-V build: no extended block. -/
abbrev Thread := ThreadInfo user_regs_struct user_fpregs_struct Unit

/-- `ThreadInfo::GetThreadContext`, the `__riscv` branch (source lines 117, 249-293).  The
Control test is `(flags & CATEGORY) == CATEGORY`; the Integer and FloatingPoint tests are
`flags & CATEGORY`, true when the two share any bit.  The `assert` compares compile-time
sizes (`sizeof_F = sizeof_fpregs`). -/
def GetThreadContext (flags : Nat) (ti : Thread) (context : CONTEXT) : CONTEXT :=
  let context := { context with ContextFlags := flags }
  let context :=
    if (flags &&& CONTEXT_CONTROL) = CONTEXT_CONTROL then
      { context with
        Ra := MCREG_Ra ti.m_gpRegisters
        Sp := MCREG_Sp ti.m_gpRegisters
        Fp := MCREG_Fp ti.m_gpRegisters
        Pc := MCREG_Pc ti.m_gpRegisters }
    else context
  let context :=
    if (flags &&& CONTEXT_INTEGER) ≠ 0 then
      { context with
        Gp := ti.m_gpRegisters.gp
        Tp := ti.m_gpRegisters.tp
        T0 := ti.m_gpRegisters.t0
        T1 := ti.m_gpRegisters.t1
        T2 := ti.m_gpRegisters.t2
        S1 := ti.m_gpRegisters.s1
        A0 := ti.m_gpRegisters.a0
        A1 := ti.m_gpRegisters.a1
        A2 := ti.m_gpRegisters.a2
        A3 := ti.m_gpRegisters.a3
        A4 := ti.m_gpRegisters.a4
        A5 := ti.m_gpRegisters.a5
        A6 := ti.m_gpRegisters.a6
        A7 := ti.m_gpRegisters.a7
        S2 := ti.m_gpRegisters.s2
        S3 := ti.m_gpRegisters.s3
        S4 := ti.m_gpRegisters.s4
        S5 := ti.m_gpRegisters.s5
        S6 := ti.m_gpRegisters.s6
        S7 := ti.m_gpRegisters.s7
        S8 := ti.m_gpRegisters.s8
        S9 := ti.m_gpRegisters.s9
        S10 := ti.m_gpRegisters.s10
        S11 := ti.m_gpRegisters.s11
        T3 := ti.m_gpRegisters.t3
        T4 := ti.m_gpRegisters.t4
        T5 := ti.m_gpRegisters.t5
        T6 := ti.m_gpRegisters.t6 }
    else context
  let context :=
    if (flags &&& CONTEXT_FLOATING_POINT) ≠ 0 then
      { context with
        F := memcpy 8 context.F ti.m_fpRegisters.fpregs sizeof_F
        Fcsr := ti.m_fpRegisters.fcsr }
    else context
  context

end RiscV

/-! ## Acquisition: `Initialize` and `GetRegistersWithPTrace` -/

/-- The target chosen by the preprocessor.  `GetRegistersWithPTrace` has an `__i386__`
branch; `Initialize` and `GetThreadContext` stop the build with `#error` on that target. -/
inductive Arch where
  | x86_64
  | aarch64
  | arm
  | loongarch64
  | riscv
  | i386
  deriving DecidableEq

/-- What is fixed when the file is compiled: the target, whether
`defined(__VFP_FP__) && !defined(__SOFTFP__)` holds (`vfp`), whether `assert` is compiled in
(`asserts`; the `assert` of C expands to nothing when `NDEBUG` is defined, as in a release
build), the byte sizes `sizeof(m_gpRegisters)`, `sizeof(m_fpRegisters)`,
`sizeof(m_vfpRegisters)`, and the value of `ARM_VFPREGS_SIZE` when that name is defined. -/
structure Build where
  arch : Arch
  vfp : Bool
  asserts : Bool
  sizeof_gpRegisters : Nat
  sizeof_fpRegisters : Nat
  sizeof_vfpRegisters : Nat
  ARM_VFPREGS_SIZE : Option Nat

/-- How a call ends: it returns a `bool`, or an `assert` fails and the process is aborted. -/
inductive Outcome where
  | returned (value : Bool)
  | assertFailed
  deriving DecidableEq

/-- The calls a function makes to its collaborators, in order. -/
inductive Event where
  | GetStatus
  | GETREGSET_NT_PRSTATUS
  | GETREGSET_NT_FPREGSET
  | GETFPXREGS
  | GETVFPREGS
  | printf_error
  deriving DecidableEq

/-- A successful register retrieval: the content of the destination buffer after the call
and the number of bytes the kernel stored.  `PTRACE_GETREGSET` reports that number back in
`iov_len`; `PTRACE_GETFPXREGS` and `PTRACE_GETVFPREGS` report nothing. -/
structure Reply (B : Type) where
  data : B
  len : Nat

/-- Modelled from the spec: `GetStatus` and `ptrace` are not under `src/`.  The status read
answers with the parent id and the thread-group id or fails; each register retrieval answers
with a `Reply` or fails (`ptrace` returns `-1`), and a failed call leaves its destination and
`iov_len` as they were.  `extended` answers `PTRACE_GETFPXREGS` on i386 and
`PTRACE_GETVFPREGS` on ARM. -/
structure System (G F E : Type) where
  GetStatus : Option (Int × Int)
  NT_PRSTATUS : Option (Reply G)
  NT_FPREGSET : Option (Reply F)
  extended : Option (Reply E)

/-- The state in which a call ends: its outcome, the `ThreadInfo` members and the calls made
to collaborators. -/
structure Result (G F E : Type) where
  outcome : Outcome
  thread : ThreadInfo G F E
  trace : List Event

/-- `ThreadInfo::GetRegistersWithPTrace` from the `assert` of source line 91 to the end
(lines 91-111); `iov_len` is `fpRegsVec.iov_len` after the floating-point retrieval. -/
def GetRegistersWithPTrace_extended {G F E : Type} (b : Build) (os : System G F E)
    (ti : ThreadInfo G F E) (trace : List Event) (iov_len : Nat) : Result G F E :=
  if b.asserts = true ∧ b.sizeof_fpRegisters ≠ iov_len then
    ⟨Outcome.assertFailed, ti, trace⟩
  else if b.arch = Arch.i386 then
    match os.extended with
    | none => ⟨Outcome.returned false, ti, trace ++ [Event.GETFPXREGS, Event.printf_error]⟩
    | some x =>
      ⟨Outcome.returned true, { ti with m_xRegisters := x.data }, trace ++ [Event.GETFPXREGS]⟩
  else if b.arch = Arch.arm ∧ b.vfp = true then
    if b.asserts = true ∧ (∃ n, b.ARM_VFPREGS_SIZE = some n ∧ b.sizeof_vfpRegisters ≠ n) then
      ⟨Outcome.assertFailed, ti, trace⟩
    else
      match os.extended with
      | none => ⟨Outcome.returned false, ti, trace ++ [Event.GETVFPREGS, Event.printf_error]⟩
      | some x =>
        ⟨Outcome.returned true, { ti with m_xRegisters := x.data },
          trace ++ [Event.GETVFPREGS]⟩
  else
    ⟨Outcome.returned true, ti, trace⟩

/-- `ThreadInfo::GetRegistersWithPTrace` (source lines 70-112). -/
def GetRegistersWithPTrace {G F E : Type} (b : Build) (os : System G F E)
    (ti : ThreadInfo G F E) : Result G F E :=
  match os.NT_PRSTATUS with
  | none => ⟨Outcome.returned false, ti, [Event.GETREGSET_NT_PRSTATUS, Event.printf_error]⟩
  | some gp =>
    let ti := { ti with m_gpRegisters := gp.data }
    if b.asserts = true ∧ b.sizeof_gpRegisters ≠ gp.len then
      ⟨Outcome.assertFailed, ti, [Event.GETREGSET_NT_PRSTATUS]⟩
    else
      let trace := [Event.GETREGSET_NT_PRSTATUS, Event.GETREGSET_NT_FPREGSET]
      match os.NT_FPREGSET with
      | none =>
        if b.arch = Arch.arm then
          GetRegistersWithPTrace_extended b os ti trace b.sizeof_fpRegisters
        else
          ⟨Outcome.returned false, ti, trace ++ [Event.printf_error]⟩
      | some fp =>
        GetRegistersWithPTrace_extended b os { ti with m_fpRegisters := fp.data } trace fp.len

/-- `ThreadInfo::Initialize` (source lines 43-68); the `TRACE` lines only print. -/
def Initialize {G F E : Type} (b : Build) (os : System G F E) (ti : ThreadInfo G F E) :
    Result G F E :=
  match os.GetStatus with
  | none => ⟨Outcome.returned false, ti, [Event.GetStatus]⟩
  | some (ppid, tgid) =>
    let r := GetRegistersWithPTrace b os { ti with m_ppid := ppid, m_tgid := tgid }
    match r.outcome with
    | Outcome.returned false => ⟨Outcome.returned false, r.thread, Event.GetStatus :: r.trace⟩
    | Outcome.assertFailed => ⟨Outcome.assertFailed, r.thread, Event.GetStatus :: r.trace⟩
    | Outcome.returned true => ⟨Outcome.returned true, r.thread, Event.GetStatus :: r.trace⟩

/-! ## The fields of each category

For every target, the record fields that each category branch of `GetThreadContext`
assigns, in the order of the source. -/

/-- The fields assigned by the Control branch (source lines 121-126). -/
def X64.controlFields (c : X64.CONTEXT) : List Nat :=
  [c.Rbp, c.Rip, c.SegCs, c.EFlags, c.SegSs, c.Rsp]

/-- The fields assigned by the Integer branch (source lines 130-143). -/
def X64.integerFields (c : X64.CONTEXT) : List Nat :=
  [c.Rdi, c.Rsi, c.Rbx, c.Rdx, c.Rcx, c.Rax, c.R8, c.R9, c.R10, c.R11, c.R12, c.R13, c.R14,
   c.R15]

/-- The fields assigned by the Segments branch (source lines 147-150). -/
def X64.segmentsFields (c : X64.CONTEXT) : List Nat :=
  [c.SegDs, c.SegEs, c.SegFs, c.SegGs]

/-- The FloatingPoint branch assigns fields of `FltSave` only (source lines 154-171). -/
def X64.floatingPointFields (c : X64.CONTEXT) : X64.XMM_SAVE_AREA32 :=
  c.FltSave

/-- The fields assigned by the Control branch (source lines 177-181). -/
def Arm64.controlFields (c : Arm64.CONTEXT) : List Nat :=
  [c.Fp, c.Lr, c.Sp, c.Pc, c.Cpsr]

/-- The Integer branch writes into `X` only (source line 186). -/
def Arm64.integerFields (c : Arm64.CONTEXT) : Fin 29 → Nat :=
  c.X

/-- The fields assigned by the FloatingPoint branch (source lines 191-193). -/
def Arm64.floatingPointFields (c : Arm64.CONTEXT) : (Fin 32 → Nat) × Nat × Nat :=
  (c.V, c.Fpcr, c.Fpsr)

/-- The fields assigned by the Control branch (source lines 198-201). -/
def Arm.controlFields (c : Arm.CONTEXT) : List Nat :=
  [c.Sp, c.Lr, c.Pc, c.Cpsr]

/-- The fields assigned by the Integer branch (source lines 205-217). -/
def Arm.integerFields (c : Arm.CONTEXT) : List Nat :=
  [c.R0, c.R1, c.R2, c.R3, c.R4, c.R5, c.R6, c.R7, c.R8, c.R9, c.R10, c.R11, c.R12]

/-- The fields assigned by the FloatingPoint branch of a VFP build (source lines 222-225). -/
def Arm.floatingPointFields (c : Arm.CONTEXT) : Nat × (Fin 32 → Nat) :=
  (c.Fpscr, c.D)

/-- The fields assigned by the Control branch (source lines 231-234). -/
def LoongArch64.controlFields (c : LoongArch64.CONTEXT) : List Nat :=
  [c.Ra, c.Sp, c.Fp, c.Pc]

/-- The fields written by the two copies of the Integer branch (source lines 238-239). -/
def LoongArch64.integerFields (c : LoongArch64.CONTEXT) : List Nat :=
  [c.A0, c.A1, c.A2, c.A3, c.A4, c.A5, c.A6, c.A7,
   c.T0, c.T1, c.T2, c.T3, c.T4, c.T5, c.T6, c.T7,
   c.T8, c.X0, c.S0, c.S1, c.S2, c.S3, c.S4, c.S5,
   c.S6, c.S7, c.S8]

/-- The fields assigned by the FloatingPoint branch (source lines 244-246). -/
def LoongArch64.floatingPointFields (c : LoongArch64.CONTEXT) : (Fin 32 → Nat) × Nat × Nat :=
  (c.F, c.Fcsr, c.Fcc)

/-- The fields assigned by the Control branch (source lines 251-254). -/
def RiscV.controlFields (c : RiscV.CONTEXT) : List Nat :=
  [c.Ra, c.Sp, c.Fp, c.Pc]

/-- The fields assigned by the Integer branch (source lines 259-286). -/
def RiscV.integerFields (c : RiscV.CONTEXT) : List Nat :=
  [c.Gp, c.Tp, c.T0, c.T1, c.T2, c.S1, c.A0, c.A1,
   c.A2, c.A3, c.A4, c.A5, c.A6, c.A7, c.S2, c.S3,
   c.S4, c.S5, c.S6, c.S7, c.S8, c.S9, c.S10, c.S11,
   c.T3, c.T4, c.T5, c.T6]

/-- The fields assigned by the FloatingPoint branch (source lines 291-292). -/
def RiscV.floatingPointFields (c : RiscV.CONTEXT) : (Fin 32 → Nat) × Nat :=
  (c.F, c.Fcsr)

/-! ## Concrete inputs -/

/-- An x86-64 general-register block with every register zero. -/
def X64.zeroRegs : X64.user_regs_struct :=
  ⟨0, 0, 0, 0, 0, 0, 0, 0, 0, 0, 0, 0, 0, 0, 0, 0, 0, 0, 0, 0, 0, 0, 0, 0, 0, 0, 0⟩

/-- An x86-64 floating-point block with every field zero. -/
def X64.zeroFpRegs : X64.user_fpregs_struct :=
  ⟨0, 0, 0, 0, 0, 0, 0, 0, fun _ => 0, fun _ => 0⟩

/-- An x86-64 record pre-seeded with the sentinel `0xAA` in every field. -/
def X64.sentinel : X64.CONTEXT :=
  ⟨0xAA, 0xAA, 0xAA, 0xAA, 0xAA, 0xAA, 0xAA, 0xAA, 0xAA, 0xAA, 0xAA, 0xAA, 0xAA, 0xAA, 0xAA,
   0xAA, 0xAA, 0xAA, 0xAA, 0xAA, 0xAA, 0xAA, 0xAA, 0xAA, 0xAA, 0xAA, 0xAA, 0xAA, 0xAA, 0xAA,
   0xAA, 0xAA,
   ⟨0xAA, 0xAA, 0xAA, 0xAA, 0xAA, 0xAA, 0xAA, 0xAA, 0xAA, 0xAA, fun _ => 0xAA, fun _ => 0xAA⟩⟩

/-- The x86-64 thread of the scenario: instruction pointer `0x400000`, stack pointer
`0x7ffee000`, code selector `0x33`, stack selector `0x2b`, flags `0x246`. -/
def X64.scenario : X64.Thread :=
  ⟨1234, 1, 1234,
   { X64.zeroRegs with rip := 0x400000, rsp := 0x7ffee000, rbp := 0x7ffee010, cs := 0x33,
                       ss := 0x2b, eflags := 0x246, rax := 0x11 },
   X64.zeroFpRegs, ()⟩

/-- An x86-64 thread whose raw `cs`, `ss` and `eflags` slots have bits set above the width of
the record fields. -/
def X64.wideSlots : X64.Thread :=
  ⟨1234, 1, 1234,
   { X64.zeroRegs with cs := 0x10033, ss := 0x1002b, eflags := 0x100000246 },
   X64.zeroFpRegs, ()⟩

/-- An ARM64 record pre-seeded with the sentinel `0xAA` in every field. -/
def Arm64.sentinel : Arm64.CONTEXT :=
  ⟨0xAA, 0xAA, fun _ => 0xAA, 0xAA, 0xAA, 0xAA, 0xAA, fun _ => 0xAA, 0xAA, 0xAA⟩

/-- The ARM64 thread of the scenario: `regs[i] = i` below 29, frame pointer `0x1000`, link
register `0x2000`, stack pointer `0x3000`, program counter `0x4000`. -/
def Arm64.scenario : Arm64.Thread :=
  ⟨1234, 1, 1234,
   ⟨fun i => if i.val = 29 then 0x1000 else if i.val = 30 then 0x2000 else i.val,
    0x3000, 0x4000, 0x60000000⟩,
   ⟨fun _ => 0, 0, 0⟩, ()⟩

/-- An ARM64 thread whose raw `pstate` slot has a bit set above bit 31. -/
def Arm64.widePstate : Arm64.Thread :=
  ⟨1234, 1, 1234, ⟨fun _ => 0, 0, 0, 0x160000000⟩, ⟨fun _ => 0, 0, 0⟩, ()⟩

/-- A 32-bit ARM record pre-seeded with the sentinel `0xAA` in every field. -/
def Arm.sentinel : Arm.CONTEXT :=
  ⟨0xAA, 0xAA, 0xAA, 0xAA, 0xAA, 0xAA, 0xAA, 0xAA, 0xAA, 0xAA, 0xAA, 0xAA, 0xAA, 0xAA, 0xAA,
   0xAA, 0xAA, 0xAA, 0xAA, fun _ => 0xAA⟩

/-- A 32-bit ARM thread with distinct register values. -/
def Arm.scenario : Arm.Thread :=
  ⟨1234, 1, 1234,
   ⟨0, 1, 2, 3, 4, 5, 6, 7, 8, 9, 10, 11, 12, 0x7000, 0x8000, 0x9000, 0x10, 0⟩,
   ⟨fun _ => 0, 0, 0, fun _ => 0, 0⟩,
   ⟨fun i => i.val + 1, 0x13⟩⟩

/-- A LoongArch64 record pre-seeded with the sentinel `0xAA` in every field. -/
def LoongArch64.sentinel : LoongArch64.CONTEXT :=
  ⟨0xAA, 0xAA, 0xAA, 0xAA, 0xAA, 0xAA, 0xAA, 0xAA, 0xAA, 0xAA, 0xAA, 0xAA, 0xAA, 0xAA, 0xAA,
   0xAA, 0xAA, 0xAA, 0xAA, 0xAA, 0xAA, 0xAA, 0xAA, 0xAA, 0xAA, 0xAA, 0xAA, 0xAA, 0xAA, 0xAA,
   0xAA, 0xAA, 0xAA, 0xAA, fun _ => 0xAA, 0xAA, 0xAA⟩

/-- A LoongArch64 thread with `regs[i] = 0x100 + i`, program counter `0x4000`. -/
def LoongArch64.scenario : LoongArch64.Thread :=
  ⟨1234, 1, 1234, ⟨fun i => 0x100 + i.val, 0, 0x4000, 0⟩, ⟨fun i => i.val, 0, 0⟩, ()⟩

/-- A RISC-V record pre-seeded with the sentinel `0xAA` in every field. -/
def RiscV.sentinel : RiscV.CONTEXT :=
  ⟨0xAA, 0xAA, 0xAA, 0xAA, 0xAA, 0xAA, 0xAA, 0xAA, 0xAA, 0xAA, 0xAA, 0xAA, 0xAA, 0xAA, 0xAA,
   0xAA, 0xAA, 0xAA, 0xAA, 0xAA, 0xAA, 0xAA, 0xAA, 0xAA, 0xAA, 0xAA, 0xAA, 0xAA, 0xAA, 0xAA,
   0xAA, 0xAA, 0xAA, 0xAA, fun _ => 0xAA, 0xAA⟩

/-- A RISC-V thread with distinct register values: the raw fields hold `0x200`, `0x201`, ...
in declaration order. -/
def RiscV.scenario : RiscV.Thread :=
  ⟨1234, 1, 1234,
   ⟨0x200, 0x201, 0x202, 0x203, 0x204, 0x205, 0x206, 0x207, 0x208, 0x209, 0x20a, 0x20b,
    0x20c, 0x20d, 0x20e, 0x20f, 0x210, 0x211, 0x212, 0x213, 0x214, 0x215, 0x216, 0x217,
    0x218, 0x219, 0x21a, 0x21b, 0x21c, 0x21d, 0x21e, 0x21f⟩,
   ⟨fun i => 0x300 + i.val, 0x1f⟩, ()⟩

/-- An x86-64 build with assertions compiled in: 27 general registers of 8 bytes, a
floating-point block of 512 bytes. -/
def X64.build : Build :=
  ⟨Arch.x86_64, false, true, 27 * 8, 512, 0, none⟩

/-- An x86-64 build with assertions compiled out. -/
def X64.buildRelease : Build :=
  { X64.build with asserts := false }

/-- A 32-bit ARM build with VFP and assertions compiled in: 18 general registers of 4 bytes,
a floating-point block of 116 bytes, a VFP block of 260 bytes. -/
def Arm.buildVfp : Build :=
  ⟨Arch.arm, true, true, 18 * 4, 116, 260, some 260⟩

/-- A 32-bit ARM build without VFP, assertions compiled in. -/
def Arm.buildNoVfp : Build :=
  { Arm.buildVfp with vfp := false }

/-- A freshly constructed x86-64 `ThreadInfo` for thread 1234, the raw blocks not yet read. -/
def X64.fresh : X64.Thread :=
  ⟨1234, 0, 0, X64.zeroRegs, X64.zeroFpRegs, ()⟩

/-- A system in which every call for the x86-64 thread succeeds with the expected lengths
and delivers the registers of `X64.scenario`. -/
def X64.osOk : System X64.user_regs_struct X64.user_fpregs_struct Unit :=
  ⟨some (1, 1234), some ⟨X64.scenario.m_gpRegisters, 27 * 8⟩,
   some ⟨X64.scenario.m_fpRegisters, 512⟩, none⟩

/-- As `X64.osOk`, but delivering the registers of `X64.wideSlots`: what a later read of the
same thread may answer. -/
def X64.osLater : System X64.user_regs_struct X64.user_fpregs_struct Unit :=
  { X64.osOk with NT_PRSTATUS := some ⟨X64.wideSlots.m_gpRegisters, 27 * 8⟩ }

/-- As `X64.osOk`, but the general-register retrieval fails. -/
def X64.osGpFails : System X64.user_regs_struct X64.user_fpregs_struct Unit :=
  { X64.osOk with NT_PRSTATUS := none }

/-- As `X64.osOk`, but the floating-point retrieval fails. -/
def X64.osFpFails : System X64.user_regs_struct X64.user_fpregs_struct Unit :=
  { X64.osOk with NT_FPREGSET := none }

/-- As `X64.osOk`, but the status read fails. -/
def X64.osStatusFails : System X64.user_regs_struct X64.user_fpregs_struct Unit :=
  { X64.osOk with GetStatus := none }

/-- As `X64.osOk`, but the general-register retrieval reports 8 bytes instead of 216. -/
def X64.osShortGp : System X64.user_regs_struct X64.user_fpregs_struct Unit :=
  { X64.osOk with NT_PRSTATUS := some ⟨X64.scenario.m_gpRegisters, 8⟩ }

/-- As `X64.osOk`, but the floating-point retrieval reports 8 bytes instead of 512. -/
def X64.osShortFp : System X64.user_regs_struct X64.user_fpregs_struct Unit :=
  { X64.osOk with NT_FPREGSET := some ⟨X64.scenario.m_fpRegisters, 8⟩ }

/-- A freshly constructed 32-bit ARM `ThreadInfo` for thread 1234. -/
def Arm.fresh : Arm.Thread :=
  ⟨1234, 0, 0, ⟨0, 0, 0, 0, 0, 0, 0, 0, 0, 0, 0, 0, 0, 0, 0, 0, 0, 0⟩,
   ⟨fun _ => 0, 0, 0, fun _ => 0, 0⟩, ⟨fun _ => 0, 0⟩⟩

/-- A system in which, for the ARM thread, the status read and the general retrieval
succeed, the floating-point retrieval fails and the VFP retrieval succeeds. -/
def Arm.osFpFails : System Arm.user_regs Arm.user_fpregs Arm.user_vfpregs_struct :=
  ⟨some (1, 1234), some ⟨Arm.scenario.m_gpRegisters, 18 * 4⟩, none,
   some ⟨Arm.scenario.m_xRegisters, 260⟩⟩

/-- A system in which every retrieval for the ARM thread succeeds, the general and
floating-point ones with the expected lengths, while the VFP retrieval stores 4 bytes
instead of 260. -/
def Arm.osShortVfp : System Arm.user_regs Arm.user_fpregs Arm.user_vfpregs_struct :=
  ⟨some (1, 1234), some ⟨Arm.scenario.m_gpRegisters, 18 * 4⟩,
   some ⟨Arm.scenario.m_fpRegisters, 116⟩, some ⟨Arm.scenario.m_xRegisters, 4⟩⟩

/-- An x86-64 thread with a populated floating-point block: control word `0x37f`, tag word
`0xff`, `mxcsr = 0x1f80`, byte `i` of `st_space` equal to `i`, byte `i` of `xmm_space` equal
to `255 - i`. -/
def X64.fpScenario : X64.Thread :=
  ⟨1234, 1, 1234, X64.zeroRegs,
   ⟨0x37f, 0x20, 0xff, 0x5d8, 0x2b00401000, 0x2b7ffee000, 0x1f80, 0xffff,
    fun i => i.val, fun i => 255 - i.val⟩, ()⟩

/-- An x86-64 thread whose raw 16-bit `ftw` slot has a bit set above the 8 bits of the
record field `TagWord`. -/
def X64.wideTag : X64.Thread :=
  ⟨1234, 1, 1234, X64.zeroRegs, { X64.zeroFpRegs with ftw := 0x1ff }, ()⟩

/-! ## Flag sets that are a union of category constants -/

/-- The OR of the chosen x86-64 category constants (`0` when none is chosen). -/
def X64.categoryUnion (control integer segments floatingPoint : Bool) : Nat :=
  (if control then X64.CONTEXT_CONTROL else 0) |||
  (if integer then X64.CONTEXT_INTEGER else 0) |||
  (if segments then X64.CONTEXT_SEGMENTS else 0) |||
  (if floatingPoint then X64.CONTEXT_FLOATING_POINT else 0)

/-- The OR of the chosen ARM64 category constants (`0` when none is chosen). -/
def Arm64.categoryUnion (control integer floatingPoint : Bool) : Nat :=
  (if control then Arm64.CONTEXT_CONTROL else 0) |||
  (if integer then Arm64.CONTEXT_INTEGER else 0) |||
  (if floatingPoint then Arm64.CONTEXT_FLOATING_POINT else 0)

/-- The OR of the chosen 32-bit ARM category constants (`0` when none is chosen). -/
def Arm.categoryUnion (control integer floatingPoint : Bool) : Nat :=
  (if control then Arm.CONTEXT_CONTROL else 0) |||
  (if integer then Arm.CONTEXT_INTEGER else 0) |||
  (if floatingPoint then Arm.CONTEXT_FLOATING_POINT else 0)

/-- The OR of the chosen LoongArch64 category constants (`0` when none is chosen). -/
def LoongArch64.categoryUnion (control integer floatingPoint : Bool) : Nat :=
  (if control then LoongArch64.CONTEXT_CONTROL else 0) |||
  (if integer then LoongArch64.CONTEXT_INTEGER else 0) |||
  (if floatingPoint then LoongArch64.CONTEXT_FLOATING_POINT else 0)

/-- The OR of the chosen RISC-V category constants (`0` when none is chosen). -/
def RiscV.categoryUnion (control integer floatingPoint : Bool) : Nat :=
  (if control then RiscV.CONTEXT_CONTROL else 0) |||
  (if integer then RiscV.CONTEXT_INTEGER else 0) |||
  (if floatingPoint then RiscV.CONTEXT_FLOATING_POINT else 0)

/-- As `Arm.osFpFails`, but the VFP retrieval fails as well. -/
def Arm.osFpAndVfpFail : System Arm.user_regs Arm.user_fpregs Arm.user_vfpregs_struct :=
  { Arm.osFpFails with extended := none }

/-- The thread `Arm.scenario` with another content of the raw floating-point
(`NT_FPREGSET`) block. -/
def Arm.otherFpBlock : Arm.Thread :=
  { Arm.scenario with m_fpRegisters := ⟨fun i => 0x50 + i.val, 1, 2, fun _ => 3, 1⟩ }

/-! ## Frame lemmas for `GetThreadContext` -/

theorem GetThreadContext_frame_x64 (flags : Nat) (ti : X64.Thread) (ctx : X64.CONTEXT) :
    ((flags &&& X64.CONTEXT_CONTROL) ≠ X64.CONTEXT_CONTROL →
      X64.controlFields (X64.GetThreadContext flags ti ctx) = X64.controlFields ctx) ∧
    ((flags &&& X64.CONTEXT_INTEGER) ≠ X64.CONTEXT_INTEGER →
      X64.integerFields (X64.GetThreadContext flags ti ctx) = X64.integerFields ctx) ∧
    ((flags &&& X64.CONTEXT_SEGMENTS) ≠ X64.CONTEXT_SEGMENTS →
      X64.segmentsFields (X64.GetThreadContext flags ti ctx) = X64.segmentsFields ctx) ∧
    ((flags &&& X64.CONTEXT_FLOATING_POINT) ≠ X64.CONTEXT_FLOATING_POINT →
      X64.floatingPointFields (X64.GetThreadContext flags ti ctx) =
        X64.floatingPointFields ctx) := by
  refine ⟨fun h => ?_, fun h => ?_, fun h => ?_, fun h => ?_⟩ <;>
    simp only [X64.GetThreadContext, if_neg h, X64.controlFields, X64.integerFields,
      X64.segmentsFields, X64.floatingPointFields] <;>
    split_ifs <;> rfl

theorem GetThreadContext_zero_x64 (ti : X64.Thread) (ctx : X64.CONTEXT) :
    X64.GetThreadContext 0 ti ctx = { ctx with ContextFlags := 0 } := by
  have h1 : ¬ ((0 : Nat) &&& X64.CONTEXT_CONTROL) = X64.CONTEXT_CONTROL := by decide
  have h2 : ¬ ((0 : Nat) &&& X64.CONTEXT_INTEGER) = X64.CONTEXT_INTEGER := by decide
  have h3 : ¬ ((0 : Nat) &&& X64.CONTEXT_SEGMENTS) = X64.CONTEXT_SEGMENTS := by decide
  have h4 : ¬ ((0 : Nat) &&& X64.CONTEXT_FLOATING_POINT) = X64.CONTEXT_FLOATING_POINT := by
    decide
  simp only [X64.GetThreadContext, if_neg h1, if_neg h2, if_neg h3, if_neg h4]

theorem GetThreadContext_frame_arm64 (flags : Nat) (ti : Arm64.Thread) (ctx : Arm64.CONTEXT) :
    ((flags &&& Arm64.CONTEXT_CONTROL) ≠ Arm64.CONTEXT_CONTROL →
      Arm64.controlFields (Arm64.GetThreadContext flags ti ctx) = Arm64.controlFields ctx) ∧
    ((flags &&& Arm64.CONTEXT_INTEGER) ≠ Arm64.CONTEXT_INTEGER →
      Arm64.integerFields (Arm64.GetThreadContext flags ti ctx) = Arm64.integerFields ctx) ∧
    ((flags &&& Arm64.CONTEXT_FLOATING_POINT) ≠ Arm64.CONTEXT_FLOATING_POINT →
      Arm64.floatingPointFields (Arm64.GetThreadContext flags ti ctx) =
        Arm64.floatingPointFields ctx) := by
  refine ⟨fun h => ?_, fun h => ?_, fun h => ?_⟩ <;>
    simp only [Arm64.GetThreadContext, if_neg h, Arm64.controlFields, Arm64.integerFields,
      Arm64.floatingPointFields] <;>
    split_ifs <;> rfl

theorem GetThreadContext_zero_arm64 (ti : Arm64.Thread) (ctx : Arm64.CONTEXT) :
    Arm64.GetThreadContext 0 ti ctx = { ctx with ContextFlags := 0 } := by
  have h1 : ¬ ((0 : Nat) &&& Arm64.CONTEXT_CONTROL) = Arm64.CONTEXT_CONTROL := by decide
  have h2 : ¬ ((0 : Nat) &&& Arm64.CONTEXT_INTEGER) = Arm64.CONTEXT_INTEGER := by decide
  have h3 : ¬ ((0 : Nat) &&& Arm64.CONTEXT_FLOATING_POINT) = Arm64.CONTEXT_FLOATING_POINT := by
    decide
  simp only [Arm64.GetThreadContext, if_neg h1, if_neg h2, if_neg h3]

theorem GetThreadContext_frame_arm (vfp : Bool) (flags : Nat) (ti : Arm.Thread)
    (ctx : Arm.CONTEXT) :
    ((flags &&& Arm.CONTEXT_CONTROL) ≠ Arm.CONTEXT_CONTROL →
      Arm.controlFields (Arm.GetThreadContext vfp flags ti ctx) = Arm.controlFields ctx) ∧
    ((flags &&& Arm.CONTEXT_INTEGER) ≠ Arm.CONTEXT_INTEGER →
      Arm.integerFields (Arm.GetThreadContext vfp flags ti ctx) = Arm.integerFields ctx) ∧
    ((flags &&& Arm.CONTEXT_FLOATING_POINT) ≠ Arm.CONTEXT_FLOATING_POINT →
      Arm.floatingPointFields (Arm.GetThreadContext vfp flags ti ctx) =
        Arm.floatingPointFields ctx) := by
  refine ⟨fun h => ?_, fun h => ?_, fun h => ?_⟩ <;>
    simp only [Arm.GetThreadContext, if_neg h, Arm.controlFields, Arm.integerFields,
      Arm.floatingPointFields] <;>
    split_ifs <;> rfl

theorem GetThreadContext_zero_arm (vfp : Bool) (ti : Arm.Thread) (ctx : Arm.CONTEXT) :
    Arm.GetThreadContext vfp 0 ti ctx = { ctx with ContextFlags := 0 } := by
  have h1 : ¬ ((0 : Nat) &&& Arm.CONTEXT_CONTROL) = Arm.CONTEXT_CONTROL := by decide
  have h2 : ¬ ((0 : Nat) &&& Arm.CONTEXT_INTEGER) = Arm.CONTEXT_INTEGER := by decide
  have h3 : ¬ ((0 : Nat) &&& Arm.CONTEXT_FLOATING_POINT) = Arm.CONTEXT_FLOATING_POINT := by
    decide
  simp only [Arm.GetThreadContext, if_neg h1, if_neg h2, if_neg h3]

/-! ## The claims -/

/-- C1: on x86-64, ARM64 and 32-bit ARM, for every flags value, raw blocks and pre-existing
record, every field of a category keeps its value when the category constant is not fully
contained in `flags`; with `flags = 0` the whole record apart from `ContextFlags` is
unchanged. -/
theorem C1_unrequested_category_keeps_its_fields :
    (∀ (flags : Nat) (ti : X64.Thread) (ctx : X64.CONTEXT),
      ((flags &&& X64.CONTEXT_CONTROL) ≠ X64.CONTEXT_CONTROL →
        X64.controlFields (X64.GetThreadContext flags ti ctx) = X64.controlFields ctx) ∧
      ((flags &&& X64.CONTEXT_INTEGER) ≠ X64.CONTEXT_INTEGER →
        X64.integerFields (X64.GetThreadContext flags ti ctx) = X64.integerFields ctx) ∧
      ((flags &&& X64.CONTEXT_SEGMENTS) ≠ X64.CONTEXT_SEGMENTS →
        X64.segmentsFields (X64.GetThreadContext flags ti ctx) = X64.segmentsFields ctx) ∧
      ((flags &&& X64.CONTEXT_FLOATING_POINT) ≠ X64.CONTEXT_FLOATING_POINT →
        X64.floatingPointFields (X64.GetThreadContext flags ti ctx) =
          X64.floatingPointFields ctx)) ∧
    (∀ (ti : X64.Thread) (ctx : X64.CONTEXT),
      X64.GetThreadContext 0 ti ctx = { ctx with ContextFlags := 0 }) ∧
    (∀ (flags : Nat) (ti : Arm64.Thread) (ctx : Arm64.CONTEXT),
      ((flags &&& Arm64.CONTEXT_CONTROL) ≠ Arm64.CONTEXT_CONTROL →
        Arm64.controlFields (Arm64.GetThreadContext flags ti ctx) = Arm64.controlFields ctx) ∧
      ((flags &&& Arm64.CONTEXT_INTEGER) ≠ Arm64.CONTEXT_INTEGER →
        Arm64.integerFields (Arm64.GetThreadContext flags ti ctx) = Arm64.integerFields ctx) ∧
      ((flags &&& Arm64.CONTEXT_FLOATING_POINT) ≠ Arm64.CONTEXT_FLOATING_POINT →
        Arm64.floatingPointFields (Arm64.GetThreadContext flags ti ctx) =
          Arm64.floatingPointFields ctx)) ∧
    (∀ (ti : Arm64.Thread) (ctx : Arm64.CONTEXT),
      Arm64.GetThreadContext 0 ti ctx = { ctx with ContextFlags := 0 }) ∧
    (∀ (vfp : Bool) (flags : Nat) (ti : Arm.Thread) (ctx : Arm.CONTEXT),
      ((flags &&& Arm.CONTEXT_CONTROL) ≠ Arm.CONTEXT_CONTROL →
        Arm.controlFields (Arm.GetThreadContext vfp flags ti ctx) = Arm.controlFields ctx) ∧
      ((flags &&& Arm.CONTEXT_INTEGER) ≠ Arm.CONTEXT_INTEGER →
        Arm.integerFields (Arm.GetThreadContext vfp flags ti ctx) = Arm.integerFields ctx) ∧
      ((flags &&& Arm.CONTEXT_FLOATING_POINT) ≠ Arm.CONTEXT_FLOATING_POINT →
        Arm.floatingPointFields (Arm.GetThreadContext vfp flags ti ctx) =
          Arm.floatingPointFields ctx)) ∧
    (∀ (vfp : Bool) (ti : Arm.Thread) (ctx : Arm.CONTEXT),
      Arm.GetThreadContext vfp 0 ti ctx = { ctx with ContextFlags := 0 }) :=
  ⟨GetThreadContext_frame_x64, GetThreadContext_zero_x64, GetThreadContext_frame_arm64,
    GetThreadContext_zero_arm64, GetThreadContext_frame_arm, GetThreadContext_zero_arm⟩

/-- C1 at concrete inputs: with `flags` = Integer the pre-seeded Control fields survive on
x86-64, and with `flags` = Control the pre-seeded `X` array survives on ARM64. -/
theorem C1_unrequested_category_keeps_its_fields_witness :
    (X64.CONTEXT_INTEGER &&& X64.CONTEXT_CONTROL) ≠ X64.CONTEXT_CONTROL ∧
    X64.controlFields (X64.GetThreadContext X64.CONTEXT_INTEGER X64.scenario X64.sentinel) =
      [0xAA, 0xAA, 0xAA, 0xAA, 0xAA, 0xAA] ∧
    (Arm64.CONTEXT_CONTROL &&& Arm64.CONTEXT_INTEGER) ≠ Arm64.CONTEXT_INTEGER ∧
    Arm64.integerFields (Arm64.GetThreadContext Arm64.CONTEXT_CONTROL Arm64.scenario
      Arm64.sentinel) = Arm64.integerFields Arm64.sentinel :=
  ⟨by decide,
   (C1_unrequested_category_keeps_its_fields.1 X64.CONTEXT_INTEGER X64.scenario
      X64.sentinel).1 (by decide),
   by decide,
   (C1_unrequested_category_keeps_its_fields.2.2.1 Arm64.CONTEXT_CONTROL Arm64.scenario
      Arm64.sentinel).2.1 (by decide)⟩

/-- A `memcpy` whose byte count covers the whole destination, from a source of the same
element count, replaces the destination by the source. -/
theorem memcpy_whole (elem n : Nat) (dst src : Fin n → Nat) (nbytes : Nat)
    (h : n * elem ≤ nbytes) (he : 0 < elem) : memcpy elem dst src nbytes = src := by
  funext i
  have hi : i.val * elem < nbytes :=
    lt_of_lt_of_le (Nat.mul_lt_mul_of_pos_right i.isLt he) h
  simp [memcpy, hi]

theorem GetThreadContext_integer_alone_loongarch64 (ti : LoongArch64.Thread)
    (ctx : LoongArch64.CONTEXT) :
    LoongArch64.controlFields
        (LoongArch64.GetThreadContext LoongArch64.CONTEXT_INTEGER ti ctx) =
      [ti.m_gpRegisters.regs 1, ti.m_gpRegisters.regs 3, ti.m_gpRegisters.regs 22,
       ti.m_gpRegisters.csr_era] := by
  have h1 : (LoongArch64.CONTEXT_INTEGER &&& LoongArch64.CONTEXT_CONTROL) ≠ 0 := by decide
  simp only [LoongArch64.GetThreadContext, if_pos h1, LoongArch64.controlFields]
  split_ifs <;> rfl

theorem GetThreadContext_control_alone_riscv (ti : RiscV.Thread) (ctx : RiscV.CONTEXT) :
    RiscV.integerFields (RiscV.GetThreadContext RiscV.CONTEXT_CONTROL ti ctx) =
      [ti.m_gpRegisters.gp, ti.m_gpRegisters.tp, ti.m_gpRegisters.t0, ti.m_gpRegisters.t1,
       ti.m_gpRegisters.t2, ti.m_gpRegisters.s1, ti.m_gpRegisters.a0, ti.m_gpRegisters.a1,
       ti.m_gpRegisters.a2, ti.m_gpRegisters.a3, ti.m_gpRegisters.a4, ti.m_gpRegisters.a5,
       ti.m_gpRegisters.a6, ti.m_gpRegisters.a7, ti.m_gpRegisters.s2, ti.m_gpRegisters.s3,
       ti.m_gpRegisters.s4, ti.m_gpRegisters.s5, ti.m_gpRegisters.s6, ti.m_gpRegisters.s7,
       ti.m_gpRegisters.s8, ti.m_gpRegisters.s9, ti.m_gpRegisters.s10,
       ti.m_gpRegisters.s11, ti.m_gpRegisters.t3, ti.m_gpRegisters.t4, ti.m_gpRegisters.t5,
       ti.m_gpRegisters.t6] ∧
    RiscV.floatingPointFields (RiscV.GetThreadContext RiscV.CONTEXT_CONTROL ti ctx) =
      (ti.m_fpRegisters.fpregs, ti.m_fpRegisters.fcsr) := by
  have h1 : (RiscV.CONTEXT_CONTROL &&& RiscV.CONTEXT_INTEGER) ≠ 0 := by decide
  have h2 : (RiscV.CONTEXT_CONTROL &&& RiscV.CONTEXT_FLOATING_POINT) ≠ 0 := by decide
  have h3 : (RiscV.CONTEXT_CONTROL &&& RiscV.CONTEXT_CONTROL) = RiscV.CONTEXT_CONTROL := by
    decide
  constructor
  · simp only [RiscV.GetThreadContext, if_pos h1, if_pos h2, if_pos h3, RiscV.integerFields]
  · simp only [RiscV.GetThreadContext, if_pos h1, if_pos h2, if_pos h3,
      RiscV.floatingPointFields]
    rw [memcpy_whole 8 32 _ _ RiscV.sizeof_F (by decide) (by decide)]

/-- C2: what the code does where the claim fails.  On LoongArch64 `flags` = Integer alone
makes the Control branch run (the two constants share the tag bit and the test is
`flags & CONTEXT_CONTROL`), so `Ra`, `Sp`, `Fp`, `Pc` are overwritten from the raw block; on
RISC-V `flags` = Control alone makes the Integer and FloatingPoint branches run, so every
Integer and FloatingPoint field is overwritten.  At the pre-seeded records the sentinels
`0xAA` of those fields are lost. -/
theorem C2_excluded_category_is_overwritten :
    (∀ (ti : LoongArch64.Thread) (ctx : LoongArch64.CONTEXT),
      LoongArch64.controlFields
          (LoongArch64.GetThreadContext LoongArch64.CONTEXT_INTEGER ti ctx) =
        [ti.m_gpRegisters.regs 1, ti.m_gpRegisters.regs 3, ti.m_gpRegisters.regs 22,
         ti.m_gpRegisters.csr_era]) ∧
    (∀ (ti : RiscV.Thread) (ctx : RiscV.CONTEXT),
      RiscV.integerFields (RiscV.GetThreadContext RiscV.CONTEXT_CONTROL ti ctx) =
        [ti.m_gpRegisters.gp, ti.m_gpRegisters.tp, ti.m_gpRegisters.t0, ti.m_gpRegisters.t1,
         ti.m_gpRegisters.t2, ti.m_gpRegisters.s1, ti.m_gpRegisters.a0, ti.m_gpRegisters.a1,
         ti.m_gpRegisters.a2, ti.m_gpRegisters.a3, ti.m_gpRegisters.a4, ti.m_gpRegisters.a5,
         ti.m_gpRegisters.a6, ti.m_gpRegisters.a7, ti.m_gpRegisters.s2, ti.m_gpRegisters.s3,
         ti.m_gpRegisters.s4, ti.m_gpRegisters.s5, ti.m_gpRegisters.s6, ti.m_gpRegisters.s7,
         ti.m_gpRegisters.s8, ti.m_gpRegisters.s9, ti.m_gpRegisters.s10,
         ti.m_gpRegisters.s11, ti.m_gpRegisters.t3, ti.m_gpRegisters.t4, ti.m_gpRegisters.t5,
         ti.m_gpRegisters.t6] ∧
      RiscV.floatingPointFields (RiscV.GetThreadContext RiscV.CONTEXT_CONTROL ti ctx) =
        (ti.m_fpRegisters.fpregs, ti.m_fpRegisters.fcsr)) ∧
    LoongArch64.CONTEXT_INTEGER = 0x00800002 ∧
    LoongArch64.controlFields LoongArch64.sentinel = [0xAA, 0xAA, 0xAA, 0xAA] ∧
    LoongArch64.controlFields
        (LoongArch64.GetThreadContext LoongArch64.CONTEXT_INTEGER LoongArch64.scenario
          LoongArch64.sentinel) = [0x101, 0x103, 0x116, 0x4000] ∧
    RiscV.CONTEXT_CONTROL = 0x01000001 ∧
    (RiscV.sentinel.A0 = 0xAA ∧ RiscV.sentinel.Fcsr = 0xAA ∧ RiscV.sentinel.F 5 = 0xAA) ∧
    (RiscV.GetThreadContext RiscV.CONTEXT_CONTROL RiscV.scenario RiscV.sentinel).A0 = 0x20a ∧
    (RiscV.GetThreadContext RiscV.CONTEXT_CONTROL RiscV.scenario RiscV.sentinel).Fcsr = 0x1f ∧
    (RiscV.GetThreadContext RiscV.CONTEXT_CONTROL RiscV.scenario RiscV.sentinel).F 5 = 0x305 :=
  ⟨GetThreadContext_integer_alone_loongarch64, GetThreadContext_control_alone_riscv,
    by decide, by decide, by decide, by decide, by decide, by decide, by decide, by decide⟩

/-- C3, the claim as stated fails: on x86-64 `SegCs`, `SegSs` (16 bits) and `EFlags` (32
bits) are narrower than the 64-bit raw slots `cs`, `ss`, `eflags`.  With `flags` = Control
and raw `cs = 0x10033`, `ss = 0x1002b`, `eflags = 0x100000246` the record receives `0x33`,
`0x2b` and `0x246`. -/
theorem C3_counterexample_narrow_fields :
    (X64.CONTEXT_CONTROL &&& X64.CONTEXT_CONTROL) = X64.CONTEXT_CONTROL ∧
    X64.wideSlots.m_gpRegisters.cs = 0x10033 ∧
    (X64.GetThreadContext X64.CONTEXT_CONTROL X64.wideSlots X64.sentinel).SegCs = 0x33 ∧
    (X64.GetThreadContext X64.CONTEXT_CONTROL X64.wideSlots X64.sentinel).SegCs ≠
      X64.wideSlots.m_gpRegisters.cs ∧
    (X64.GetThreadContext X64.CONTEXT_CONTROL X64.wideSlots X64.sentinel).SegSs ≠
      X64.wideSlots.m_gpRegisters.ss ∧
    (X64.GetThreadContext X64.CONTEXT_CONTROL X64.wideSlots X64.sentinel).EFlags ≠
      X64.wideSlots.m_gpRegisters.eflags := by
  decide

/-- C3 as amended: on x86-64, for every raw general-register block and every `flags` that
contains the Control constant, `Rip`, `Rsp`, `Rbp` equal the raw `rip`, `rsp`, `rbp`, and
`EFlags`, `SegCs`, `SegSs` equal the raw `eflags`, `cs`, `ss` reduced to the width of the
field (32, 16 and 16 bits), hence the raw value itself whenever it fits; with `flags` =
Control exactly, all Integer, Segments and FloatingPoint fields keep their prior values. -/
theorem C3_control_fields_x64 (flags : Nat) (ti : X64.Thread) (ctx : X64.CONTEXT)
    (h : (flags &&& X64.CONTEXT_CONTROL) = X64.CONTEXT_CONTROL) :
    (X64.GetThreadContext flags ti ctx).Rip = ti.m_gpRegisters.rip ∧
    (X64.GetThreadContext flags ti ctx).Rsp = ti.m_gpRegisters.rsp ∧
    (X64.GetThreadContext flags ti ctx).Rbp = ti.m_gpRegisters.rbp ∧
    (X64.GetThreadContext flags ti ctx).EFlags = ti.m_gpRegisters.eflags % 2 ^ 32 ∧
    (X64.GetThreadContext flags ti ctx).SegCs = ti.m_gpRegisters.cs % 2 ^ 16 ∧
    (X64.GetThreadContext flags ti ctx).SegSs = ti.m_gpRegisters.ss % 2 ^ 16 ∧
    (ti.m_gpRegisters.eflags < 2 ^ 32 →
      (X64.GetThreadContext flags ti ctx).EFlags = ti.m_gpRegisters.eflags) ∧
    (ti.m_gpRegisters.cs < 2 ^ 16 →
      (X64.GetThreadContext flags ti ctx).SegCs = ti.m_gpRegisters.cs) ∧
    (ti.m_gpRegisters.ss < 2 ^ 16 →
      (X64.GetThreadContext flags ti ctx).SegSs = ti.m_gpRegisters.ss) ∧
    (flags = X64.CONTEXT_CONTROL →
      X64.integerFields (X64.GetThreadContext flags ti ctx) = X64.integerFields ctx ∧
      X64.segmentsFields (X64.GetThreadContext flags ti ctx) = X64.segmentsFields ctx ∧
      X64.floatingPointFields (X64.GetThreadContext flags ti ctx) =
        X64.floatingPointFields ctx) := by
  have hRip : (X64.GetThreadContext flags ti ctx).Rip = ti.m_gpRegisters.rip := by
    simp only [X64.GetThreadContext, if_pos h]; split_ifs <;> rfl
  have hRsp : (X64.GetThreadContext flags ti ctx).Rsp = ti.m_gpRegisters.rsp := by
    simp only [X64.GetThreadContext, if_pos h]; split_ifs <;> rfl
  have hRbp : (X64.GetThreadContext flags ti ctx).Rbp = ti.m_gpRegisters.rbp := by
    simp only [X64.GetThreadContext, if_pos h]; split_ifs <;> rfl
  have hFl : (X64.GetThreadContext flags ti ctx).EFlags = ti.m_gpRegisters.eflags % 2 ^ 32 := by
    simp only [X64.GetThreadContext, if_pos h, trunc]; split_ifs <;> rfl
  have hCs : (X64.GetThreadContext flags ti ctx).SegCs = ti.m_gpRegisters.cs % 2 ^ 16 := by
    simp only [X64.GetThreadContext, if_pos h, trunc]; split_ifs <;> rfl
  have hSs : (X64.GetThreadContext flags ti ctx).SegSs = ti.m_gpRegisters.ss % 2 ^ 16 := by
    simp only [X64.GetThreadContext, if_pos h, trunc]; split_ifs <;> rfl
  refine ⟨hRip, hRsp, hRbp, hFl, hCs, hSs, fun hlt => ?_, fun hlt => ?_, fun hlt => ?_,
    fun hc => ?_⟩
  · rw [hFl, Nat.mod_eq_of_lt hlt]
  · rw [hCs, Nat.mod_eq_of_lt hlt]
  · rw [hSs, Nat.mod_eq_of_lt hlt]
  · subst hc
    have hf := GetThreadContext_frame_x64 X64.CONTEXT_CONTROL ti ctx
    exact ⟨hf.2.1 (by decide), hf.2.2.1 (by decide), hf.2.2.2 (by decide)⟩

/-- C3 at the scenario of the specification: instruction pointer `0x400000`, stack pointer
`0x7ffee000`, `flags` = Control; the pre-seeded Integer fields survive. -/
theorem C3_control_fields_x64_witness :
    (X64.CONTEXT_CONTROL &&& X64.CONTEXT_CONTROL) = X64.CONTEXT_CONTROL ∧
    (X64.GetThreadContext X64.CONTEXT_CONTROL X64.scenario X64.sentinel).Rip = 0x400000 ∧
    (X64.GetThreadContext X64.CONTEXT_CONTROL X64.scenario X64.sentinel).Rsp = 0x7ffee000 ∧
    (X64.GetThreadContext X64.CONTEXT_CONTROL X64.scenario X64.sentinel).SegCs = 0x33 ∧
    X64.integerFields (X64.GetThreadContext X64.CONTEXT_CONTROL X64.scenario X64.sentinel) =
      X64.integerFields X64.sentinel :=
  have w := C3_control_fields_x64 X64.CONTEXT_CONTROL X64.scenario X64.sentinel (by decide)
  ⟨by decide, w.1, w.2.1, w.2.2.2.2.2.2.2.1 (by decide), (w.2.2.2.2.2.2.2.2.2 rfl).1⟩

/-- C4, the claim as stated fails: on ARM64 `Cpsr` (32 bits) is narrower than the 64-bit raw
slot `pstate`.  With `flags` = Control and raw `pstate = 0x160000000` the record receives
`0x60000000`. -/
theorem C4_counterexample_narrow_cpsr :
    (Arm64.CONTEXT_CONTROL &&& Arm64.CONTEXT_CONTROL) = Arm64.CONTEXT_CONTROL ∧
    Arm64.widePstate.m_gpRegisters.pstate = 0x160000000 ∧
    (Arm64.GetThreadContext Arm64.CONTEXT_CONTROL Arm64.widePstate Arm64.sentinel).Cpsr =
      0x60000000 ∧
    (Arm64.GetThreadContext Arm64.CONTEXT_CONTROL Arm64.widePstate Arm64.sentinel).Cpsr ≠
      Arm64.widePstate.m_gpRegisters.pstate := by
  decide

/-- C4 as amended: on ARM64, for every raw general-register block and every `flags` that
contains the Control constant, `Fp = regs[29]`, `Lr = regs[30]`, `Sp = sp`, `Pc = pc`, and
`Cpsr` is the raw `pstate` reduced to the 32 bits of the field, hence `pstate` itself
whenever it fits. -/
theorem C4_control_fields_arm64 (flags : Nat) (ti : Arm64.Thread) (ctx : Arm64.CONTEXT)
    (h : (flags &&& Arm64.CONTEXT_CONTROL) = Arm64.CONTEXT_CONTROL) :
    (Arm64.GetThreadContext flags ti ctx).Fp = ti.m_gpRegisters.regs 29 ∧
    (Arm64.GetThreadContext flags ti ctx).Lr = ti.m_gpRegisters.regs 30 ∧
    (Arm64.GetThreadContext flags ti ctx).Sp = ti.m_gpRegisters.sp ∧
    (Arm64.GetThreadContext flags ti ctx).Pc = ti.m_gpRegisters.pc ∧
    (Arm64.GetThreadContext flags ti ctx).Cpsr = ti.m_gpRegisters.pstate % 2 ^ 32 ∧
    (ti.m_gpRegisters.pstate < 2 ^ 32 →
      (Arm64.GetThreadContext flags ti ctx).Cpsr = ti.m_gpRegisters.pstate) := by
  have hFp : (Arm64.GetThreadContext flags ti ctx).Fp = ti.m_gpRegisters.regs 29 := by
    simp only [Arm64.GetThreadContext, if_pos h, Arm64.MCREG_Fp]; split_ifs <;> rfl
  have hLr : (Arm64.GetThreadContext flags ti ctx).Lr = ti.m_gpRegisters.regs 30 := by
    simp only [Arm64.GetThreadContext, if_pos h, Arm64.MCREG_Lr]; split_ifs <;> rfl
  have hSp : (Arm64.GetThreadContext flags ti ctx).Sp = ti.m_gpRegisters.sp := by
    simp only [Arm64.GetThreadContext, if_pos h, Arm64.MCREG_Sp]; split_ifs <;> rfl
  have hPc : (Arm64.GetThreadContext flags ti ctx).Pc = ti.m_gpRegisters.pc := by
    simp only [Arm64.GetThreadContext, if_pos h, Arm64.MCREG_Pc]; split_ifs <;> rfl
  have hCpsr : (Arm64.GetThreadContext flags ti ctx).Cpsr =
      ti.m_gpRegisters.pstate % 2 ^ 32 := by
    simp only [Arm64.GetThreadContext, if_pos h, Arm64.MCREG_Cpsr, trunc]; split_ifs <;> rfl
  exact ⟨hFp, hLr, hSp, hPc, hCpsr, fun hlt => by rw [hCpsr, Nat.mod_eq_of_lt hlt]⟩

/-- C4 at the scenario of the specification: `regs[29] = 0x1000`, `regs[30] = 0x2000`,
`sp = 0x3000`, `pc = 0x4000`, `flags` = Control. -/
theorem C4_control_fields_arm64_witness :
    (Arm64.CONTEXT_CONTROL &&& Arm64.CONTEXT_CONTROL) = Arm64.CONTEXT_CONTROL ∧
    (Arm64.GetThreadContext Arm64.CONTEXT_CONTROL Arm64.scenario Arm64.sentinel).Fp = 0x1000 ∧
    (Arm64.GetThreadContext Arm64.CONTEXT_CONTROL Arm64.scenario Arm64.sentinel).Lr = 0x2000 ∧
    (Arm64.GetThreadContext Arm64.CONTEXT_CONTROL Arm64.scenario Arm64.sentinel).Sp = 0x3000 ∧
    (Arm64.GetThreadContext Arm64.CONTEXT_CONTROL Arm64.scenario Arm64.sentinel).Pc = 0x4000 ∧
    (Arm64.GetThreadContext Arm64.CONTEXT_CONTROL Arm64.scenario Arm64.sentinel).Cpsr =
      0x60000000 :=
  have w := C4_control_fields_arm64 Arm64.CONTEXT_CONTROL Arm64.scenario Arm64.sentinel
    (by decide)
  ⟨by decide, w.1, w.2.1, w.2.2.1, w.2.2.2.1, w.2.2.2.2.2 (by decide)⟩

/-- C5: on ARM64, for every raw register file and every `flags` that contains the Integer
constant, `X[i] = regs[i]` for every `i < 29` in order; `X` does not depend on `regs[29]` or
`regs[30]` (two raw files that agree below index 29 give the same `X`); and the size
assertion holds: the 31 raw registers are the 29 of `X` plus `Fp` plus `Lr`. -/
theorem C5_integer_fields_arm64 (flags : Nat) (ti : Arm64.Thread) (ctx : Arm64.CONTEXT)
    (h : (flags &&& Arm64.CONTEXT_INTEGER) = Arm64.CONTEXT_INTEGER) :
    (∀ (i : Fin 29),
      (Arm64.GetThreadContext flags ti ctx).X i = ti.m_gpRegisters.regs (Fin.castLE (by decide) i)) ∧
    (∀ (ti2 : Arm64.Thread),
      (∀ (i : Fin 29), ti2.m_gpRegisters.regs (Fin.castLE (by decide) i) =
        ti.m_gpRegisters.regs (Fin.castLE (by decide) i)) →
      (Arm64.GetThreadContext flags ti2 ctx).X = (Arm64.GetThreadContext flags ti ctx).X) ∧
    Arm64.sizeof_regs = Arm64.sizeof_X + Arm64.sizeof_Fp + Arm64.sizeof_Lr ∧
    Arm64.sizeof_regs = 31 * 8 ∧ Arm64.sizeof_X = 29 * 8 := by
  have hX : ∀ (t : Arm64.Thread) (i : Fin 29),
      (Arm64.GetThreadContext flags t ctx).X i =
        t.m_gpRegisters.regs (Fin.castLE (by decide) i) := by
    intro t i
    have hi : i.val * 8 < Arm64.sizeof_X ∧ i.val < 31 := by
      have := i.isLt
      simp only [Arm64.sizeof_X]
      omega
    have hm : memcpy 8 ctx.X t.m_gpRegisters.regs Arm64.sizeof_X i =
        t.m_gpRegisters.regs (Fin.castLE (by decide) i) := by
      simp only [memcpy, dif_pos hi]
      rfl
    simp only [Arm64.GetThreadContext, if_pos h]
    split_ifs <;> exact hm
  refine ⟨hX ti, fun ti2 h2 => ?_, by decide, by decide, by decide⟩
  funext i
  rw [hX ti2 i, hX ti i, h2 i]

/-- C5 at a concrete input: `regs[i] = i` below 29, `regs[29] = 0x1000`, `regs[30] =
0x2000`, `flags` = Integer: `X[0] = 0`, `X[7] = 7`, `X[28] = 28`. -/
theorem C5_integer_fields_arm64_witness :
    (Arm64.CONTEXT_INTEGER &&& Arm64.CONTEXT_INTEGER) = Arm64.CONTEXT_INTEGER ∧
    (Arm64.GetThreadContext Arm64.CONTEXT_INTEGER Arm64.scenario Arm64.sentinel).X 0 = 0 ∧
    (Arm64.GetThreadContext Arm64.CONTEXT_INTEGER Arm64.scenario Arm64.sentinel).X 7 = 7 ∧
    (Arm64.GetThreadContext Arm64.CONTEXT_INTEGER Arm64.scenario Arm64.sentinel).X 28 = 28 :=
  have w := (C5_integer_fields_arm64 Arm64.CONTEXT_INTEGER Arm64.scenario Arm64.sentinel
    (by decide)).1
  ⟨by decide, w 0, w 7, w 28⟩

/-! ## Lemmas on the acquisition -/

theorem GetRegistersWithPTrace_gp_none {G F E : Type} (b : Build) (os : System G F E)
    (ti : ThreadInfo G F E) (h : os.NT_PRSTATUS = none) :
    GetRegistersWithPTrace b os ti =
      ⟨Outcome.returned false, ti, [Event.GETREGSET_NT_PRSTATUS, Event.printf_error]⟩ := by
  simp only [GetRegistersWithPTrace, h]

theorem Initialize_status_none {G F E : Type} (b : Build) (os : System G F E)
    (ti : ThreadInfo G F E) (h : os.GetStatus = none) :
    Initialize b os ti = ⟨Outcome.returned false, ti, [Event.GetStatus]⟩ := by
  simp only [Initialize, h]

theorem Initialize_status_some {G F E : Type} (b : Build) (os : System G F E)
    (ti : ThreadInfo G F E) (p : Int × Int) (h : os.GetStatus = some p) :
    (Initialize b os ti).outcome =
        (GetRegistersWithPTrace b os { ti with m_ppid := p.1, m_tgid := p.2 }).outcome ∧
    (Initialize b os ti).thread =
        (GetRegistersWithPTrace b os { ti with m_ppid := p.1, m_tgid := p.2 }).thread ∧
    (Initialize b os ti).trace = Event.GetStatus ::
        (GetRegistersWithPTrace b os { ti with m_ppid := p.1, m_tgid := p.2 }).trace := by
  obtain ⟨ppid, tgid⟩ := p
  simp only [Initialize, h]
  split <;> simp_all

/-- C6: on every architecture, when the general-register retrieval (`NT_PRSTATUS`) fails,
`GetRegistersWithPTrace` returns false and `Initialize` returns false, whatever the status
read, the floating-point retrieval and the extended retrieval answer. -/
theorem C6_general_retrieval_failure_is_fatal {G F E : Type} (b : Build) (os : System G F E)
    (ti : ThreadInfo G F E) (h : os.NT_PRSTATUS = none) :
    (GetRegistersWithPTrace b os ti).outcome = Outcome.returned false ∧
    (Initialize b os ti).outcome = Outcome.returned false := by
  constructor
  · rw [GetRegistersWithPTrace_gp_none b os ti h]
  · cases hs : os.GetStatus with
    | none => rw [Initialize_status_none b os ti hs]
    | some p =>
      rw [(Initialize_status_some b os ti p hs).1, GetRegistersWithPTrace_gp_none b os _ h]

/-- C6 at a concrete input: an x86-64 thread whose general-register retrieval fails while
the status read and the floating-point retrieval would succeed. -/
theorem C6_general_retrieval_failure_is_fatal_witness :
    X64.osGpFails.NT_PRSTATUS = none ∧
    (GetRegistersWithPTrace X64.build X64.osGpFails X64.fresh).outcome =
      Outcome.returned false ∧
    (Initialize X64.build X64.osGpFails X64.fresh).outcome = Outcome.returned false :=
  ⟨rfl, C6_general_retrieval_failure_is_fatal X64.build X64.osGpFails X64.fresh rfl⟩

theorem GetRegistersWithPTrace_fp_none {G F E : Type} (b : Build) (os : System G F E)
    (ti : ThreadInfo G F E) (gp : Reply G) (hg : os.NT_PRSTATUS = some gp)
    (hlen : b.asserts = true → gp.len = b.sizeof_gpRegisters) (hf : os.NT_FPREGSET = none) :
    GetRegistersWithPTrace b os ti =
      if b.arch = Arch.arm then
        GetRegistersWithPTrace_extended b os { ti with m_gpRegisters := gp.data }
          [Event.GETREGSET_NT_PRSTATUS, Event.GETREGSET_NT_FPREGSET] b.sizeof_fpRegisters
      else
        ⟨Outcome.returned false, { ti with m_gpRegisters := gp.data },
          [Event.GETREGSET_NT_PRSTATUS, Event.GETREGSET_NT_FPREGSET, Event.printf_error]⟩ := by
  have hno : ¬ (b.asserts = true ∧ b.sizeof_gpRegisters ≠ gp.len) := fun hc =>
    hc.2 (hlen hc.1).symm
  simp only [GetRegistersWithPTrace, hg, hf, if_neg hno]
  rfl

theorem GetThreadContext_no_vfp_arm (flags : Nat) (ti : Arm.Thread) (ctx : Arm.CONTEXT) :
    Arm.floatingPointFields (Arm.GetThreadContext false flags ti ctx) =
      Arm.floatingPointFields ctx := by
  simp only [Arm.GetThreadContext, Arm.floatingPointFields, Bool.false_eq_true, if_false,
    ite_self]
  split_ifs <;> rfl

/-- C7: when the status read and the general-register retrieval succeed (the retrieval
passing the size check of line 79, without which the floating-point retrieval is never
issued) and the floating-point retrieval (`NT_FPREGSET`) fails, `Initialize` returns false on
every architecture except 32-bit ARM; on 32-bit ARM without VFP it returns true, and
`GetThreadContext` of such a build writes no FloatingPoint field, whatever the flags. -/
theorem C7_floating_point_retrieval_failure {G F E : Type} (b : Build) (os : System G F E)
    (ti : ThreadInfo G F E) (p : Int × Int) (gp : Reply G)
    (hs : os.GetStatus = some p) (hg : os.NT_PRSTATUS = some gp)
    (hlen : b.asserts = true → gp.len = b.sizeof_gpRegisters)
    (hf : os.NT_FPREGSET = none) :
    (b.arch ≠ Arch.arm → (Initialize b os ti).outcome = Outcome.returned false) ∧
    (b.arch = Arch.arm → b.vfp = false →
      (Initialize b os ti).outcome = Outcome.returned true) ∧
    (∀ (flags : Nat) (t : Arm.Thread) (ctx : Arm.CONTEXT),
      Arm.floatingPointFields (Arm.GetThreadContext false flags t ctx) =
        Arm.floatingPointFields ctx) := by
  refine ⟨fun ha => ?_, fun ha hv => ?_, GetThreadContext_no_vfp_arm⟩
  · rw [(Initialize_status_some b os ti p hs).1,
      GetRegistersWithPTrace_fp_none b os _ gp hg hlen hf, if_neg ha]
  · rw [(Initialize_status_some b os ti p hs).1,
      GetRegistersWithPTrace_fp_none b os _ gp hg hlen hf, if_pos ha]
    simp [GetRegistersWithPTrace_extended, ha, hv]

/-- C7 at concrete inputs: with the floating-point retrieval failing, `Initialize` returns
false on x86-64 and true on 32-bit ARM without VFP, where a later projection with
`flags` = FloatingPoint leaves the pre-seeded `Fpscr` in place. -/
theorem C7_floating_point_retrieval_failure_witness :
    X64.osFpFails.NT_FPREGSET = none ∧ Arm.osFpFails.NT_FPREGSET = none ∧
    (Initialize X64.build X64.osFpFails X64.fresh).outcome = Outcome.returned false ∧
    (Initialize Arm.buildNoVfp Arm.osFpFails Arm.fresh).outcome = Outcome.returned true ∧
    (Arm.GetThreadContext false Arm.CONTEXT_FLOATING_POINT
      (Initialize Arm.buildNoVfp Arm.osFpFails Arm.fresh).thread Arm.sentinel).Fpscr = 0xAA :=
  ⟨rfl, rfl,
   (C7_floating_point_retrieval_failure X64.build X64.osFpFails X64.fresh (1, 1234)
      ⟨X64.scenario.m_gpRegisters, 27 * 8⟩ rfl rfl (fun _ => rfl) rfl).1 (by decide),
   (C7_floating_point_retrieval_failure Arm.buildNoVfp Arm.osFpFails Arm.fresh (1, 1234)
      ⟨Arm.scenario.m_gpRegisters, 18 * 4⟩ rfl rfl (fun _ => rfl) rfl).2.1 rfl rfl,
   congrArg Prod.fst ((C7_floating_point_retrieval_failure Arm.buildNoVfp Arm.osFpFails
      Arm.fresh (1, 1234) ⟨Arm.scenario.m_gpRegisters, 18 * 4⟩ rfl rfl (fun _ => rfl) rfl).2.2
      Arm.CONTEXT_FLOATING_POINT (Initialize Arm.buildNoVfp Arm.osFpFails Arm.fresh).thread
      Arm.sentinel)⟩

/-- C8, the claim as stated fails.  On 32-bit ARM with VFP and assertions compiled in, the
general and floating-point retrievals report the expected lengths and the VFP retrieval
stores 4 bytes instead of 260: no check looks at that length and both functions return
true.  On x86-64 with assertions compiled out, the general retrieval reports 8 bytes instead
of 216 and both functions return true. -/
theorem C8_counterexample_unchecked_length :
    (Arm.buildVfp.asserts = true ∧
      Arm.osShortVfp.extended.map (fun r => r.len) = some 4 ∧
      Arm.buildVfp.sizeof_vfpRegisters = 260 ∧
      (GetRegistersWithPTrace Arm.buildVfp Arm.osShortVfp Arm.fresh).outcome =
        Outcome.returned true ∧
      (Initialize Arm.buildVfp Arm.osShortVfp Arm.fresh).outcome = Outcome.returned true) ∧
    (X64.buildRelease.asserts = false ∧
      X64.osShortGp.NT_PRSTATUS.map (fun r => r.len) = some 8 ∧
      X64.buildRelease.sizeof_gpRegisters = 216 ∧
      (GetRegistersWithPTrace X64.buildRelease X64.osShortGp X64.fresh).outcome =
        Outcome.returned true ∧
      (Initialize X64.buildRelease X64.osShortGp X64.fresh).outcome =
        Outcome.returned true) := by
  decide

theorem GetRegistersWithPTrace_gp_length {G F E : Type} (b : Build) (os : System G F E)
    (ti : ThreadInfo G F E) (gp : Reply G) (ha : b.asserts = true)
    (hg : os.NT_PRSTATUS = some gp) (hlen : gp.len ≠ b.sizeof_gpRegisters) :
    (GetRegistersWithPTrace b os ti).outcome = Outcome.assertFailed := by
  have hyes : b.asserts = true ∧ b.sizeof_gpRegisters ≠ gp.len := ⟨ha, fun h => hlen h.symm⟩
  simp only [GetRegistersWithPTrace, hg, if_pos hyes]

theorem GetRegistersWithPTrace_fp_length {G F E : Type} (b : Build) (os : System G F E)
    (ti : ThreadInfo G F E) (gp : Reply G) (fp : Reply F) (ha : b.asserts = true)
    (hg : os.NT_PRSTATUS = some gp) (hglen : gp.len = b.sizeof_gpRegisters)
    (hf : os.NT_FPREGSET = some fp) (hlen : fp.len ≠ b.sizeof_fpRegisters) :
    (GetRegistersWithPTrace b os ti).outcome = Outcome.assertFailed := by
  have hno : ¬ (b.asserts = true ∧ b.sizeof_gpRegisters ≠ gp.len) := fun hc =>
    hc.2 hglen.symm
  have hyes : b.asserts = true ∧ b.sizeof_fpRegisters ≠ fp.len := ⟨ha, fun h => hlen h.symm⟩
  simp only [GetRegistersWithPTrace, hg, hf, if_neg hno, GetRegistersWithPTrace_extended,
    if_pos hyes]

theorem Initialize_of_assertFailed {G F E : Type} (b : Build) (os : System G F E)
    (ti : ThreadInfo G F E)
    (h : ∀ t : ThreadInfo G F E, (GetRegistersWithPTrace b os t).outcome =
      Outcome.assertFailed) :
    (Initialize b os ti).outcome ≠ Outcome.returned true ∧
    (∀ p, os.GetStatus = some p → (Initialize b os ti).outcome = Outcome.assertFailed) := by
  cases hs : os.GetStatus with
  | none =>
    rw [Initialize_status_none b os ti hs]
    exact ⟨by simp, fun p hp => by simp at hp⟩
  | some p =>
    rw [(Initialize_status_some b os ti p hs).1, h]
    exact ⟨by simp, fun _ _ => rfl⟩

/-- C8 as amended: in a build with assertions compiled in, when the general-register
retrieval succeeds but reports a byte length different from `sizeof(m_gpRegisters)`, or when
it reports the expected length and the floating-point retrieval succeeds but reports a byte
length different from `sizeof(m_fpRegisters)`, `GetRegistersWithPTrace` ends in the
assertion failure: it returns neither true nor false, `Initialize` does not return true, and
`Initialize` ends in the assertion failure too whenever its status read succeeded. -/
theorem C8_length_mismatch_fails_assertion {G F E : Type} (b : Build) (os : System G F E)
    (ti : ThreadInfo G F E) (gp : Reply G) (ha : b.asserts = true)
    (hg : os.NT_PRSTATUS = some gp)
    (hlen : gp.len ≠ b.sizeof_gpRegisters ∨
      (gp.len = b.sizeof_gpRegisters ∧
        ∃ fp, os.NT_FPREGSET = some fp ∧ fp.len ≠ b.sizeof_fpRegisters)) :
    (GetRegistersWithPTrace b os ti).outcome = Outcome.assertFailed ∧
    (∀ v, (GetRegistersWithPTrace b os ti).outcome ≠ Outcome.returned v) ∧
    (Initialize b os ti).outcome ≠ Outcome.returned true ∧
    (∀ p, os.GetStatus = some p → (Initialize b os ti).outcome = Outcome.assertFailed) := by
  have hall : ∀ t : ThreadInfo G F E,
      (GetRegistersWithPTrace b os t).outcome = Outcome.assertFailed := by
    intro t
    rcases hlen with h | ⟨h, fp, hf, hfl⟩
    · exact GetRegistersWithPTrace_gp_length b os t gp ha hg h
    · exact GetRegistersWithPTrace_fp_length b os t gp fp ha hg h hf hfl
  have hi := Initialize_of_assertFailed b os ti hall
  refine ⟨hall ti, fun v => ?_, hi.1, hi.2⟩
  rw [hall ti]
  simp

/-- C8 at concrete inputs: an x86-64 build with assertions compiled in, first with a general
retrieval reporting 8 bytes, then with a floating-point retrieval reporting 8 bytes. -/
theorem C8_length_mismatch_fails_assertion_witness :
    X64.build.asserts = true ∧
    (GetRegistersWithPTrace X64.build X64.osShortGp X64.fresh).outcome =
      Outcome.assertFailed ∧
    (Initialize X64.build X64.osShortGp X64.fresh).outcome = Outcome.assertFailed ∧
    (GetRegistersWithPTrace X64.build X64.osShortFp X64.fresh).outcome =
      Outcome.assertFailed ∧
    (Initialize X64.build X64.osShortFp X64.fresh).outcome = Outcome.assertFailed :=
  have w1 := C8_length_mismatch_fails_assertion X64.build X64.osShortGp X64.fresh
    ⟨X64.scenario.m_gpRegisters, 8⟩ rfl rfl (Or.inl (by decide))
  have w2 := C8_length_mismatch_fails_assertion X64.build X64.osShortFp X64.fresh
    ⟨X64.scenario.m_gpRegisters, 27 * 8⟩ rfl rfl
    (Or.inr ⟨rfl, ⟨X64.scenario.m_fpRegisters, 8⟩, rfl, by decide⟩)
  ⟨rfl, w1.1, w1.2.2.2 (1, 1234) rfl, w2.1, w2.2.2.2 (1, 1234) rfl⟩

/-- C9: `Initialize` returns true if and only if the status read succeeds and
`GetRegistersWithPTrace` (run on the thread with the parent and thread-group ids stored)
returns true; the status read is the first call made; and when it fails `Initialize` returns
false, makes no other call (no register retrieval is issued) and leaves the `ThreadInfo`,
raw register blocks included, as it was. -/
theorem C9_initialize_result {G F E : Type} (b : Build) (os : System G F E)
    (ti : ThreadInfo G F E) :
    ((Initialize b os ti).outcome = Outcome.returned true ↔
      ∃ p, os.GetStatus = some p ∧
        (GetRegistersWithPTrace b os { ti with m_ppid := p.1, m_tgid := p.2 }).outcome =
          Outcome.returned true) ∧
    (Initialize b os ti).trace.head? = some Event.GetStatus ∧
    (os.GetStatus = none →
      (Initialize b os ti).outcome = Outcome.returned false ∧
      (Initialize b os ti).trace = [Event.GetStatus] ∧
      (Initialize b os ti).thread = ti) := by
  cases hs : os.GetStatus with
  | none =>
    rw [Initialize_status_none b os ti hs]
    simp
  | some p =>
    have h := Initialize_status_some b os ti p hs
    rw [h.1, h.2.2]
    simp

/-- C9 at concrete inputs: on x86-64 `Initialize` returns true when every call succeeds, and
when the status read fails it returns false after that single call, the raw instruction
pointer still being the initial `0`. -/
theorem C9_initialize_result_witness :
    (Initialize X64.build X64.osOk X64.fresh).outcome = Outcome.returned true ∧
    (Initialize X64.build X64.osOk X64.fresh).trace =
      [Event.GetStatus, Event.GETREGSET_NT_PRSTATUS, Event.GETREGSET_NT_FPREGSET] ∧
    (Initialize X64.build X64.osOk X64.fresh).thread.m_gpRegisters.rip = 0x400000 ∧
    (Initialize X64.build X64.osStatusFails X64.fresh).outcome = Outcome.returned false ∧
    (Initialize X64.build X64.osStatusFails X64.fresh).trace = [Event.GetStatus] ∧
    (Initialize X64.build X64.osStatusFails X64.fresh).thread = X64.fresh :=
  have w := C9_initialize_result X64.build X64.osStatusFails X64.fresh
  ⟨(C9_initialize_result X64.build X64.osOk X64.fresh).1.2 ⟨(1, 1234), rfl, by decide⟩,
   by decide, by decide, (w.2.2 rfl).1, (w.2.2 rfl).2.1, (w.2.2 rfl).2.2⟩

/-- C10, the claim as stated fails: a second `Initialize` on an initialized `ThreadInfo`
reads the registers again and overwrites the raw general block.  On x86-64 the first call
returns true and stores `rip = 0x400000`, `cs = 0x33`; the second call, answered with other
register values, returns true and leaves `rip = 0`, `cs = 0x10033`. -/
theorem C10_counterexample_second_call :
    (Initialize X64.build X64.osOk X64.fresh).outcome = Outcome.returned true ∧
    (Initialize X64.build X64.osOk X64.fresh).thread.m_gpRegisters.rip = 0x400000 ∧
    (Initialize X64.build X64.osOk X64.fresh).thread.m_gpRegisters.cs = 0x33 ∧
    (Initialize X64.build X64.osLater
      (Initialize X64.build X64.osOk X64.fresh).thread).outcome = Outcome.returned true ∧
    (Initialize X64.build X64.osLater
      (Initialize X64.build X64.osOk X64.fresh).thread).thread.m_gpRegisters.rip = 0 ∧
    (Initialize X64.build X64.osLater
      (Initialize X64.build X64.osOk X64.fresh).thread).thread.m_gpRegisters.cs = 0x10033 ∧
    (Initialize X64.build X64.osLater
      (Initialize X64.build X64.osOk X64.fresh).thread).thread.m_gpRegisters.cs ≠
      (Initialize X64.build X64.osOk X64.fresh).thread.m_gpRegisters.cs := by
  decide

theorem GetRegistersWithPTrace_extended_thread {G F E : Type} (b : Build)
    (os : System G F E) (ti : ThreadInfo G F E) (trace : List Event) (iov_len : Nat) :
    (GetRegistersWithPTrace_extended b os ti trace iov_len).thread.m_gpRegisters =
        ti.m_gpRegisters ∧
    (GetRegistersWithPTrace_extended b os ti trace iov_len).thread.m_fpRegisters =
        ti.m_fpRegisters := by
  unfold GetRegistersWithPTrace_extended
  split_ifs <;> (try split) <;> exact ⟨rfl, rfl⟩

theorem GetRegistersWithPTrace_gp_some {G F E : Type} (b : Build) (os : System G F E)
    (ti : ThreadInfo G F E) (gp : Reply G) (hg : os.NT_PRSTATUS = some gp) :
    (GetRegistersWithPTrace b os ti).thread.m_gpRegisters = gp.data := by
  cases hf : os.NT_FPREGSET with
  | none =>
    simp only [GetRegistersWithPTrace, hg, hf]
    split_ifs
    · rfl
    · exact (GetRegistersWithPTrace_extended_thread b os _ _ _).1
    · rfl
  | some fp =>
    simp only [GetRegistersWithPTrace, hg, hf]
    split_ifs
    · rfl
    · exact (GetRegistersWithPTrace_extended_thread b os _ _ _).1

/-- C10 as amended: `GetThreadContext` is a `const` member function, which reads the
`ThreadInfo` and writes only the record passed to it.  After a successful `Initialize` the
raw general block is the one retrieved.  A second call to `Initialize` leaves the raw
general, floating-point and extended blocks unchanged when its status read or its
general-register retrieval fails; when both succeed it overwrites the raw general block with
the newly retrieved one, whatever the outcome of the call. -/
theorem C10_raw_blocks_on_second_call {G F E : Type} (b : Build) (os1 os2 : System G F E)
    (ti : ThreadInfo G F E)
    (h1 : (Initialize b os1 ti).outcome = Outcome.returned true) :
    (∃ gp1, os1.NT_PRSTATUS = some gp1 ∧
      (Initialize b os1 ti).thread.m_gpRegisters = gp1.data) ∧
    ((os2.GetStatus = none ∨ os2.NT_PRSTATUS = none) →
      (Initialize b os2 (Initialize b os1 ti).thread).thread.m_gpRegisters =
        (Initialize b os1 ti).thread.m_gpRegisters ∧
      (Initialize b os2 (Initialize b os1 ti).thread).thread.m_fpRegisters =
        (Initialize b os1 ti).thread.m_fpRegisters ∧
      (Initialize b os2 (Initialize b os1 ti).thread).thread.m_xRegisters =
        (Initialize b os1 ti).thread.m_xRegisters) ∧
    (∀ p gp2, os2.GetStatus = some p → os2.NT_PRSTATUS = some gp2 →
      (Initialize b os2 (Initialize b os1 ti).thread).thread.m_gpRegisters = gp2.data) := by
  refine ⟨?_, fun h => ?_, fun p gp2 hs hg => ?_⟩
  · cases hs : os1.GetStatus with
    | none =>
      rw [Initialize_status_none b os1 ti hs] at h1
      simp at h1
    | some p =>
      cases hg : os1.NT_PRSTATUS with
      | none =>
        rw [(Initialize_status_some b os1 ti p hs).1,
          GetRegistersWithPTrace_gp_none b os1 _ hg] at h1
        simp at h1
      | some gp1 =>
        refine ⟨gp1, rfl, ?_⟩
        rw [(Initialize_status_some b os1 ti p hs).2.1]
        exact GetRegistersWithPTrace_gp_some b os1 _ gp1 hg
  · cases hs : os2.GetStatus with
    | none =>
      rw [Initialize_status_none b os2 _ hs]
      exact ⟨rfl, rfl, rfl⟩
    | some p =>
      have hg : os2.NT_PRSTATUS = none := by
        rcases h with h | h
        · rw [hs] at h; simp at h
        · exact h
      rw [(Initialize_status_some b os2 _ p hs).2.1, GetRegistersWithPTrace_gp_none b os2 _ hg]
      exact ⟨rfl, rfl, rfl⟩
  · rw [(Initialize_status_some b os2 _ p hs).2.1]
    exact GetRegistersWithPTrace_gp_some b os2 _ gp2 hg

/-- C10 at concrete inputs: after the first `Initialize` on x86-64, a second call whose
status read fails leaves the raw instruction pointer `0x400000` in place, and a second call
whose retrievals succeed stores the newly retrieved code selector `0x10033`. -/
theorem C10_raw_blocks_on_second_call_witness :
    (Initialize X64.build X64.osOk X64.fresh).outcome = Outcome.returned true ∧
    (Initialize X64.build X64.osStatusFails
      (Initialize X64.build X64.osOk X64.fresh).thread).thread.m_gpRegisters.rip =
        0x400000 ∧
    (Initialize X64.build X64.osLater
      (Initialize X64.build X64.osOk X64.fresh).thread).thread.m_gpRegisters.cs = 0x10033 :=
  ⟨by decide,
   congrArg X64.user_regs_struct.rip
     ((C10_raw_blocks_on_second_call X64.build X64.osOk X64.osStatusFails X64.fresh
       (by decide)).2.1 (Or.inl rfl)).1,
   congrArg X64.user_regs_struct.cs
     ((C10_raw_blocks_on_second_call X64.build X64.osOk X64.osLater X64.fresh
       (by decide)).2.2 (1, 1234) ⟨X64.wideSlots.m_gpRegisters, 27 * 8⟩ rfl rfl)⟩

/-- C11, the claim as stated fails: on x86-64 `TagWord` (8 bits) is narrower than the
16-bit raw slot `ftw`.  With `flags` = FloatingPoint and raw `ftw = 0x1ff` the record
receives `0xff`. -/
theorem C11_counterexample_narrow_tag_word :
    (X64.CONTEXT_FLOATING_POINT &&& X64.CONTEXT_FLOATING_POINT) =
      X64.CONTEXT_FLOATING_POINT ∧
    X64.wideTag.m_fpRegisters.ftw = 0x1ff ∧
    (X64.GetThreadContext X64.CONTEXT_FLOATING_POINT X64.wideTag
      X64.sentinel).FltSave.TagWord = 0xff ∧
    (X64.GetThreadContext X64.CONTEXT_FLOATING_POINT X64.wideTag
      X64.sentinel).FltSave.TagWord ≠ X64.wideTag.m_fpRegisters.ftw := by
  decide

theorem GetThreadContext_floating_point_x64 (flags : Nat) (ti : X64.Thread)
    (ctx : X64.CONTEXT)
    (h : (flags &&& X64.CONTEXT_FLOATING_POINT) = X64.CONTEXT_FLOATING_POINT) :
    (X64.GetThreadContext flags ti ctx).FltSave =
      { ControlWord := ti.m_fpRegisters.cwd
        StatusWord := ti.m_fpRegisters.swd
        TagWord := ti.m_fpRegisters.ftw % 2 ^ 8
        ErrorOpcode := ti.m_fpRegisters.fop
        ErrorOffset := ti.m_fpRegisters.rip % 2 ^ 32
        ErrorSelector := ti.m_fpRegisters.rip / 2 ^ 32 % 2 ^ 16
        DataOffset := ti.m_fpRegisters.rdp % 2 ^ 32
        DataSelector := ti.m_fpRegisters.rdp / 2 ^ 32 % 2 ^ 16
        MxCsr := ti.m_fpRegisters.mxcsr
        MxCsr_Mask := ti.m_fpRegisters.mxcr_mask
        FloatRegisters := ti.m_fpRegisters.st_space
        XmmRegisters := ti.m_fpRegisters.xmm_space } := by
  simp only [X64.GetThreadContext, if_pos h, trunc, X64.FPREG_ErrorOffset,
    X64.FPREG_ErrorSelector, X64.FPREG_DataOffset, X64.FPREG_DataSelector]
  rw [memcpy_whole 1 128 _ _ X64.sizeof_FloatRegisters (by decide) (by decide),
    memcpy_whole 1 256 _ _ X64.sizeof_XmmRegisters (by decide) (by decide)]

/-- C11 as amended: on x86-64, for every raw floating-point block and every `flags` that
contains the FloatingPoint constant, every byte of `FltSave.FloatRegisters` equals the byte
at the same offset of `st_space`, every byte of `FltSave.XmmRegisters` equals the byte at the
same offset of `xmm_space`, source and destination of each copy have the same byte size (128
and 256), `ControlWord`, `StatusWord`, `MxCsr`, `MxCsr_Mask` equal `cwd`, `swd`, `mxcsr`,
`mxcr_mask`, and `TagWord` is the raw `ftw` reduced to the 8 bits of the field, hence `ftw`
itself whenever it fits. -/
theorem C11_floating_point_fields_x64 (flags : Nat) (ti : X64.Thread) (ctx : X64.CONTEXT)
    (h : (flags &&& X64.CONTEXT_FLOATING_POINT) = X64.CONTEXT_FLOATING_POINT) :
    (∀ (i : Fin 128),
      (X64.GetThreadContext flags ti ctx).FltSave.FloatRegisters i =
        ti.m_fpRegisters.st_space i) ∧
    (∀ (i : Fin 256),
      (X64.GetThreadContext flags ti ctx).FltSave.XmmRegisters i =
        ti.m_fpRegisters.xmm_space i) ∧
    (X64.sizeof_FloatRegisters = X64.sizeof_st_space ∧ X64.sizeof_st_space = 128) ∧
    (X64.sizeof_XmmRegisters = X64.sizeof_xmm_space ∧ X64.sizeof_xmm_space = 256) ∧
    (X64.GetThreadContext flags ti ctx).FltSave.ControlWord = ti.m_fpRegisters.cwd ∧
    (X64.GetThreadContext flags ti ctx).FltSave.StatusWord = ti.m_fpRegisters.swd ∧
    (X64.GetThreadContext flags ti ctx).FltSave.MxCsr = ti.m_fpRegisters.mxcsr ∧
    (X64.GetThreadContext flags ti ctx).FltSave.MxCsr_Mask = ti.m_fpRegisters.mxcr_mask ∧
    (X64.GetThreadContext flags ti ctx).FltSave.TagWord = ti.m_fpRegisters.ftw % 2 ^ 8 ∧
    (ti.m_fpRegisters.ftw < 2 ^ 8 →
      (X64.GetThreadContext flags ti ctx).FltSave.TagWord = ti.m_fpRegisters.ftw) := by
  have hF := GetThreadContext_floating_point_x64 flags ti ctx h
  refine ⟨fun i => by rw [hF], fun i => by rw [hF], by decide, by decide, by rw [hF],
    by rw [hF], by rw [hF], by rw [hF], by rw [hF], fun hlt => ?_⟩
  rw [hF]
  exact Nat.mod_eq_of_lt hlt

/-- C11 at a concrete input: byte `i` of `st_space` is `i`, byte `i` of `xmm_space` is
`255 - i`, `cwd = 0x37f`, `ftw = 0xff`, `mxcsr = 0x1f80`, `flags` = FloatingPoint. -/
theorem C11_floating_point_fields_x64_witness :
    (X64.CONTEXT_FLOATING_POINT &&& X64.CONTEXT_FLOATING_POINT) =
      X64.CONTEXT_FLOATING_POINT ∧
    (X64.GetThreadContext X64.CONTEXT_FLOATING_POINT X64.fpScenario
      X64.sentinel).FltSave.FloatRegisters 127 = 127 ∧
    (X64.GetThreadContext X64.CONTEXT_FLOATING_POINT X64.fpScenario
      X64.sentinel).FltSave.XmmRegisters 255 = 0 ∧
    (X64.GetThreadContext X64.CONTEXT_FLOATING_POINT X64.fpScenario
      X64.sentinel).FltSave.ControlWord = 0x37f ∧
    (X64.GetThreadContext X64.CONTEXT_FLOATING_POINT X64.fpScenario
      X64.sentinel).FltSave.MxCsr = 0x1f80 ∧
    (X64.GetThreadContext X64.CONTEXT_FLOATING_POINT X64.fpScenario
      X64.sentinel).FltSave.TagWord = 0xff :=
  have w := C11_floating_point_fields_x64 X64.CONTEXT_FLOATING_POINT X64.fpScenario
    X64.sentinel (by decide)
  ⟨by decide, w.1 127, w.2.1 255, w.2.2.2.2.1, w.2.2.2.2.2.2.1,
    w.2.2.2.2.2.2.2.2.2 (by decide)⟩

/-! ## The shape of the projected record -/

theorem memcpy_idem (elem : Nat) {d s : Nat} (dst : Fin d → Nat) (src : Fin s → Nat)
    (nbytes : Nat) :
    memcpy elem (memcpy elem dst src nbytes) src nbytes = memcpy elem dst src nbytes := by
  funext i
  simp only [memcpy]
  split <;> rfl

theorem ite_twice {α : Type} (p q r : Prop) [Decidable p] [Decidable q] [Decidable r]
    (h : r ↔ p ∨ q) (v x : α) :
    (if q then v else if p then v else x) = if r then v else x := by
  by_cases hp : p <;> by_cases hq : q <;> simp_all

theorem memcpy_twice (p q r : Prop) [Decidable p] [Decidable q] [Decidable r]
    (h : r ↔ p ∨ q) (elem : Nat) {d s : Nat} (x : Fin d → Nat) (src : Fin s → Nat) (n : Nat) :
    (if q then memcpy elem (if p then memcpy elem x src n else x) src n
      else if p then memcpy elem x src n else x) =
    if r then memcpy elem x src n else x := by
  by_cases hp : p <;> by_cases hq : q <;> simp_all [memcpy_idem]

theorem GetThreadContext_shape_x64 (flags : Nat) (ti : X64.Thread)
    (ctx : X64.CONTEXT) :
    X64.GetThreadContext flags ti ctx =
      { ContextFlags := flags
        MxCsr := ctx.MxCsr
        SegCs := if (flags &&& X64.CONTEXT_CONTROL) = X64.CONTEXT_CONTROL then
          ti.m_gpRegisters.cs % 2 ^ 16 else ctx.SegCs
        SegDs := if (flags &&& X64.CONTEXT_SEGMENTS) = X64.CONTEXT_SEGMENTS then
          ti.m_gpRegisters.ds % 2 ^ 16 else ctx.SegDs
        SegEs := if (flags &&& X64.CONTEXT_SEGMENTS) = X64.CONTEXT_SEGMENTS then
          ti.m_gpRegisters.es % 2 ^ 16 else ctx.SegEs
        SegFs := if (flags &&& X64.CONTEXT_SEGMENTS) = X64.CONTEXT_SEGMENTS then
          ti.m_gpRegisters.fs % 2 ^ 16 else ctx.SegFs
        SegGs := if (flags &&& X64.CONTEXT_SEGMENTS) = X64.CONTEXT_SEGMENTS then
          ti.m_gpRegisters.gs % 2 ^ 16 else ctx.SegGs
        SegSs := if (flags &&& X64.CONTEXT_CONTROL) = X64.CONTEXT_CONTROL then
          ti.m_gpRegisters.ss % 2 ^ 16 else ctx.SegSs
        EFlags := if (flags &&& X64.CONTEXT_CONTROL) = X64.CONTEXT_CONTROL then
          ti.m_gpRegisters.eflags % 2 ^ 32 else ctx.EFlags
        Dr0 := ctx.Dr0
        Dr1 := ctx.Dr1
        Dr2 := ctx.Dr2
        Dr3 := ctx.Dr3
        Dr6 := ctx.Dr6
        Dr7 := ctx.Dr7
        Rax := if (flags &&& X64.CONTEXT_INTEGER) = X64.CONTEXT_INTEGER then
          ti.m_gpRegisters.rax else ctx.Rax
        Rcx := if (flags &&& X64.CONTEXT_INTEGER) = X64.CONTEXT_INTEGER then
          ti.m_gpRegisters.rcx else ctx.Rcx
        Rdx := if (flags &&& X64.CONTEXT_INTEGER) = X64.CONTEXT_INTEGER then
          ti.m_gpRegisters.rdx else ctx.Rdx
        Rbx := if (flags &&& X64.CONTEXT_INTEGER) = X64.CONTEXT_INTEGER then
          ti.m_gpRegisters.rbx else ctx.Rbx
        Rsp := if (flags &&& X64.CONTEXT_CONTROL) = X64.CONTEXT_CONTROL then
          ti.m_gpRegisters.rsp else ctx.Rsp
        Rbp := if (flags &&& X64.CONTEXT_CONTROL) = X64.CONTEXT_CONTROL then
          ti.m_gpRegisters.rbp else ctx.Rbp
        Rsi := if (flags &&& X64.CONTEXT_INTEGER) = X64.CONTEXT_INTEGER then
          ti.m_gpRegisters.rsi else ctx.Rsi
        Rdi := if (flags &&& X64.CONTEXT_INTEGER) = X64.CONTEXT_INTEGER then
          ti.m_gpRegisters.rdi else ctx.Rdi
        R8 := if (flags &&& X64.CONTEXT_INTEGER) = X64.CONTEXT_INTEGER then
          ti.m_gpRegisters.r8 else ctx.R8
        R9 := if (flags &&& X64.CONTEXT_INTEGER) = X64.CONTEXT_INTEGER then
          ti.m_gpRegisters.r9 else ctx.R9
        R10 := if (flags &&& X64.CONTEXT_INTEGER) = X64.CONTEXT_INTEGER then
          ti.m_gpRegisters.r10 else ctx.R10
        R11 := if (flags &&& X64.CONTEXT_INTEGER) = X64.CONTEXT_INTEGER then
          ti.m_gpRegisters.r11 else ctx.R11
        R12 := if (flags &&& X64.CONTEXT_INTEGER) = X64.CONTEXT_INTEGER then
          ti.m_gpRegisters.r12 else ctx.R12
        R13 := if (flags &&& X64.CONTEXT_INTEGER) = X64.CONTEXT_INTEGER then
          ti.m_gpRegisters.r13 else ctx.R13
        R14 := if (flags &&& X64.CONTEXT_INTEGER) = X64.CONTEXT_INTEGER then
          ti.m_gpRegisters.r14 else ctx.R14
        R15 := if (flags &&& X64.CONTEXT_INTEGER) = X64.CONTEXT_INTEGER then
          ti.m_gpRegisters.r15 else ctx.R15
        Rip := if (flags &&& X64.CONTEXT_CONTROL) = X64.CONTEXT_CONTROL then
          ti.m_gpRegisters.rip else ctx.Rip
        FltSave := if (flags &&& X64.CONTEXT_FLOATING_POINT) = X64.CONTEXT_FLOATING_POINT then
          { ControlWord := ti.m_fpRegisters.cwd
            StatusWord := ti.m_fpRegisters.swd
            TagWord := ti.m_fpRegisters.ftw % 2 ^ 8
            ErrorOpcode := ti.m_fpRegisters.fop
            ErrorOffset := ti.m_fpRegisters.rip % 2 ^ 32
            ErrorSelector := ti.m_fpRegisters.rip / 2 ^ 32 % 2 ^ 16
            DataOffset := ti.m_fpRegisters.rdp % 2 ^ 32
            DataSelector := ti.m_fpRegisters.rdp / 2 ^ 32 % 2 ^ 16
            MxCsr := ti.m_fpRegisters.mxcsr
            MxCsr_Mask := ti.m_fpRegisters.mxcr_mask
            FloatRegisters := ti.m_fpRegisters.st_space
            XmmRegisters := ti.m_fpRegisters.xmm_space }
          else ctx.FltSave } := by
  have hst := fun dst : Fin 128 → Nat =>
    memcpy_whole 1 128 dst ti.m_fpRegisters.st_space X64.sizeof_FloatRegisters (by decide)
      (by decide)
  have hxmm := fun dst : Fin 256 → Nat =>
    memcpy_whole 1 256 dst ti.m_fpRegisters.xmm_space X64.sizeof_XmmRegisters (by decide)
      (by decide)
  simp only [X64.GetThreadContext, hst, hxmm]
  split_ifs <;> rfl

theorem categoryUnion_requests_x64 (c1 i1 s1 f1 c2 i2 s2 f2 : Bool) :
    (((X64.categoryUnion c1 i1 s1 f1 ||| X64.categoryUnion c2 i2 s2 f2) &&& X64.CONTEXT_CONTROL)
        = X64.CONTEXT_CONTROL ↔
      ((X64.categoryUnion c1 i1 s1 f1 &&& X64.CONTEXT_CONTROL) = X64.CONTEXT_CONTROL ∨
       (X64.categoryUnion c2 i2 s2 f2 &&& X64.CONTEXT_CONTROL) = X64.CONTEXT_CONTROL)) ∧
    (((X64.categoryUnion c1 i1 s1 f1 ||| X64.categoryUnion c2 i2 s2 f2) &&& X64.CONTEXT_INTEGER)
        = X64.CONTEXT_INTEGER ↔
      ((X64.categoryUnion c1 i1 s1 f1 &&& X64.CONTEXT_INTEGER) = X64.CONTEXT_INTEGER ∨
       (X64.categoryUnion c2 i2 s2 f2 &&& X64.CONTEXT_INTEGER) = X64.CONTEXT_INTEGER)) ∧
    (((X64.categoryUnion c1 i1 s1 f1 ||| X64.categoryUnion c2 i2 s2 f2) &&& X64.CONTEXT_SEGMENTS)
        = X64.CONTEXT_SEGMENTS ↔
      ((X64.categoryUnion c1 i1 s1 f1 &&& X64.CONTEXT_SEGMENTS) = X64.CONTEXT_SEGMENTS ∨
       (X64.categoryUnion c2 i2 s2 f2 &&& X64.CONTEXT_SEGMENTS) = X64.CONTEXT_SEGMENTS)) ∧
    (((X64.categoryUnion c1 i1 s1 f1 ||| X64.categoryUnion c2 i2 s2 f2) &&&
        X64.CONTEXT_FLOATING_POINT) = X64.CONTEXT_FLOATING_POINT ↔
      ((X64.categoryUnion c1 i1 s1 f1 &&& X64.CONTEXT_FLOATING_POINT) =
        X64.CONTEXT_FLOATING_POINT ∨
       (X64.categoryUnion c2 i2 s2 f2 &&& X64.CONTEXT_FLOATING_POINT) =
        X64.CONTEXT_FLOATING_POINT)) := by
  cases c1 <;> cases i1 <;> cases s1 <;> cases f1 <;> cases c2 <;> cases i2 <;> cases s2 <;> cases f2 <;> decide

theorem GetThreadContext_twice_x64 (c1 i1 s1 f1 c2 i2 s2 f2 : Bool) (ti : X64.Thread)
    (ctx : X64.CONTEXT) :
    { X64.GetThreadContext (X64.categoryUnion c2 i2 s2 f2) ti
        (X64.GetThreadContext (X64.categoryUnion c1 i1 s1 f1) ti ctx) with
      ContextFlags := 0 } =
    { X64.GetThreadContext (X64.categoryUnion c1 i1 s1 f1 ||| X64.categoryUnion c2 i2 s2 f2) ti
        ctx with
      ContextFlags := 0 } := by
  obtain ⟨hC, hI, hS, hF⟩ := categoryUnion_requests_x64 c1 i1 s1 f1 c2 i2 s2 f2
  generalize X64.categoryUnion c1 i1 s1 f1 = A at hC hI hS hF ⊢
  generalize X64.categoryUnion c2 i2 s2 f2 = B at hC hI hS hF ⊢
  simp only [GetThreadContext_shape_x64, ite_twice _ _ _ hC, ite_twice _ _ _ hI, ite_twice _ _ _
    hS, ite_twice _ _ _ hF, memcpy_twice _ _ _ hI, memcpy_twice _ _ _ hF]

theorem GetThreadContext_shape_arm64 (flags : Nat) (ti : Arm64.Thread)
    (ctx : Arm64.CONTEXT) :
    Arm64.GetThreadContext flags ti ctx =
      { ContextFlags := flags
        Cpsr := if (flags &&& Arm64.CONTEXT_CONTROL) = Arm64.CONTEXT_CONTROL then
          ti.m_gpRegisters.pstate % 2 ^ 32 else ctx.Cpsr
        X := if (flags &&& Arm64.CONTEXT_INTEGER) = Arm64.CONTEXT_INTEGER then
          memcpy 8 ctx.X ti.m_gpRegisters.regs Arm64.sizeof_X else ctx.X
        Fp := if (flags &&& Arm64.CONTEXT_CONTROL) = Arm64.CONTEXT_CONTROL then
          ti.m_gpRegisters.regs 29 else ctx.Fp
        Lr := if (flags &&& Arm64.CONTEXT_CONTROL) = Arm64.CONTEXT_CONTROL then
          ti.m_gpRegisters.regs 30 else ctx.Lr
        Sp := if (flags &&& Arm64.CONTEXT_CONTROL) = Arm64.CONTEXT_CONTROL then
          ti.m_gpRegisters.sp else ctx.Sp
        Pc := if (flags &&& Arm64.CONTEXT_CONTROL) = Arm64.CONTEXT_CONTROL then
          ti.m_gpRegisters.pc else ctx.Pc
        V := if (flags &&& Arm64.CONTEXT_FLOATING_POINT) = Arm64.CONTEXT_FLOATING_POINT then
          memcpy 16 ctx.V ti.m_fpRegisters.vregs Arm64.sizeof_V else ctx.V
        Fpcr := if (flags &&& Arm64.CONTEXT_FLOATING_POINT) = Arm64.CONTEXT_FLOATING_POINT then
          ti.m_fpRegisters.fpcr else ctx.Fpcr
        Fpsr := if (flags &&& Arm64.CONTEXT_FLOATING_POINT) = Arm64.CONTEXT_FLOATING_POINT then
          ti.m_fpRegisters.fpsr else ctx.Fpsr } := by
  simp only [Arm64.GetThreadContext]
  split_ifs <;> rfl

theorem categoryUnion_requests_arm64 (c1 i1 f1 c2 i2 f2 : Bool) :
    (((Arm64.categoryUnion c1 i1 f1 ||| Arm64.categoryUnion c2 i2 f2) &&& Arm64.CONTEXT_CONTROL)
        = Arm64.CONTEXT_CONTROL ↔
      ((Arm64.categoryUnion c1 i1 f1 &&& Arm64.CONTEXT_CONTROL) = Arm64.CONTEXT_CONTROL ∨
       (Arm64.categoryUnion c2 i2 f2 &&& Arm64.CONTEXT_CONTROL) = Arm64.CONTEXT_CONTROL)) ∧
    (((Arm64.categoryUnion c1 i1 f1 ||| Arm64.categoryUnion c2 i2 f2) &&& Arm64.CONTEXT_INTEGER)
        = Arm64.CONTEXT_INTEGER ↔
      ((Arm64.categoryUnion c1 i1 f1 &&& Arm64.CONTEXT_INTEGER) = Arm64.CONTEXT_INTEGER ∨
       (Arm64.categoryUnion c2 i2 f2 &&& Arm64.CONTEXT_INTEGER) = Arm64.CONTEXT_INTEGER)) ∧
    (((Arm64.categoryUnion c1 i1 f1 ||| Arm64.categoryUnion c2 i2 f2) &&&
        Arm64.CONTEXT_FLOATING_POINT) = Arm64.CONTEXT_FLOATING_POINT ↔
      ((Arm64.categoryUnion c1 i1 f1 &&& Arm64.CONTEXT_FLOATING_POINT) =
        Arm64.CONTEXT_FLOATING_POINT ∨
       (Arm64.categoryUnion c2 i2 f2 &&& Arm64.CONTEXT_FLOATING_POINT) =
        Arm64.CONTEXT_FLOATING_POINT)) := by
  cases c1 <;> cases i1 <;> cases f1 <;> cases c2 <;> cases i2 <;> cases f2 <;> decide

theorem GetThreadContext_twice_arm64 (c1 i1 f1 c2 i2 f2 : Bool) (ti : Arm64.Thread)
    (ctx : Arm64.CONTEXT) :
    { Arm64.GetThreadContext (Arm64.categoryUnion c2 i2 f2) ti
        (Arm64.GetThreadContext (Arm64.categoryUnion c1 i1 f1) ti ctx) with
      ContextFlags := 0 } =
    { Arm64.GetThreadContext (Arm64.categoryUnion c1 i1 f1 ||| Arm64.categoryUnion c2 i2 f2) ti
        ctx with
      ContextFlags := 0 } := by
  obtain ⟨hC, hI, hF⟩ := categoryUnion_requests_arm64 c1 i1 f1 c2 i2 f2
  generalize Arm64.categoryUnion c1 i1 f1 = A at hC hI hF ⊢
  generalize Arm64.categoryUnion c2 i2 f2 = B at hC hI hF ⊢
  simp only [GetThreadContext_shape_arm64, ite_twice _ _ _ hC, ite_twice _ _ _ hI, ite_twice _ _
    _ hF, memcpy_twice _ _ _ hI, memcpy_twice _ _ _ hF]

theorem GetThreadContext_shape_arm (vfp : Bool) (flags : Nat) (ti : Arm.Thread)
    (ctx : Arm.CONTEXT) :
    Arm.GetThreadContext vfp flags ti ctx =
      { ContextFlags := flags
        R0 := if (flags &&& Arm.CONTEXT_INTEGER) = Arm.CONTEXT_INTEGER then
          ti.m_gpRegisters.ARM_r0 else ctx.R0
        R1 := if (flags &&& Arm.CONTEXT_INTEGER) = Arm.CONTEXT_INTEGER then
          ti.m_gpRegisters.ARM_r1 else ctx.R1
        R2 := if (flags &&& Arm.CONTEXT_INTEGER) = Arm.CONTEXT_INTEGER then
          ti.m_gpRegisters.ARM_r2 else ctx.R2
        R3 := if (flags &&& Arm.CONTEXT_INTEGER) = Arm.CONTEXT_INTEGER then
          ti.m_gpRegisters.ARM_r3 else ctx.R3
        R4 := if (flags &&& Arm.CONTEXT_INTEGER) = Arm.CONTEXT_INTEGER then
          ti.m_gpRegisters.ARM_r4 else ctx.R4
        R5 := if (flags &&& Arm.CONTEXT_INTEGER) = Arm.CONTEXT_INTEGER then
          ti.m_gpRegisters.ARM_r5 else ctx.R5
        R6 := if (flags &&& Arm.CONTEXT_INTEGER) = Arm.CONTEXT_INTEGER then
          ti.m_gpRegisters.ARM_r6 else ctx.R6
        R7 := if (flags &&& Arm.CONTEXT_INTEGER) = Arm.CONTEXT_INTEGER then
          ti.m_gpRegisters.ARM_r7 else ctx.R7
        R8 := if (flags &&& Arm.CONTEXT_INTEGER) = Arm.CONTEXT_INTEGER then
          ti.m_gpRegisters.ARM_r8 else ctx.R8
        R9 := if (flags &&& Arm.CONTEXT_INTEGER) = Arm.CONTEXT_INTEGER then
          ti.m_gpRegisters.ARM_r9 else ctx.R9
        R10 := if (flags &&& Arm.CONTEXT_INTEGER) = Arm.CONTEXT_INTEGER then
          ti.m_gpRegisters.ARM_r10 else ctx.R10
        R11 := if (flags &&& Arm.CONTEXT_INTEGER) = Arm.CONTEXT_INTEGER then
          ti.m_gpRegisters.ARM_fp else ctx.R11
        R12 := if (flags &&& Arm.CONTEXT_INTEGER) = Arm.CONTEXT_INTEGER then
          ti.m_gpRegisters.ARM_ip else ctx.R12
        Sp := if (flags &&& Arm.CONTEXT_CONTROL) = Arm.CONTEXT_CONTROL then
          ti.m_gpRegisters.ARM_sp else ctx.Sp
        Lr := if (flags &&& Arm.CONTEXT_CONTROL) = Arm.CONTEXT_CONTROL then
          ti.m_gpRegisters.ARM_lr else ctx.Lr
        Pc := if (flags &&& Arm.CONTEXT_CONTROL) = Arm.CONTEXT_CONTROL then
          ti.m_gpRegisters.ARM_pc else ctx.Pc
        Cpsr := if (flags &&& Arm.CONTEXT_CONTROL) = Arm.CONTEXT_CONTROL then
          ti.m_gpRegisters.ARM_cpsr else ctx.Cpsr
        Fpscr := if (flags &&& Arm.CONTEXT_FLOATING_POINT) = Arm.CONTEXT_FLOATING_POINT then
          (if vfp = true then ti.m_xRegisters.fpscr else ctx.Fpscr) else ctx.Fpscr
        D := if (flags &&& Arm.CONTEXT_FLOATING_POINT) = Arm.CONTEXT_FLOATING_POINT then
          (if vfp = true then memcpy 8 ctx.D ti.m_xRegisters.fpregs Arm.sizeof_D else ctx.D) else
            ctx.D } := by
  simp only [Arm.GetThreadContext]
  cases vfp <;> (split_ifs <;> rfl)

theorem categoryUnion_requests_arm (c1 i1 f1 c2 i2 f2 : Bool) :
    (((Arm.categoryUnion c1 i1 f1 ||| Arm.categoryUnion c2 i2 f2) &&& Arm.CONTEXT_CONTROL) =
        Arm.CONTEXT_CONTROL ↔
      ((Arm.categoryUnion c1 i1 f1 &&& Arm.CONTEXT_CONTROL) = Arm.CONTEXT_CONTROL ∨
       (Arm.categoryUnion c2 i2 f2 &&& Arm.CONTEXT_CONTROL) = Arm.CONTEXT_CONTROL)) ∧
    (((Arm.categoryUnion c1 i1 f1 ||| Arm.categoryUnion c2 i2 f2) &&& Arm.CONTEXT_INTEGER) =
        Arm.CONTEXT_INTEGER ↔
      ((Arm.categoryUnion c1 i1 f1 &&& Arm.CONTEXT_INTEGER) = Arm.CONTEXT_INTEGER ∨
       (Arm.categoryUnion c2 i2 f2 &&& Arm.CONTEXT_INTEGER) = Arm.CONTEXT_INTEGER)) ∧
    (((Arm.categoryUnion c1 i1 f1 ||| Arm.categoryUnion c2 i2 f2) &&& Arm.CONTEXT_FLOATING_POINT)
        = Arm.CONTEXT_FLOATING_POINT ↔
      ((Arm.categoryUnion c1 i1 f1 &&& Arm.CONTEXT_FLOATING_POINT) = Arm.CONTEXT_FLOATING_POINT ∨
       (Arm.categoryUnion c2 i2 f2 &&& Arm.CONTEXT_FLOATING_POINT) = Arm.CONTEXT_FLOATING_POINT)) := by
  cases c1 <;> cases i1 <;> cases f1 <;> cases c2 <;> cases i2 <;> cases f2 <;> decide

theorem GetThreadContext_twice_arm (vfp : Bool) (c1 i1 f1 c2 i2 f2 : Bool) (ti : Arm.Thread)
    (ctx : Arm.CONTEXT) :
    { Arm.GetThreadContext vfp (Arm.categoryUnion c2 i2 f2) ti
        (Arm.GetThreadContext vfp (Arm.categoryUnion c1 i1 f1) ti ctx) with
      ContextFlags := 0 } =
    { Arm.GetThreadContext vfp (Arm.categoryUnion c1 i1 f1 ||| Arm.categoryUnion c2 i2 f2) ti ctx
        with
      ContextFlags := 0 } := by
  obtain ⟨hC, hI, hF⟩ := categoryUnion_requests_arm c1 i1 f1 c2 i2 f2
  generalize Arm.categoryUnion c1 i1 f1 = A at hC hI hF ⊢
  generalize Arm.categoryUnion c2 i2 f2 = B at hC hI hF ⊢
  simp only [GetThreadContext_shape_arm, hC, hI, hF]
  congr 1 <;> (split_ifs <;> simp_all [memcpy_idem])

theorem GetThreadContext_shape_loongarch64 (flags : Nat) (ti : LoongArch64.Thread)
    (ctx : LoongArch64.CONTEXT) :
    LoongArch64.GetThreadContext flags ti ctx =
      { ContextFlags := flags
        R0 := ctx.R0
        Ra := if (flags &&& LoongArch64.CONTEXT_CONTROL) ≠ 0 then
          ti.m_gpRegisters.regs 1 else ctx.Ra
        Tp := ctx.Tp
        Sp := if (flags &&& LoongArch64.CONTEXT_CONTROL) ≠ 0 then
          ti.m_gpRegisters.regs 3 else ctx.Sp
        A0 := if (flags &&& LoongArch64.CONTEXT_INTEGER) ≠ 0 then
          ti.m_gpRegisters.regs 4 else ctx.A0
        A1 := if (flags &&& LoongArch64.CONTEXT_INTEGER) ≠ 0 then
          ti.m_gpRegisters.regs 5 else ctx.A1
        A2 := if (flags &&& LoongArch64.CONTEXT_INTEGER) ≠ 0 then
          ti.m_gpRegisters.regs 6 else ctx.A2
        A3 := if (flags &&& LoongArch64.CONTEXT_INTEGER) ≠ 0 then
          ti.m_gpRegisters.regs 7 else ctx.A3
        A4 := if (flags &&& LoongArch64.CONTEXT_INTEGER) ≠ 0 then
          ti.m_gpRegisters.regs 8 else ctx.A4
        A5 := if (flags &&& LoongArch64.CONTEXT_INTEGER) ≠ 0 then
          ti.m_gpRegisters.regs 9 else ctx.A5
        A6 := if (flags &&& LoongArch64.CONTEXT_INTEGER) ≠ 0 then
          ti.m_gpRegisters.regs 10 else ctx.A6
        A7 := if (flags &&& LoongArch64.CONTEXT_INTEGER) ≠ 0 then
          ti.m_gpRegisters.regs 11 else ctx.A7
        T0 := if (flags &&& LoongArch64.CONTEXT_INTEGER) ≠ 0 then
          ti.m_gpRegisters.regs 12 else ctx.T0
        T1 := if (flags &&& LoongArch64.CONTEXT_INTEGER) ≠ 0 then
          ti.m_gpRegisters.regs 13 else ctx.T1
        T2 := if (flags &&& LoongArch64.CONTEXT_INTEGER) ≠ 0 then
          ti.m_gpRegisters.regs 14 else ctx.T2
        T3 := if (flags &&& LoongArch64.CONTEXT_INTEGER) ≠ 0 then
          ti.m_gpRegisters.regs 15 else ctx.T3
        T4 := if (flags &&& LoongArch64.CONTEXT_INTEGER) ≠ 0 then
          ti.m_gpRegisters.regs 16 else ctx.T4
        T5 := if (flags &&& LoongArch64.CONTEXT_INTEGER) ≠ 0 then
          ti.m_gpRegisters.regs 17 else ctx.T5
        T6 := if (flags &&& LoongArch64.CONTEXT_INTEGER) ≠ 0 then
          ti.m_gpRegisters.regs 18 else ctx.T6
        T7 := if (flags &&& LoongArch64.CONTEXT_INTEGER) ≠ 0 then
          ti.m_gpRegisters.regs 19 else ctx.T7
        T8 := if (flags &&& LoongArch64.CONTEXT_INTEGER) ≠ 0 then
          ti.m_gpRegisters.regs 20 else ctx.T8
        X0 := if (flags &&& LoongArch64.CONTEXT_INTEGER) ≠ 0 then
          ti.m_gpRegisters.regs 21 else ctx.X0
        Fp := if (flags &&& LoongArch64.CONTEXT_CONTROL) ≠ 0 then
          ti.m_gpRegisters.regs 22 else ctx.Fp
        S0 := if (flags &&& LoongArch64.CONTEXT_INTEGER) ≠ 0 then
          ti.m_gpRegisters.regs 23 else ctx.S0
        S1 := if (flags &&& LoongArch64.CONTEXT_INTEGER) ≠ 0 then
          ti.m_gpRegisters.regs 24 else ctx.S1
        S2 := if (flags &&& LoongArch64.CONTEXT_INTEGER) ≠ 0 then
          ti.m_gpRegisters.regs 25 else ctx.S2
        S3 := if (flags &&& LoongArch64.CONTEXT_INTEGER) ≠ 0 then
          ti.m_gpRegisters.regs 26 else ctx.S3
        S4 := if (flags &&& LoongArch64.CONTEXT_INTEGER) ≠ 0 then
          ti.m_gpRegisters.regs 27 else ctx.S4
        S5 := if (flags &&& LoongArch64.CONTEXT_INTEGER) ≠ 0 then
          ti.m_gpRegisters.regs 28 else ctx.S5
        S6 := if (flags &&& LoongArch64.CONTEXT_INTEGER) ≠ 0 then
          ti.m_gpRegisters.regs 29 else ctx.S6
        S7 := if (flags &&& LoongArch64.CONTEXT_INTEGER) ≠ 0 then
          ti.m_gpRegisters.regs 30 else ctx.S7
        S8 := if (flags &&& LoongArch64.CONTEXT_INTEGER) ≠ 0 then
          ti.m_gpRegisters.regs 31 else ctx.S8
        Pc := if (flags &&& LoongArch64.CONTEXT_CONTROL) ≠ 0 then
          ti.m_gpRegisters.csr_era else ctx.Pc
        F := if (flags &&& LoongArch64.CONTEXT_FLOATING_POINT) ≠ 0 then
          memcpy 8 ctx.F ti.m_fpRegisters.regs LoongArch64.sizeof_F else ctx.F
        Fcc := if (flags &&& LoongArch64.CONTEXT_FLOATING_POINT) ≠ 0 then
          ti.m_fpRegisters.fcc else ctx.Fcc
        Fcsr := if (flags &&& LoongArch64.CONTEXT_FLOATING_POINT) ≠ 0 then
          ti.m_fpRegisters.fcsr else ctx.Fcsr } := by
  simp only [LoongArch64.GetThreadContext]
  split_ifs <;> rfl

theorem categoryUnion_requests_loongarch64 (c1 i1 f1 c2 i2 f2 : Bool) :
    (((LoongArch64.categoryUnion c1 i1 f1 ||| LoongArch64.categoryUnion c2 i2 f2) &&&
        LoongArch64.CONTEXT_CONTROL) ≠ 0 ↔
      ((LoongArch64.categoryUnion c1 i1 f1 &&& LoongArch64.CONTEXT_CONTROL) ≠ 0 ∨
       (LoongArch64.categoryUnion c2 i2 f2 &&& LoongArch64.CONTEXT_CONTROL) ≠ 0)) ∧
    (((LoongArch64.categoryUnion c1 i1 f1 ||| LoongArch64.categoryUnion c2 i2 f2) &&&
        LoongArch64.CONTEXT_INTEGER) ≠ 0 ↔
      ((LoongArch64.categoryUnion c1 i1 f1 &&& LoongArch64.CONTEXT_INTEGER) ≠ 0 ∨
       (LoongArch64.categoryUnion c2 i2 f2 &&& LoongArch64.CONTEXT_INTEGER) ≠ 0)) ∧
    (((LoongArch64.categoryUnion c1 i1 f1 ||| LoongArch64.categoryUnion c2 i2 f2) &&&
        LoongArch64.CONTEXT_FLOATING_POINT) ≠ 0 ↔
      ((LoongArch64.categoryUnion c1 i1 f1 &&& LoongArch64.CONTEXT_FLOATING_POINT) ≠ 0 ∨
       (LoongArch64.categoryUnion c2 i2 f2 &&& LoongArch64.CONTEXT_FLOATING_POINT) ≠ 0)) := by
  cases c1 <;> cases i1 <;> cases f1 <;> cases c2 <;> cases i2 <;> cases f2 <;> decide

theorem GetThreadContext_twice_loongarch64 (c1 i1 f1 c2 i2 f2 : Bool) (ti : LoongArch64.Thread)
    (ctx : LoongArch64.CONTEXT) :
    { LoongArch64.GetThreadContext (LoongArch64.categoryUnion c2 i2 f2) ti
        (LoongArch64.GetThreadContext (LoongArch64.categoryUnion c1 i1 f1) ti ctx) with
      ContextFlags := 0 } =
    { LoongArch64.GetThreadContext (LoongArch64.categoryUnion c1 i1 f1 |||
        LoongArch64.categoryUnion c2 i2 f2) ti ctx with
      ContextFlags := 0 } := by
  obtain ⟨hC, hI, hF⟩ := categoryUnion_requests_loongarch64 c1 i1 f1 c2 i2 f2
  generalize LoongArch64.categoryUnion c1 i1 f1 = A at hC hI hF ⊢
  generalize LoongArch64.categoryUnion c2 i2 f2 = B at hC hI hF ⊢
  simp only [GetThreadContext_shape_loongarch64, ite_twice _ _ _ hC, ite_twice _ _ _ hI,
    ite_twice _ _ _ hF, memcpy_twice _ _ _ hI, memcpy_twice _ _ _ hF]

theorem GetThreadContext_shape_riscv (flags : Nat) (ti : RiscV.Thread)
    (ctx : RiscV.CONTEXT) :
    RiscV.GetThreadContext flags ti ctx =
      { ContextFlags := flags
        R0 := ctx.R0
        Ra := if (flags &&& RiscV.CONTEXT_CONTROL) = RiscV.CONTEXT_CONTROL then
          ti.m_gpRegisters.ra else ctx.Ra
        Sp := if (flags &&& RiscV.CONTEXT_CONTROL) = RiscV.CONTEXT_CONTROL then
          ti.m_gpRegisters.sp else ctx.Sp
        Gp := if (flags &&& RiscV.CONTEXT_INTEGER) ≠ 0 then
          ti.m_gpRegisters.gp else ctx.Gp
        Tp := if (flags &&& RiscV.CONTEXT_INTEGER) ≠ 0 then
          ti.m_gpRegisters.tp else ctx.Tp
        T0 := if (flags &&& RiscV.CONTEXT_INTEGER) ≠ 0 then
          ti.m_gpRegisters.t0 else ctx.T0
        T1 := if (flags &&& RiscV.CONTEXT_INTEGER) ≠ 0 then
          ti.m_gpRegisters.t1 else ctx.T1
        T2 := if (flags &&& RiscV.CONTEXT_INTEGER) ≠ 0 then
          ti.m_gpRegisters.t2 else ctx.T2
        Fp := if (flags &&& RiscV.CONTEXT_CONTROL) = RiscV.CONTEXT_CONTROL then
          ti.m_gpRegisters.s0 else ctx.Fp
        S1 := if (flags &&& RiscV.CONTEXT_INTEGER) ≠ 0 then
          ti.m_gpRegisters.s1 else ctx.S1
        A0 := if (flags &&& RiscV.CONTEXT_INTEGER) ≠ 0 then
          ti.m_gpRegisters.a0 else ctx.A0
        A1 := if (flags &&& RiscV.CONTEXT_INTEGER) ≠ 0 then
          ti.m_gpRegisters.a1 else ctx.A1
        A2 := if (flags &&& RiscV.CONTEXT_INTEGER) ≠ 0 then
          ti.m_gpRegisters.a2 else ctx.A2
        A3 := if (flags &&& RiscV.CONTEXT_INTEGER) ≠ 0 then
          ti.m_gpRegisters.a3 else ctx.A3
        A4 := if (flags &&& RiscV.CONTEXT_INTEGER) ≠ 0 then
          ti.m_gpRegisters.a4 else ctx.A4
        A5 := if (flags &&& RiscV.CONTEXT_INTEGER) ≠ 0 then
          ti.m_gpRegisters.a5 else ctx.A5
        A6 := if (flags &&& RiscV.CONTEXT_INTEGER) ≠ 0 then
          ti.m_gpRegisters.a6 else ctx.A6
        A7 := if (flags &&& RiscV.CONTEXT_INTEGER) ≠ 0 then
          ti.m_gpRegisters.a7 else ctx.A7
        S2 := if (flags &&& RiscV.CONTEXT_INTEGER) ≠ 0 then
          ti.m_gpRegisters.s2 else ctx.S2
        S3 := if (flags &&& RiscV.CONTEXT_INTEGER) ≠ 0 then
          ti.m_gpRegisters.s3 else ctx.S3
        S4 := if (flags &&& RiscV.CONTEXT_INTEGER) ≠ 0 then
          ti.m_gpRegisters.s4 else ctx.S4
        S5 := if (flags &&& RiscV.CONTEXT_INTEGER) ≠ 0 then
          ti.m_gpRegisters.s5 else ctx.S5
        S6 := if (flags &&& RiscV.CONTEXT_INTEGER) ≠ 0 then
          ti.m_gpRegisters.s6 else ctx.S6
        S7 := if (flags &&& RiscV.CONTEXT_INTEGER) ≠ 0 then
          ti.m_gpRegisters.s7 else ctx.S7
        S8 := if (flags &&& RiscV.CONTEXT_INTEGER) ≠ 0 then
          ti.m_gpRegisters.s8 else ctx.S8
        S9 := if (flags &&& RiscV.CONTEXT_INTEGER) ≠ 0 then
          ti.m_gpRegisters.s9 else ctx.S9
        S10 := if (flags &&& RiscV.CONTEXT_INTEGER) ≠ 0 then
          ti.m_gpRegisters.s10 else ctx.S10
        S11 := if (flags &&& RiscV.CONTEXT_INTEGER) ≠ 0 then
          ti.m_gpRegisters.s11 else ctx.S11
        T3 := if (flags &&& RiscV.CONTEXT_INTEGER) ≠ 0 then
          ti.m_gpRegisters.t3 else ctx.T3
        T4 := if (flags &&& RiscV.CONTEXT_INTEGER) ≠ 0 then
          ti.m_gpRegisters.t4 else ctx.T4
        T5 := if (flags &&& RiscV.CONTEXT_INTEGER) ≠ 0 then
          ti.m_gpRegisters.t5 else ctx.T5
        T6 := if (flags &&& RiscV.CONTEXT_INTEGER) ≠ 0 then
          ti.m_gpRegisters.t6 else ctx.T6
        Pc := if (flags &&& RiscV.CONTEXT_CONTROL) = RiscV.CONTEXT_CONTROL then
          ti.m_gpRegisters.pc else ctx.Pc
        F := if (flags &&& RiscV.CONTEXT_FLOATING_POINT) ≠ 0 then
          memcpy 8 ctx.F ti.m_fpRegisters.fpregs RiscV.sizeof_F else ctx.F
        Fcsr := if (flags &&& RiscV.CONTEXT_FLOATING_POINT) ≠ 0 then
          ti.m_fpRegisters.fcsr else ctx.Fcsr } := by
  simp only [RiscV.GetThreadContext]
  split_ifs <;> rfl

theorem categoryUnion_requests_riscv (c1 i1 f1 c2 i2 f2 : Bool) :
    (((RiscV.categoryUnion c1 i1 f1 ||| RiscV.categoryUnion c2 i2 f2) &&& RiscV.CONTEXT_CONTROL)
        = RiscV.CONTEXT_CONTROL ↔
      ((RiscV.categoryUnion c1 i1 f1 &&& RiscV.CONTEXT_CONTROL) = RiscV.CONTEXT_CONTROL ∨
       (RiscV.categoryUnion c2 i2 f2 &&& RiscV.CONTEXT_CONTROL) = RiscV.CONTEXT_CONTROL)) ∧
    (((RiscV.categoryUnion c1 i1 f1 ||| RiscV.categoryUnion c2 i2 f2) &&& RiscV.CONTEXT_INTEGER)
        ≠ 0 ↔
      ((RiscV.categoryUnion c1 i1 f1 &&& RiscV.CONTEXT_INTEGER) ≠ 0 ∨
       (RiscV.categoryUnion c2 i2 f2 &&& RiscV.CONTEXT_INTEGER) ≠ 0)) ∧
    (((RiscV.categoryUnion c1 i1 f1 ||| RiscV.categoryUnion c2 i2 f2) &&&
        RiscV.CONTEXT_FLOATING_POINT) ≠ 0 ↔
      ((RiscV.categoryUnion c1 i1 f1 &&& RiscV.CONTEXT_FLOATING_POINT) ≠ 0 ∨
       (RiscV.categoryUnion c2 i2 f2 &&& RiscV.CONTEXT_FLOATING_POINT) ≠ 0)) := by
  cases c1 <;> cases i1 <;> cases f1 <;> cases c2 <;> cases i2 <;> cases f2 <;> decide

theorem GetThreadContext_twice_riscv (c1 i1 f1 c2 i2 f2 : Bool) (ti : RiscV.Thread)
    (ctx : RiscV.CONTEXT) :
    { RiscV.GetThreadContext (RiscV.categoryUnion c2 i2 f2) ti
        (RiscV.GetThreadContext (RiscV.categoryUnion c1 i1 f1) ti ctx) with
      ContextFlags := 0 } =
    { RiscV.GetThreadContext (RiscV.categoryUnion c1 i1 f1 ||| RiscV.categoryUnion c2 i2 f2) ti
        ctx with
      ContextFlags := 0 } := by
  obtain ⟨hC, hI, hF⟩ := categoryUnion_requests_riscv c1 i1 f1 c2 i2 f2
  generalize RiscV.categoryUnion c1 i1 f1 = A at hC hI hF ⊢
  generalize RiscV.categoryUnion c2 i2 f2 = B at hC hI hF ⊢
  simp only [GetThreadContext_shape_riscv, ite_twice _ _ _ hC, ite_twice _ _ _ hI, ite_twice _ _
    _ hF, memcpy_twice _ _ _ hI, memcpy_twice _ _ _ hF]

/-- C12: on every architecture, for every raw register blocks, every initial record and
every two flag sets that are each a union of the category constants of the architecture,
`GetThreadContext` with the first and then with the second on the same record yields a
record whose fields other than `ContextFlags` all equal those of a single call with the OR
of the two flag sets on the initial record. -/
theorem C12_partial_population_composes :
    (∀ (c1 i1 s1 f1 c2 i2 s2 f2 : Bool) (ti : X64.Thread) (ctx : X64.CONTEXT),
      { X64.GetThreadContext (X64.categoryUnion c2 i2 s2 f2) ti
          (X64.GetThreadContext (X64.categoryUnion c1 i1 s1 f1) ti ctx) with
        ContextFlags := 0 } =
      { X64.GetThreadContext 
          (X64.categoryUnion c1 i1 s1 f1 ||| X64.categoryUnion c2 i2 s2 f2) ti ctx with
        ContextFlags := 0 }) ∧
    (∀ (c1 i1 f1 c2 i2 f2 : Bool) (ti : Arm64.Thread) (ctx : Arm64.CONTEXT),
      { Arm64.GetThreadContext (Arm64.categoryUnion c2 i2 f2) ti
          (Arm64.GetThreadContext (Arm64.categoryUnion c1 i1 f1) ti ctx) with
        ContextFlags := 0 } =
      { Arm64.GetThreadContext 
          (Arm64.categoryUnion c1 i1 f1 ||| Arm64.categoryUnion c2 i2 f2) ti ctx with
        ContextFlags := 0 }) ∧
    (∀ (vfp : Bool) (c1 i1 f1 c2 i2 f2 : Bool) (ti : Arm.Thread) (ctx : Arm.CONTEXT),
      { Arm.GetThreadContext vfp (Arm.categoryUnion c2 i2 f2) ti
          (Arm.GetThreadContext vfp (Arm.categoryUnion c1 i1 f1) ti ctx) with
        ContextFlags := 0 } =
      { Arm.GetThreadContext vfp 
          (Arm.categoryUnion c1 i1 f1 ||| Arm.categoryUnion c2 i2 f2) ti ctx with
        ContextFlags := 0 }) ∧
    (∀ (c1 i1 f1 c2 i2 f2 : Bool) (ti : LoongArch64.Thread) (ctx : LoongArch64.CONTEXT),
      { LoongArch64.GetThreadContext (LoongArch64.categoryUnion c2 i2 f2) ti
          (LoongArch64.GetThreadContext (LoongArch64.categoryUnion c1 i1 f1) ti ctx) with
        ContextFlags := 0 } =
      { LoongArch64.GetThreadContext 
          (LoongArch64.categoryUnion c1 i1 f1 ||| LoongArch64.categoryUnion c2 i2 f2) ti ctx with
        ContextFlags := 0 }) ∧
    (∀ (c1 i1 f1 c2 i2 f2 : Bool) (ti : RiscV.Thread) (ctx : RiscV.CONTEXT),
      { RiscV.GetThreadContext (RiscV.categoryUnion c2 i2 f2) ti
          (RiscV.GetThreadContext (RiscV.categoryUnion c1 i1 f1) ti ctx) with
        ContextFlags := 0 } =
      { RiscV.GetThreadContext 
          (RiscV.categoryUnion c1 i1 f1 ||| RiscV.categoryUnion c2 i2 f2) ti ctx with
        ContextFlags := 0 }) :=
  ⟨GetThreadContext_twice_x64, GetThreadContext_twice_arm64, GetThreadContext_twice_arm,
    GetThreadContext_twice_loongarch64, GetThreadContext_twice_riscv⟩

/-- C12 at a concrete input: on x86-64, Control and then Integer on the pre-seeded record
gives the same `Rip`, `Rax` and `SegDs` as Control|Integer in one call: `0x400000`, `0x11`
and the sentinel `0xAA`. -/
theorem C12_partial_population_composes_witness :
    X64.categoryUnion true false false false = X64.CONTEXT_CONTROL ∧
    X64.categoryUnion false true false false = X64.CONTEXT_INTEGER ∧
    (X64.GetThreadContext X64.CONTEXT_INTEGER X64.scenario
      (X64.GetThreadContext X64.CONTEXT_CONTROL X64.scenario X64.sentinel)).Rip =
      (X64.GetThreadContext (X64.CONTEXT_CONTROL ||| X64.CONTEXT_INTEGER) X64.scenario
        X64.sentinel).Rip ∧
    (X64.GetThreadContext X64.CONTEXT_INTEGER X64.scenario
      (X64.GetThreadContext X64.CONTEXT_CONTROL X64.scenario X64.sentinel)).Rip = 0x400000 ∧
    (X64.GetThreadContext X64.CONTEXT_INTEGER X64.scenario
      (X64.GetThreadContext X64.CONTEXT_CONTROL X64.scenario X64.sentinel)).Rax = 0x11 ∧
    (X64.GetThreadContext (X64.CONTEXT_CONTROL ||| X64.CONTEXT_INTEGER) X64.scenario
      X64.sentinel).SegDs = 0xAA :=
  have w := C12_partial_population_composes.1 true false false false false true false false
    X64.scenario X64.sentinel
  have wRip := congrArg X64.CONTEXT.Rip w
  ⟨by decide, by decide, wRip, by decide, by decide, by decide⟩

theorem GetRegistersWithPTrace_extended_none {G F E : Type} (b : Build) (os : System G F E)
    (ti : ThreadInfo G F E) (trace : List Event) (iov_len : Nat)
    (hlen : b.asserts = true → iov_len = b.sizeof_fpRegisters)
    (hvfp : b.asserts = true → ∀ n, b.ARM_VFPREGS_SIZE = some n → b.sizeof_vfpRegisters = n)
    (hx : b.arch = Arch.i386 ∨ (b.arch = Arch.arm ∧ b.vfp = true))
    (he : os.extended = none) :
    (GetRegistersWithPTrace_extended b os ti trace iov_len).outcome =
      Outcome.returned false := by
  have h1 : ¬ (b.asserts = true ∧ b.sizeof_fpRegisters ≠ iov_len) := fun hc =>
    hc.2 (hlen hc.1).symm
  have h2 : ¬ (b.asserts = true ∧
      ∃ n, b.ARM_VFPREGS_SIZE = some n ∧ b.sizeof_vfpRegisters ≠ n) := fun hc => by
    obtain ⟨ha, n, hn, hne⟩ := hc
    exact hne (hvfp ha n hn)
  simp only [GetRegistersWithPTrace_extended, if_neg h1, if_neg h2, he]
  rcases hx with h | h
  · simp [h]
  · simp [h]

theorem GetRegistersWithPTrace_extended_some {G F E : Type} (b : Build) (os : System G F E)
    (ti : ThreadInfo G F E) (trace : List Event) (iov_len : Nat) (x : Reply E)
    (hlen : b.asserts = true → iov_len = b.sizeof_fpRegisters)
    (hvfp : b.asserts = true → ∀ n, b.ARM_VFPREGS_SIZE = some n → b.sizeof_vfpRegisters = n)
    (hx : b.arch = Arch.arm ∧ b.vfp = true)
    (he : os.extended = some x) :
    (GetRegistersWithPTrace_extended b os ti trace iov_len).outcome =
      Outcome.returned true ∧
    (GetRegistersWithPTrace_extended b os ti trace iov_len).thread.m_xRegisters = x.data := by
  have h1 : ¬ (b.asserts = true ∧ b.sizeof_fpRegisters ≠ iov_len) := fun hc =>
    hc.2 (hlen hc.1).symm
  have h2 : ¬ (b.asserts = true ∧
      ∃ n, b.ARM_VFPREGS_SIZE = some n ∧ b.sizeof_vfpRegisters ≠ n) := fun hc => by
    obtain ⟨ha, n, hn, hne⟩ := hc
    exact hne (hvfp ha n hn)
  simp only [GetRegistersWithPTrace_extended, if_neg h1, if_neg h2, he]
  simp [hx.1, hx.2]

/-- C13: on the targets with a distinct extended register set (i386 through
`PTRACE_GETFPXREGS`, 32-bit ARM with VFP through `PTRACE_GETVFPREGS`), when the general
retrieval succeeds and the extended retrieval fails, `GetRegistersWithPTrace` returns false;
on ARM with VFP this holds also when the floating-point retrieval failed and was ignored,
and a failed floating-point retrieval followed by a successful VFP retrieval returns true.
The retrievals are taken to pass the size checks of lines 79, 91 and 102, without which the
extended retrieval is never issued. -/
theorem C13_extended_retrieval_failure {G F E : Type} (b : Build) (os : System G F E)
    (ti : ThreadInfo G F E) (gp : Reply G)
    (hg : os.NT_PRSTATUS = some gp)
    (hsize : b.asserts = true →
      gp.len = b.sizeof_gpRegisters ∧
      (∀ fp, os.NT_FPREGSET = some fp → fp.len = b.sizeof_fpRegisters) ∧
      (∀ n, b.ARM_VFPREGS_SIZE = some n → b.sizeof_vfpRegisters = n)) :
    ((b.arch = Arch.i386 ∨ (b.arch = Arch.arm ∧ b.vfp = true)) → os.extended = none →
      (GetRegistersWithPTrace b os ti).outcome = Outcome.returned false) ∧
    (b.arch = Arch.arm → b.vfp = true → os.NT_FPREGSET = none → os.extended = none →
      (GetRegistersWithPTrace b os ti).outcome = Outcome.returned false) ∧
    (b.arch = Arch.arm → b.vfp = true → os.NT_FPREGSET = none →
      ∀ x, os.extended = some x →
        (GetRegistersWithPTrace b os ti).outcome = Outcome.returned true ∧
        (GetRegistersWithPTrace b os ti).thread.m_xRegisters = x.data) := by
  have hno : ¬ (b.asserts = true ∧ b.sizeof_gpRegisters ≠ gp.len) := fun hc =>
    hc.2 (hsize hc.1).1.symm
  have hvfp : b.asserts = true → ∀ n, b.ARM_VFPREGS_SIZE = some n →
      b.sizeof_vfpRegisters = n := fun ha => (hsize ha).2.2
  have key : (b.arch = Arch.i386 ∨ (b.arch = Arch.arm ∧ b.vfp = true)) →
      os.extended = none →
      (GetRegistersWithPTrace b os ti).outcome = Outcome.returned false := by
    intro hx he
    cases hf : os.NT_FPREGSET with
    | none =>
      simp only [GetRegistersWithPTrace, hg, hf, if_neg hno]
      split_ifs
      · exact GetRegistersWithPTrace_extended_none b os _ _ _ (fun _ => rfl) hvfp hx he
      · rfl
    | some fp =>
      simp only [GetRegistersWithPTrace, hg, hf, if_neg hno]
      exact GetRegistersWithPTrace_extended_none b os _ _ _
        (fun ha => (hsize ha).2.1 fp hf) hvfp hx he
  refine ⟨key, fun ha hv _ he => key (Or.inr ⟨ha, hv⟩) he, fun ha hv hf x he => ?_⟩
  simp only [GetRegistersWithPTrace, hg, hf, if_neg hno, if_pos ha]
  exact GetRegistersWithPTrace_extended_some b os _ _ _ x (fun _ => rfl) hvfp ⟨ha, hv⟩ he

/-- C13 at concrete inputs: on 32-bit ARM with VFP the floating-point retrieval fails; with
the VFP retrieval failing too `GetRegistersWithPTrace` returns false, with the VFP retrieval
succeeding it returns true and stores the retrieved `fpscr = 0x13`. -/
theorem C13_extended_retrieval_failure_witness :
    Arm.osFpAndVfpFail.NT_FPREGSET = none ∧ Arm.osFpAndVfpFail.extended = none ∧
    (GetRegistersWithPTrace Arm.buildVfp Arm.osFpAndVfpFail Arm.fresh).outcome =
      Outcome.returned false ∧
    Arm.osFpFails.NT_FPREGSET = none ∧
    (GetRegistersWithPTrace Arm.buildVfp Arm.osFpFails Arm.fresh).outcome =
      Outcome.returned true ∧
    (GetRegistersWithPTrace Arm.buildVfp Arm.osFpFails Arm.fresh).thread.m_xRegisters.fpscr =
      0x13 :=
  have w1 := C13_extended_retrieval_failure Arm.buildVfp Arm.osFpAndVfpFail Arm.fresh
    ⟨Arm.scenario.m_gpRegisters, 18 * 4⟩ rfl
    (fun _ => ⟨rfl, fun fp hfp => (by cases hfp), fun n hn => (by cases hn; rfl)⟩)
  have w2 := C13_extended_retrieval_failure Arm.buildVfp Arm.osFpFails Arm.fresh
    ⟨Arm.scenario.m_gpRegisters, 18 * 4⟩ rfl
    (fun _ => ⟨rfl, fun fp hfp => (by cases hfp), fun n hn => (by cases hn; rfl)⟩)
  have w3 := w2.2.2 rfl rfl rfl ⟨Arm.scenario.m_xRegisters, 260⟩ rfl
  ⟨rfl, rfl, w1.2.1 rfl rfl rfl rfl, rfl, w3.1,
    congrArg Arm.user_vfpregs_struct.fpscr w3.2⟩

/-- C14: on LoongArch64, for every raw register file and every `flags` for which the
Integer test `flags & CONTEXT_INTEGER` is true (in particular every `flags` that contains the
Integer constant), `regs[4..21]` are copied in order into the 18 consecutive registers from
`A0` (`A0..A7`, `T0..T8`, `X0`) and `regs[23..31]` in order into `S0..S8`; every index read
lies inside the 32-entry raw file; and `regs[22]`, the frame pointer, is not copied by the
Integer category: the Integer fields do not depend on it, and when only the Integer branch
runs `Fp` keeps its prior value. -/
theorem C14_integer_fields_loongarch64 (flags : Nat) (ti : LoongArch64.Thread)
    (ctx : LoongArch64.CONTEXT) (h : (flags &&& LoongArch64.CONTEXT_INTEGER) ≠ 0) :
    LoongArch64.integerFields (LoongArch64.GetThreadContext flags ti ctx) =
        [ti.m_gpRegisters.regs 4, ti.m_gpRegisters.regs 5, ti.m_gpRegisters.regs 6,
         ti.m_gpRegisters.regs 7, ti.m_gpRegisters.regs 8, ti.m_gpRegisters.regs 9,
         ti.m_gpRegisters.regs 10, ti.m_gpRegisters.regs 11, ti.m_gpRegisters.regs 12,
         ti.m_gpRegisters.regs 13, ti.m_gpRegisters.regs 14, ti.m_gpRegisters.regs 15,
         ti.m_gpRegisters.regs 16, ti.m_gpRegisters.regs 17, ti.m_gpRegisters.regs 18,
         ti.m_gpRegisters.regs 19, ti.m_gpRegisters.regs 20, ti.m_gpRegisters.regs 21,
         ti.m_gpRegisters.regs 23, ti.m_gpRegisters.regs 24, ti.m_gpRegisters.regs 25,
         ti.m_gpRegisters.regs 26, ti.m_gpRegisters.regs 27, ti.m_gpRegisters.regs 28,
         ti.m_gpRegisters.regs 29, ti.m_gpRegisters.regs 30, ti.m_gpRegisters.regs 31] ∧
    (LoongArch64.integerFields (LoongArch64.GetThreadContext flags ti ctx)).take 18 =
      List.ofFn (fun k : Fin 18 => ti.m_gpRegisters.regs ⟨4 + k.val, by omega⟩) ∧
    (LoongArch64.integerFields (LoongArch64.GetThreadContext flags ti ctx)).drop 18 =
      List.ofFn (fun k : Fin 9 => ti.m_gpRegisters.regs ⟨23 + k.val, by omega⟩) ∧
    (4 + 18 ≤ 32 ∧ 23 + 9 ≤ 32) ∧
    (∀ (ti2 : LoongArch64.Thread),
      (∀ (i : Fin 32), i.val ≠ 22 → ti2.m_gpRegisters.regs i = ti.m_gpRegisters.regs i) →
      LoongArch64.integerFields (LoongArch64.GetThreadContext flags ti2 ctx) =
        LoongArch64.integerFields (LoongArch64.GetThreadContext flags ti ctx)) ∧
    ((flags &&& LoongArch64.CONTEXT_CONTROL) = 0 →
      (LoongArch64.GetThreadContext flags ti ctx).Fp = ctx.Fp) ∧
    ((flags &&& LoongArch64.CONTEXT_INTEGER) = LoongArch64.CONTEXT_INTEGER →
      (flags &&& LoongArch64.CONTEXT_INTEGER) ≠ 0) := by
  have hI : ∀ (t : LoongArch64.Thread),
      LoongArch64.integerFields (LoongArch64.GetThreadContext flags t ctx) =
        [t.m_gpRegisters.regs 4, t.m_gpRegisters.regs 5, t.m_gpRegisters.regs 6,
         t.m_gpRegisters.regs 7, t.m_gpRegisters.regs 8, t.m_gpRegisters.regs 9,
         t.m_gpRegisters.regs 10, t.m_gpRegisters.regs 11, t.m_gpRegisters.regs 12,
         t.m_gpRegisters.regs 13, t.m_gpRegisters.regs 14, t.m_gpRegisters.regs 15,
         t.m_gpRegisters.regs 16, t.m_gpRegisters.regs 17, t.m_gpRegisters.regs 18,
         t.m_gpRegisters.regs 19, t.m_gpRegisters.regs 20, t.m_gpRegisters.regs 21,
         t.m_gpRegisters.regs 23, t.m_gpRegisters.regs 24, t.m_gpRegisters.regs 25,
         t.m_gpRegisters.regs 26, t.m_gpRegisters.regs 27, t.m_gpRegisters.regs 28,
         t.m_gpRegisters.regs 29, t.m_gpRegisters.regs 30, t.m_gpRegisters.regs 31] := by
    intro t
    simp only [GetThreadContext_shape_loongarch64, LoongArch64.integerFields, if_pos h]
  refine ⟨hI ti, ?_, ?_, by decide, fun ti2 h2 => ?_, fun hc => ?_, fun hc => ?_⟩
  · rw [hI ti]
    rfl
  · rw [hI ti]
    rfl
  · rw [hI ti2, hI ti]
    rw [h2 4 (by decide), h2 5 (by decide), h2 6 (by decide), h2 7 (by decide), h2 8 (by decide),
      h2 9 (by decide), h2 10 (by decide), h2 11 (by decide), h2 12 (by decide),
      h2 13 (by decide), h2 14 (by decide), h2 15 (by decide), h2 16 (by decide),
      h2 17 (by decide), h2 18 (by decide), h2 19 (by decide), h2 20 (by decide),
      h2 21 (by decide), h2 23 (by decide), h2 24 (by decide), h2 25 (by decide),
      h2 26 (by decide), h2 27 (by decide), h2 28 (by decide), h2 29 (by decide),
      h2 30 (by decide), h2 31 (by decide)]
  · have hn : ¬ (flags &&& LoongArch64.CONTEXT_CONTROL) ≠ 0 := fun hne => hne hc
    simp only [GetThreadContext_shape_loongarch64, if_neg hn]
  · rw [hc]
    decide

/-- C14 at a concrete input: `regs[i] = 0x100 + i`, `flags` = Integer: `A0 = 0x104`,
`X0 = 0x115`, `S0 = 0x117`, `S8 = 0x11f`. -/
theorem C14_integer_fields_loongarch64_witness :
    (LoongArch64.CONTEXT_INTEGER &&& LoongArch64.CONTEXT_INTEGER) ≠ 0 ∧
    LoongArch64.integerFields
        (LoongArch64.GetThreadContext LoongArch64.CONTEXT_INTEGER LoongArch64.scenario
          LoongArch64.sentinel) =
      [0x104, 0x105, 0x106, 0x107, 0x108, 0x109, 0x10a, 0x10b, 0x10c, 0x10d, 0x10e, 0x10f,
       0x110, 0x111, 0x112, 0x113, 0x114, 0x115, 0x117, 0x118, 0x119, 0x11a, 0x11b, 0x11c,
       0x11d, 0x11e, 0x11f] :=
  ⟨by decide,
   (C14_integer_fields_loongarch64 LoongArch64.CONTEXT_INTEGER LoongArch64.scenario
      LoongArch64.sentinel (by decide)).1⟩

/-- C15: on 32-bit ARM, for every raw general-register block, `flags` containing the Control
constant sets `Sp`, `Lr`, `Pc`, `Cpsr` from `ARM_sp`, `ARM_lr`, `ARM_pc`, `ARM_cpsr`, and
`flags` containing the Integer constant sets `R0..R10` from `ARM_r0..ARM_r10`, `R11` from
`ARM_fp` and `R12` from `ARM_ip`; the two categories write disjoint fields: a call that runs
the Control branch and not the Integer branch leaves `R0..R12` as they were, and a call that
runs the Integer branch and not the Control branch leaves `Sp`, `Lr`, `Pc`, `Cpsr` as they
were. -/
theorem C15_control_and_integer_fields_arm (vfp : Bool) (flags : Nat) (ti : Arm.Thread)
    (ctx : Arm.CONTEXT) :
    ((flags &&& Arm.CONTEXT_CONTROL) = Arm.CONTEXT_CONTROL →
      Arm.controlFields (Arm.GetThreadContext vfp flags ti ctx) =
        [ti.m_gpRegisters.ARM_sp, ti.m_gpRegisters.ARM_lr, ti.m_gpRegisters.ARM_pc,
         ti.m_gpRegisters.ARM_cpsr]) ∧
    ((flags &&& Arm.CONTEXT_INTEGER) = Arm.CONTEXT_INTEGER →
      Arm.integerFields (Arm.GetThreadContext vfp flags ti ctx) =
        [ti.m_gpRegisters.ARM_r0, ti.m_gpRegisters.ARM_r1, ti.m_gpRegisters.ARM_r2,
         ti.m_gpRegisters.ARM_r3, ti.m_gpRegisters.ARM_r4, ti.m_gpRegisters.ARM_r5,
         ti.m_gpRegisters.ARM_r6, ti.m_gpRegisters.ARM_r7, ti.m_gpRegisters.ARM_r8,
         ti.m_gpRegisters.ARM_r9, ti.m_gpRegisters.ARM_r10, ti.m_gpRegisters.ARM_fp,
         ti.m_gpRegisters.ARM_ip]) ∧
    ((flags &&& Arm.CONTEXT_CONTROL) = Arm.CONTEXT_CONTROL →
      (flags &&& Arm.CONTEXT_INTEGER) ≠ Arm.CONTEXT_INTEGER →
      Arm.integerFields (Arm.GetThreadContext vfp flags ti ctx) = Arm.integerFields ctx) ∧
    ((flags &&& Arm.CONTEXT_INTEGER) = Arm.CONTEXT_INTEGER →
      (flags &&& Arm.CONTEXT_CONTROL) ≠ Arm.CONTEXT_CONTROL →
      Arm.controlFields (Arm.GetThreadContext vfp flags ti ctx) = Arm.controlFields ctx) := by
  refine ⟨fun h => ?_, fun h => ?_, fun _ h => ?_, fun _ h => ?_⟩
  · simp only [GetThreadContext_shape_arm, Arm.controlFields, if_pos h]
  · simp only [GetThreadContext_shape_arm, Arm.integerFields, if_pos h]
  · simp only [GetThreadContext_shape_arm, Arm.integerFields, if_neg h]
  · simp only [GetThreadContext_shape_arm, Arm.controlFields, if_neg h]

/-- C15 at concrete inputs: raw `ARM_r0..ARM_r10 = 0..10`, `ARM_fp = 11`, `ARM_ip = 12`,
`ARM_sp = 0x7000`, `ARM_lr = 0x8000`, `ARM_pc = 0x9000`, `ARM_cpsr = 0x10`; `flags` =
Control fills the Control fields and keeps the sentinels of `R0..R12`, `flags` = Integer
fills `R0..R12` and keeps the sentinels of the Control fields. -/
theorem C15_control_and_integer_fields_arm_witness :
    Arm.controlFields (Arm.GetThreadContext true Arm.CONTEXT_CONTROL Arm.scenario
      Arm.sentinel) = [0x7000, 0x8000, 0x9000, 0x10] ∧
    Arm.integerFields (Arm.GetThreadContext true Arm.CONTEXT_CONTROL Arm.scenario
      Arm.sentinel) =
      [0xAA, 0xAA, 0xAA, 0xAA, 0xAA, 0xAA, 0xAA, 0xAA, 0xAA, 0xAA, 0xAA, 0xAA, 0xAA] ∧
    Arm.integerFields (Arm.GetThreadContext true Arm.CONTEXT_INTEGER Arm.scenario
      Arm.sentinel) = [0, 1, 2, 3, 4, 5, 6, 7, 8, 9, 10, 11, 12] ∧
    Arm.controlFields (Arm.GetThreadContext true Arm.CONTEXT_INTEGER Arm.scenario
      Arm.sentinel) = [0xAA, 0xAA, 0xAA, 0xAA] :=
  have wc := C15_control_and_integer_fields_arm true Arm.CONTEXT_CONTROL Arm.scenario
    Arm.sentinel
  have wi := C15_control_and_integer_fields_arm true Arm.CONTEXT_INTEGER Arm.scenario
    Arm.sentinel
  ⟨wc.1 (by decide), wc.2.2.1 (by decide) (by decide), wi.2.1 (by decide),
    wi.2.2.2 (by decide) (by decide)⟩

/-- C16: on 32-bit ARM the projected record does not depend on the raw floating-point
(`NT_FPREGSET`) block: for every build, every `flags` and every two `ThreadInfo` states that
agree on the general-register block and on the VFP block, `GetThreadContext` produces equal
records from equal initial records; when `flags` contains the FloatingPoint constant, a VFP
build sets `Fpscr` and `D` from the VFP block and a build without VFP leaves them as they
were. -/
theorem C16_floating_point_block_unused_arm (vfp : Bool) (flags : Nat)
    (ti1 ti2 : Arm.Thread) (ctx : Arm.CONTEXT)
    (hg : ti1.m_gpRegisters = ti2.m_gpRegisters)
    (hx : ti1.m_xRegisters = ti2.m_xRegisters) :
    Arm.GetThreadContext vfp flags ti1 ctx = Arm.GetThreadContext vfp flags ti2 ctx ∧
    ((flags &&& Arm.CONTEXT_FLOATING_POINT) = Arm.CONTEXT_FLOATING_POINT →
      (vfp = true →
        (Arm.GetThreadContext vfp flags ti1 ctx).Fpscr = ti1.m_xRegisters.fpscr ∧
        (Arm.GetThreadContext vfp flags ti1 ctx).D = ti1.m_xRegisters.fpregs) ∧
      (vfp = false →
        (Arm.GetThreadContext vfp flags ti1 ctx).Fpscr = ctx.Fpscr ∧
        (Arm.GetThreadContext vfp flags ti1 ctx).D = ctx.D)) := by
  refine ⟨?_, fun h => ⟨fun hv => ?_, fun hv => ?_⟩⟩
  · simp only [GetThreadContext_shape_arm, hg, hx]
  · subst hv
    simp only [GetThreadContext_shape_arm, if_pos h, if_true]
    exact ⟨trivial, memcpy_whole 8 32 _ _ Arm.sizeof_D (by decide) (by decide)⟩
  · subst hv
    simp only [GetThreadContext_shape_arm, if_pos h, Bool.false_eq_true, if_false]
    exact ⟨trivial, trivial⟩

/-- C16 at concrete inputs: two ARM threads with the same general and VFP blocks and
different `NT_FPREGSET` blocks give the same record with `flags` = FloatingPoint, on a VFP
build with `Fpscr = 0x13` and `D[0] = 1` taken from the VFP block. -/
theorem C16_floating_point_block_unused_arm_witness :
    Arm.scenario.m_fpRegisters.fpsr ≠ Arm.otherFpBlock.m_fpRegisters.fpsr ∧
    Arm.GetThreadContext true Arm.CONTEXT_FLOATING_POINT Arm.scenario Arm.sentinel =
      Arm.GetThreadContext true Arm.CONTEXT_FLOATING_POINT Arm.otherFpBlock Arm.sentinel ∧
    (Arm.GetThreadContext true Arm.CONTEXT_FLOATING_POINT Arm.otherFpBlock
      Arm.sentinel).Fpscr = 0x13 ∧
    (Arm.GetThreadContext true Arm.CONTEXT_FLOATING_POINT Arm.otherFpBlock
      Arm.sentinel).D 0 = 1 :=
  have w := C16_floating_point_block_unused_arm true Arm.CONTEXT_FLOATING_POINT
    Arm.otherFpBlock Arm.scenario Arm.sentinel rfl rfl
  ⟨by decide, w.1.symm, ((w.2 (by decide)).1 rfl).1,
    congrFun ((w.2 (by decide)).1 rfl).2 0⟩

/-- C17: on RISC-V, for every raw general-register block, `GetThreadContext` with `flags` =
Control|Integer writes each Integer register from the raw field of the same name (`Gp`,
`Tp`, `T0..T6`, `S1..S11`, `A0..A7`) and `Ra`, `Sp`, `Fp`, `Pc` from `ra`, `sp`, `s0`, `pc`;
no record field is written by both categories (the four fields the Control branch assigns
are none of the Integer fields, and a call that runs the Integer branch alone leaves them as
they were); and the raw `s0` is not stored by the Integer category: it is the frame pointer
stored into `Fp` by Control, and the Integer fields do not depend on it. -/
theorem C17_control_and_integer_fields_riscv (ti : RiscV.Thread) (ctx : RiscV.CONTEXT) :
    RiscV.integerFields
        (RiscV.GetThreadContext (RiscV.CONTEXT_CONTROL ||| RiscV.CONTEXT_INTEGER) ti ctx) =
      [ti.m_gpRegisters.gp, ti.m_gpRegisters.tp, ti.m_gpRegisters.t0, ti.m_gpRegisters.t1,
       ti.m_gpRegisters.t2, ti.m_gpRegisters.s1, ti.m_gpRegisters.a0, ti.m_gpRegisters.a1,
       ti.m_gpRegisters.a2, ti.m_gpRegisters.a3, ti.m_gpRegisters.a4, ti.m_gpRegisters.a5,
       ti.m_gpRegisters.a6, ti.m_gpRegisters.a7, ti.m_gpRegisters.s2, ti.m_gpRegisters.s3,
       ti.m_gpRegisters.s4, ti.m_gpRegisters.s5, ti.m_gpRegisters.s6, ti.m_gpRegisters.s7,
       ti.m_gpRegisters.s8, ti.m_gpRegisters.s9, ti.m_gpRegisters.s10,
       ti.m_gpRegisters.s11, ti.m_gpRegisters.t3, ti.m_gpRegisters.t4, ti.m_gpRegisters.t5,
       ti.m_gpRegisters.t6] ∧
    RiscV.controlFields
        (RiscV.GetThreadContext (RiscV.CONTEXT_CONTROL ||| RiscV.CONTEXT_INTEGER) ti ctx) =
      [ti.m_gpRegisters.ra, ti.m_gpRegisters.sp, ti.m_gpRegisters.s0, ti.m_gpRegisters.pc] ∧
    (∀ (ra sp fp pc : Nat),
      RiscV.integerFields { ctx with Ra := ra, Sp := sp, Fp := fp, Pc := pc } =
        RiscV.integerFields ctx) ∧
    (∀ (flags : Nat), (flags &&& RiscV.CONTEXT_INTEGER) ≠ 0 →
      (flags &&& RiscV.CONTEXT_CONTROL) ≠ RiscV.CONTEXT_CONTROL →
      RiscV.controlFields (RiscV.GetThreadContext flags ti ctx) = RiscV.controlFields ctx) ∧
    (∀ (s0 : Nat),
      RiscV.integerFields
          (RiscV.GetThreadContext (RiscV.CONTEXT_CONTROL ||| RiscV.CONTEXT_INTEGER)
            { ti with m_gpRegisters := { ti.m_gpRegisters with s0 := s0 } } ctx) =
        RiscV.integerFields
          (RiscV.GetThreadContext (RiscV.CONTEXT_CONTROL ||| RiscV.CONTEXT_INTEGER) ti
            ctx)) := by
  have hC : ((RiscV.CONTEXT_CONTROL ||| RiscV.CONTEXT_INTEGER) &&& RiscV.CONTEXT_CONTROL) =
      RiscV.CONTEXT_CONTROL := by decide
  have hI : ((RiscV.CONTEXT_CONTROL ||| RiscV.CONTEXT_INTEGER) &&& RiscV.CONTEXT_INTEGER) ≠
      0 := by decide
  refine ⟨?_, ?_, fun _ _ _ _ => rfl, fun flags _ hn => ?_, fun s0 => ?_⟩
  · simp only [GetThreadContext_shape_riscv, RiscV.integerFields, if_pos hI]
  · simp only [GetThreadContext_shape_riscv, RiscV.controlFields, if_pos hC]
  · simp only [GetThreadContext_shape_riscv, RiscV.controlFields, if_neg hn]
  · simp only [GetThreadContext_shape_riscv, RiscV.integerFields, if_pos hI]

/-- C17 at a concrete input: the raw fields hold `0x200`, `0x201`, ... in declaration order
(`pc`, `ra`, `sp`, `gp`, `tp`, `t0`, `t1`, `t2`, `s0`, `s1`, `a0`, ...), `flags` =
Control|Integer: `Ra = 0x201`, `Sp = 0x202`, `Fp = 0x208`, `Pc = 0x200`, `Gp = 0x203`,
`S1 = 0x209`, `A0 = 0x20a`, `T6 = 0x21f`. -/
theorem C17_control_and_integer_fields_riscv_witness :
    RiscV.controlFields
        (RiscV.GetThreadContext (RiscV.CONTEXT_CONTROL ||| RiscV.CONTEXT_INTEGER)
          RiscV.scenario RiscV.sentinel) = [0x201, 0x202, 0x208, 0x200] ∧
    RiscV.integerFields
        (RiscV.GetThreadContext (RiscV.CONTEXT_CONTROL ||| RiscV.CONTEXT_INTEGER)
          RiscV.scenario RiscV.sentinel) =
      [0x203, 0x204, 0x205, 0x206, 0x207, 0x209, 0x20a, 0x20b, 0x20c, 0x20d, 0x20e, 0x20f,
       0x210, 0x211, 0x212, 0x213, 0x214, 0x215, 0x216, 0x217, 0x218, 0x219, 0x21a, 0x21b,
       0x21c, 0x21d, 0x21e, 0x21f] ∧
    RiscV.controlFields (RiscV.GetThreadContext 2 RiscV.scenario RiscV.sentinel) =
      [0xAA, 0xAA, 0xAA, 0xAA] :=
  have w := C17_control_and_integer_fields_riscv RiscV.scenario RiscV.sentinel
  ⟨w.2.1, w.1, w.2.2.2.1 2 (by decide) (by decide)⟩

theorem GetThreadContext_zero_loongarch64 (ti : LoongArch64.Thread)
    (ctx : LoongArch64.CONTEXT) :
    LoongArch64.GetThreadContext 0 ti ctx = { ctx with ContextFlags := 0 } := by
  have h1 : ¬ ((0 : Nat) &&& LoongArch64.CONTEXT_CONTROL) ≠ 0 := by decide
  have h2 : ¬ ((0 : Nat) &&& LoongArch64.CONTEXT_INTEGER) ≠ 0 := by decide
  have h3 : ¬ ((0 : Nat) &&& LoongArch64.CONTEXT_FLOATING_POINT) ≠ 0 := by decide
  simp only [LoongArch64.GetThreadContext, if_neg h1, if_neg h2, if_neg h3]

theorem GetThreadContext_zero_riscv (ti : RiscV.Thread) (ctx : RiscV.CONTEXT) :
    RiscV.GetThreadContext 0 ti ctx = { ctx with ContextFlags := 0 } := by
  have h1 : ¬ ((0 : Nat) &&& RiscV.CONTEXT_CONTROL) = RiscV.CONTEXT_CONTROL := by decide
  have h2 : ¬ ((0 : Nat) &&& RiscV.CONTEXT_INTEGER) ≠ 0 := by decide
  have h3 : ¬ ((0 : Nat) &&& RiscV.CONTEXT_FLOATING_POINT) ≠ 0 := by decide
  simp only [RiscV.GetThreadContext, if_neg h1, if_neg h2, if_neg h3]

/-- C18: on every architecture and for every `flags`, `GetThreadContext` stores exactly
`flags` into `ContextFlags`; it is the one field written unconditionally (with `flags = 0`
no other field changes); and after a second call on the same record `ContextFlags` is the
`flags` of that second call, whatever the first call requested. -/
theorem C18_context_flags_overwritten :
    (∀ (flags : Nat) (ti : X64.Thread) (ctx : X64.CONTEXT),
      (X64.GetThreadContext flags ti ctx).ContextFlags = flags) ∧
    (∀ (flags : Nat) (ti : Arm64.Thread) (ctx : Arm64.CONTEXT),
      (Arm64.GetThreadContext flags ti ctx).ContextFlags = flags) ∧
    (∀ (vfp : Bool) (flags : Nat) (ti : Arm.Thread) (ctx : Arm.CONTEXT),
      (Arm.GetThreadContext vfp flags ti ctx).ContextFlags = flags) ∧
    (∀ (flags : Nat) (ti : LoongArch64.Thread) (ctx : LoongArch64.CONTEXT),
      (LoongArch64.GetThreadContext flags ti ctx).ContextFlags = flags) ∧
    (∀ (flags : Nat) (ti : RiscV.Thread) (ctx : RiscV.CONTEXT),
      (RiscV.GetThreadContext flags ti ctx).ContextFlags = flags) ∧
    ((∀ (ti : X64.Thread) (ctx : X64.CONTEXT),
        X64.GetThreadContext 0 ti ctx = { ctx with ContextFlags := 0 }) ∧
      (∀ (ti : Arm64.Thread) (ctx : Arm64.CONTEXT),
        Arm64.GetThreadContext 0 ti ctx = { ctx with ContextFlags := 0 }) ∧
      (∀ (vfp : Bool) (ti : Arm.Thread) (ctx : Arm.CONTEXT),
        Arm.GetThreadContext vfp 0 ti ctx = { ctx with ContextFlags := 0 }) ∧
      (∀ (ti : LoongArch64.Thread) (ctx : LoongArch64.CONTEXT),
        LoongArch64.GetThreadContext 0 ti ctx = { ctx with ContextFlags := 0 }) ∧
      (∀ (ti : RiscV.Thread) (ctx : RiscV.CONTEXT),
        RiscV.GetThreadContext 0 ti ctx = { ctx with ContextFlags := 0 })) ∧
    ((∀ (a b : Nat) (ti : X64.Thread) (ctx : X64.CONTEXT),
        (X64.GetThreadContext b ti (X64.GetThreadContext a ti ctx)).ContextFlags = b) ∧
      (∀ (a b : Nat) (ti : Arm64.Thread) (ctx : Arm64.CONTEXT),
        (Arm64.GetThreadContext b ti (Arm64.GetThreadContext a ti ctx)).ContextFlags = b) ∧
      (∀ (vfp : Bool) (a b : Nat) (ti : Arm.Thread) (ctx : Arm.CONTEXT),
        (Arm.GetThreadContext vfp b ti
          (Arm.GetThreadContext vfp a ti ctx)).ContextFlags = b) ∧
      (∀ (a b : Nat) (ti : LoongArch64.Thread) (ctx : LoongArch64.CONTEXT),
        (LoongArch64.GetThreadContext b ti
          (LoongArch64.GetThreadContext a ti ctx)).ContextFlags = b) ∧
      (∀ (a b : Nat) (ti : RiscV.Thread) (ctx : RiscV.CONTEXT),
        (RiscV.GetThreadContext b ti (RiscV.GetThreadContext a ti ctx)).ContextFlags = b)) := by
  have h1 : ∀ (flags : Nat) (ti : X64.Thread) (ctx : X64.CONTEXT),
      (X64.GetThreadContext flags ti ctx).ContextFlags = flags := fun flags ti ctx => by
    rw [GetThreadContext_shape_x64]
  have h2 : ∀ (flags : Nat) (ti : Arm64.Thread) (ctx : Arm64.CONTEXT),
      (Arm64.GetThreadContext flags ti ctx).ContextFlags = flags := fun flags ti ctx => by
    rw [GetThreadContext_shape_arm64]
  have h3 : ∀ (vfp : Bool) (flags : Nat) (ti : Arm.Thread) (ctx : Arm.CONTEXT),
      (Arm.GetThreadContext vfp flags ti ctx).ContextFlags = flags := fun vfp flags ti ctx => by
    rw [GetThreadContext_shape_arm]
  have h4 : ∀ (flags : Nat) (ti : LoongArch64.Thread) (ctx : LoongArch64.CONTEXT),
      (LoongArch64.GetThreadContext flags ti ctx).ContextFlags = flags :=
    fun flags ti ctx => by rw [GetThreadContext_shape_loongarch64]
  have h5 : ∀ (flags : Nat) (ti : RiscV.Thread) (ctx : RiscV.CONTEXT),
      (RiscV.GetThreadContext flags ti ctx).ContextFlags = flags := fun flags ti ctx => by
    rw [GetThreadContext_shape_riscv]
  exact ⟨h1, h2, h3, h4, h5,
    ⟨GetThreadContext_zero_x64, GetThreadContext_zero_arm64, GetThreadContext_zero_arm,
      GetThreadContext_zero_loongarch64, GetThreadContext_zero_riscv⟩,
    ⟨fun _ b ti _ => h1 b ti _, fun _ b ti _ => h2 b ti _, fun vfp _ b ti _ => h3 vfp b ti _,
      fun _ b ti _ => h4 b ti _, fun _ b ti _ => h5 b ti _⟩⟩

/-- C18 at concrete inputs: on x86-64 a call with Control|Integer followed by a call with
`flags = 0` leaves `ContextFlags = 0` although the Control and Integer fields stay
populated; a call with `flags = 1`, which contains no category constant, stores `1`. -/
theorem C18_context_flags_overwritten_witness :
    (X64.GetThreadContext 0 X64.scenario
      (X64.GetThreadContext (X64.CONTEXT_CONTROL ||| X64.CONTEXT_INTEGER) X64.scenario
        X64.sentinel)).ContextFlags = 0 ∧
    (X64.GetThreadContext 0 X64.scenario
      (X64.GetThreadContext (X64.CONTEXT_CONTROL ||| X64.CONTEXT_INTEGER) X64.scenario
        X64.sentinel)).Rip = 0x400000 ∧
    (X64.GetThreadContext 1 X64.scenario X64.sentinel).ContextFlags = 1 ∧
    (X64.GetThreadContext 1 X64.scenario X64.sentinel).Rip = 0xAA :=
  ⟨C18_context_flags_overwritten.2.2.2.2.2.2.1
      (X64.CONTEXT_CONTROL ||| X64.CONTEXT_INTEGER) 0 X64.scenario X64.sentinel,
   by decide, C18_context_flags_overwritten.1 1 X64.scenario X64.sentinel, by decide⟩

end CreateDump
